import Mathlib

/-!
# Qt Creator: debugger engine selection and CMake reparse orchestration

A shallow embedding of

* `src/plugins/debugger/debuggerrunner.cpp` (engine selection in the
  `DebuggerRunControl` constructor and the run-control lifecycle), and
* `src/plugins/cmakeprojectmanager/cmakebuildsystem.cpp` (the reparse flag
  queue, `triggerParsing` and the scan/parse completion handlers).

Stateful C++ is written as explicit state passing.  Calls that leave the two
files (signals, the reader, the tree scanner, the file system) are recorded in
a trace, and answers of the environment are explicit arguments.

Part 1 holds the definitions, part 2 the theorems.
-/

/-! ## Part 1: definitions -/

namespace QString

/-- The test `QString::endsWith`, on the characters of the two strings. -/
def endsWith (s t : String) : Bool := t.data.isSuffixOf s.data

/-- The test `QString::startsWith`, on the characters of the two strings. -/
def startsWith (s t : String) : Bool := t.data.isPrefixOf s.data

/-- The test `QString::isEmpty`. -/
def isEmpty (s : String) : Bool := s.data.isEmpty

end QString

namespace Debugger

/-- Modelled from the spec: `enum DebuggerEngineType` is declared in
debuggerconstants.h, which is not among the sources.  The spec lists the closed
enumeration of engine kinds; `AllEngineTypes` is the extra enumerator named by
the switch of the constructor. -/
inductive DebuggerEngineType
  | NoEngineType
  | GdbEngineType
  | ScriptEngineType
  | CdbEngineType
  | PdbEngineType
  | TcfEngineType
  | QmlEngineType
  | QmlCppEngineType
  | LldbEngineType
  | AllEngineTypes
  deriving DecidableEq, Repr

open DebuggerEngineType

/-- Modelled from the spec: the numeric value of each enumerator of
`DebuggerEngineType` (debuggerconstants.h is not among the sources).  Each
concrete kind is one bit, so that an `unsigned` is an enabled-engine set. -/
def DebuggerEngineType.toNat : DebuggerEngineType → Nat
  | NoEngineType => 0
  | GdbEngineType => 0x01
  | ScriptEngineType => 0x02
  | CdbEngineType => 0x04
  | PdbEngineType => 0x08
  | TcfEngineType => 0x10
  | QmlEngineType => 0x20
  | QmlCppEngineType => 0x40
  | LldbEngineType => 0x80
  | AllEngineTypes => 0xff

/-- The C++ condition `enabledEngineTypes & k` (non-zero means true). -/
def hasEngine (enabledEngineTypes : Nat) (k : DebuggerEngineType) : Bool :=
  (enabledEngineTypes &&& k.toNat) != 0

/-- Modelled from the spec: `enum DebuggerStartMode` is declared in
debuggerconstants.h, which is not among the sources; the spec gives the start
modes of a debug session. -/
inductive DebuggerStartMode
  | StartInternal
  | AttachToRemote
  | AttachCrashedExternal
  | AttachTcf
  | StartRemoteEngine
  deriving DecidableEq, Repr

open DebuggerStartMode

/-- Modelled from the spec: the flag `CppLanguage` of `DebuggerLanguages`
(debuggerconstants.h is not among the sources): native code. -/
def CppLanguage : Nat := 0x1

/-- Modelled from the spec: the flag `QmlLanguage` of `DebuggerLanguages`
(debuggerconstants.h is not among the sources): the markup overlay language. -/
def QmlLanguage : Nat := 0x2

/-- The C++ condition `activeLangs & l` (non-zero means true). -/
def hasLanguage (activeLangs l : Nat) : Bool := (activeLangs &&& l) != 0

/-! Modelled from the spec: the enumerators of `ProjectExplorer::ToolChainType`
(projectexplorer/toolchain.h is not among the sources); the source switches on
them as plain `int`s. -/

/-- Modelled from the spec: enumerator of `ToolChainType` (toolchain.h is not
among the sources). -/
def ToolChain_GCC : Int := 0
/-- Modelled from the spec: enumerator of `ToolChainType` (toolchain.h is not
among the sources). -/
def ToolChain_LINUX_ICC : Int := 1
/-- Modelled from the spec: enumerator of `ToolChainType` (toolchain.h is not
among the sources). -/
def ToolChain_MinGW : Int := 2
/-- Modelled from the spec: enumerator of `ToolChainType` (toolchain.h is not
among the sources). -/
def ToolChain_MSVC : Int := 3
/-- Modelled from the spec: enumerator of `ToolChainType` (toolchain.h is not
among the sources). -/
def ToolChain_WINCE : Int := 4
/-- Modelled from the spec: enumerator of `ToolChainType` (toolchain.h is not
among the sources). -/
def ToolChain_WINSCW : Int := 5
/-- Modelled from the spec: enumerator of `ToolChainType` (toolchain.h is not
among the sources). -/
def ToolChain_GCCE : Int := 6
/-- Modelled from the spec: enumerator of `ToolChainType` (toolchain.h is not
among the sources). -/
def ToolChain_RVCT2_ARMV5 : Int := 7
/-- Modelled from the spec: enumerator of `ToolChainType` (toolchain.h is not
among the sources). -/
def ToolChain_RVCT2_ARMV6 : Int := 8
/-- Modelled from the spec: enumerator of `ToolChainType` (toolchain.h is not
among the sources). -/
def ToolChain_GCC_MAEMO : Int := 9
/-- Modelled from the spec: enumerator of `ToolChainType` (toolchain.h is not
among the sources). -/
def ToolChain_GCCE_GNUPOC : Int := 10
/-- Modelled from the spec: enumerator of `ToolChainType` (toolchain.h is not
among the sources). -/
def ToolChain_RVCT_ARMV5_GNUPOC : Int := 11
/-- Modelled from the spec: enumerator of `ToolChainType` (toolchain.h is not
among the sources). -/
def ToolChain_OTHER : Int := 200
/-- Modelled from the spec: enumerator of `ToolChainType` (toolchain.h is not
among the sources). -/
def ToolChain_UNKNOWN : Int := 201
/-- Modelled from the spec: enumerator of `ToolChainType` (toolchain.h is not
among the sources). -/
def ToolChain_INVALID : Int := 202

/-- The preprocessor configuration the file is compiled with. -/
structure BuildFlags where
  Q_OS_WIN : Bool
  CDB_ENABLED : Bool
  WITH_LLDB : Bool
  deriving DecidableEq, Repr

/-- The members of `DebuggerStartParameters` that the run control reads or
writes (debuggerengine.h is not among the sources). -/
structure DebuggerStartParameters where
  executable : String
  processArgs : String
  toolChainType : Int
  startMode : DebuggerStartMode
  cppEngineType : DebuggerEngineType
  displayName : String
  deriving DecidableEq, Repr

/-- An engine instance, as far as the run control is concerned: the kind it was
created for and the start parameters it holds. -/
structure DebuggerEngine where
  engineType : DebuggerEngineType
  startParameters : DebuggerStartParameters
  deriving DecidableEq, Repr

/-- The collaborators outside debuggerrunner.cpp that the selection consults:
ambient settings, the PE-file helper, the Cdb and Gdb configuration checks and
the engine factories.  Each is a parameter of the model. -/
structure DebuggerCore where
  /-- The value of `debuggerCore()->activeLanguages()`. -/
  activeLanguages : Nat
  /-- The setting `LLDB/enabled`. -/
  lldbEnabled : Bool
  /-- The result of `Internal::isCdbEngineEnabled()`. -/
  isCdbEngineEnabled : Bool
  /-- The result of `Cdb::isCdbEngineEnabled()`. -/
  cdbIsCdbEngineEnabled : Bool
  /-- The call `getPDBFiles(executable, &pdbFiles, &errorMessage)`: from the
  executable and the current message to success, the files and the message. -/
  getPDBFiles : String → String → Bool × List String × String
  /-- The value of `gdbBinaryForToolChain(toolChain)`. -/
  gdbBinaryForToolChain : Int → String
  /-- The value of `msgNoBinaryForToolChain(toolChain)`. -/
  msgNoBinaryForToolChain : Int → String
  /-- The call `Cdb::checkCdbConfiguration(toolChain, errorMsg, settingsPage)`:
  from the tool chain and the current values to success and the new values. -/
  checkCdbConfiguration : Int → String → String → Bool × String × String
  /-- The value of `GdbOptionsPage::settingsId()`. -/
  gdbSettingsId : String
  /-- The value of `ToolChain::toolChainName`. -/
  toolChainName : Int → String
  createGdbEngine : DebuggerStartParameters → Option DebuggerEngine
  createScriptEngine : DebuggerStartParameters → Option DebuggerEngine
  /-- The call `Cdb::createCdbEngine(sp, &error)`: the engine and the message. -/
  createCdbEngine : DebuggerStartParameters → String → Option DebuggerEngine × String
  createPdbEngine : DebuggerStartParameters → Option DebuggerEngine
  createTcfEngine : DebuggerStartParameters → Option DebuggerEngine
  createQmlEngine : DebuggerStartParameters → Option DebuggerEngine
  createQmlCppEngine : DebuggerStartParameters → Option DebuggerEngine
  createLldbEngine : DebuggerStartParameters → Option DebuggerEngine

/-- The function `msgEngineNotAvailable`: the translated text with `%1`
replaced by the engine name (the translation is the identity). -/
def msgEngineNotAvailable (engine : String) : String :=
  "The application requires the debugger engine '" ++ engine ++ "', which is disabled."

/-- The message of `engineForMode` for post-mortem debugging. -/
def msgNoPostMortemEngine : String :=
  "There is no debugging engine available for post-mortem debugging."

/-- The members of `DebuggerRunControlPrivate` (the back pointer `q` and the
run configuration are left out). -/
structure DebuggerRunControlPrivate where
  m_engine : Option DebuggerEngine
  m_running : Bool
  m_cmdLineEnabledEngines : Nat
  m_errorMessage : String
  m_settingsIdHint : String
  deriving DecidableEq, Repr

/-- The constructor of `DebuggerRunControlPrivate`. -/
def DebuggerRunControlPrivate.init (enabledEngines : Nat) : DebuggerRunControlPrivate :=
  { m_engine := none, m_running := false, m_cmdLineEnabledEngines := enabledEngines,
    m_errorMessage := "", m_settingsIdHint := "" }

/-- The method `DebuggerRunControlPrivate::enabledEngines`: with `CDB_ENABLED`
the Cdb bit is cleared (`rc &= ~CdbEngineType` on a 32-bit `unsigned`) when
both configuration checks say the Cdb engine is off. -/
def DebuggerRunControlPrivate.enabledEngines (b : BuildFlags) (core : DebuggerCore)
    (d : DebuggerRunControlPrivate) : Nat :=
  let rc := d.m_cmdLineEnabledEngines
  if b.CDB_ENABLED && (!core.isCdbEngineEnabled && !core.cdbIsCdbEngineEnabled) then
    rc &&& (0xFFFFFFFF - CdbEngineType.toNat)
  else rc

/-- The result of `checkDebugConfiguration`: the return value and the values
left in the three out-parameters (`settingsCategory` may be a null pointer). -/
structure CheckResult where
  success : Bool
  errorMessage : String
  settingsCategory : Option String
  settingsPage : String
  deriving DecidableEq, Repr

/-- Modelled from the spec: the constant `Constants::DEBUGGER_SETTINGS_CATEGORY`
(debuggerconstants.h is not among the sources). -/
def DEBUGGER_SETTINGS_CATEGORY : String := "O.Debugger"

/-- The static method `DebuggerRunControl::checkDebugConfiguration`.  The
argument `settingsCategory` says whether that pointer is non-null; the pointer
`settingsPage` is taken as non-null, as at both call sites of the file (the Gdb
branch writes through it unguarded). -/
def checkDebugConfiguration (core : DebuggerCore) (toolChain : Int)
    (settingsCategory : Bool) : CheckResult :=
  -- errorMessage->clear(); settingsCategory->clear(); settingsPage->clear();
  let cat : Option String := if settingsCategory then some "" else none
  if !(hasLanguage core.activeLanguages CppLanguage) then
    { success := true, errorMessage := "", settingsCategory := cat, settingsPage := "" }
  else
    let r : Bool × String × String :=
      if toolChain = ToolChain_GCC ∨ toolChain = ToolChain_LINUX_ICC
          ∨ toolChain = ToolChain_MinGW ∨ toolChain = ToolChain_WINCE
          ∨ toolChain = ToolChain_WINSCW ∨ toolChain = ToolChain_GCCE
          ∨ toolChain = ToolChain_RVCT2_ARMV5 ∨ toolChain = ToolChain_RVCT2_ARMV6 then
        if QString.isEmpty (core.gdbBinaryForToolChain toolChain) then
          (false, core.msgNoBinaryForToolChain toolChain ++ msgEngineNotAvailable "Gdb",
            core.gdbSettingsId)
        else (true, "", "")
      else if toolChain = ToolChain_MSVC then
        let c := core.checkCdbConfiguration toolChain "" ""
        if !c.1 then (false, c.2.1 ++ msgEngineNotAvailable "Cdb", "Cdb")
        else (true, c.2.1, c.2.2)
      else (true, "", "")
    let cat2 : Option String :=
      if !r.1 && settingsCategory && !(QString.isEmpty r.2.2) then
        some DEBUGGER_SETTINGS_CATEGORY
      else cat
    { success := r.1, errorMessage := r.2.1, settingsCategory := cat2, settingsPage := r.2.2 }

/-- The method `DebuggerRunControlPrivate::engineForExecutable`, with both
branches of `#ifdef Q_OS_WIN`.  Returns the engine kind and the private data
with the messages it set. -/
def engineForExecutable (b : BuildFlags) (core : DebuggerCore)
    (d : DebuggerRunControlPrivate) (enabledEngineTypes : Nat) (executable : String) :
    DebuggerEngineType × DebuggerRunControlPrivate :=
  if QString.endsWith executable ".js" && hasEngine enabledEngineTypes ScriptEngineType then
    (ScriptEngineType, d)
  else
    let d1 := if QString.endsWith executable ".js" then
        { d with m_errorMessage := msgEngineNotAvailable "Script Engine" } else d
    if QString.endsWith executable ".py" && hasEngine enabledEngineTypes PdbEngineType then
      (PdbEngineType, d1)
    else
      let d2 := if QString.endsWith executable ".py" then
          { d1 with m_errorMessage := msgEngineNotAvailable "Pdb Engine" } else d1
      if b.Q_OS_WIN then
        -- A remote executable?
        if !(QString.endsWith executable ".exe") then (GdbEngineType, d2)
        else
          -- If a file has PDB files, it has been compiled by VS.
          let p := core.getPDBFiles executable d2.m_errorMessage
          let d3 := { d2 with m_errorMessage := p.2.2 }
          if !p.1 then (NoEngineType, d3)
          else if p.2.1.isEmpty then (GdbEngineType, d3)
          else
            let c := checkDebugConfiguration core ToolChain_MSVC false
            let d4 := { d3 with m_errorMessage := c.errorMessage,
                                m_settingsIdHint := c.settingsPage }
            if c.success then
              if hasEngine enabledEngineTypes CdbEngineType then (CdbEngineType, d4)
              else (NoEngineType, { d4 with m_errorMessage := msgEngineNotAvailable "Cdb Engine" })
            else (NoEngineType, d4)
      else
        if hasEngine enabledEngineTypes GdbEngineType then (GdbEngineType, d2)
        else (NoEngineType, { d2 with m_errorMessage := msgEngineNotAvailable "Gdb Engine" })

/-- The method `DebuggerRunControlPrivate::engineForMode`, with both branches
of `#ifdef Q_OS_WIN`. -/
def engineForMode (b : BuildFlags) (d : DebuggerRunControlPrivate)
    (enabledEngineTypes : Nat) (startMode : DebuggerStartMode) :
    DebuggerEngineType × DebuggerRunControlPrivate :=
  if startMode = AttachTcf then (TcfEngineType, d)
  else if b.Q_OS_WIN then
    -- Preferably Windows debugger for attaching locally.
    if startMode ≠ AttachToRemote ∧ hasEngine enabledEngineTypes CdbEngineType = true then
      (CdbEngineType, d)
    else if startMode = AttachCrashedExternal then
      (NoEngineType, { d with m_errorMessage := msgNoPostMortemEngine })
    else (GdbEngineType, d)
  else (GdbEngineType, d)

/-- The static function `engineForToolChain`; with `WITH_LLDB` the setting
`LLDB/enabled` overrides the Gdb answer. -/
def engineForToolChain (b : BuildFlags) (core : DebuggerCore) (toolChainType : Int) :
    DebuggerEngineType :=
  if toolChainType = ToolChain_LINUX_ICC ∨ toolChainType = ToolChain_MinGW
      ∨ toolChainType = ToolChain_GCC ∨ toolChainType = ToolChain_WINSCW
      ∨ toolChainType = ToolChain_GCCE ∨ toolChainType = ToolChain_RVCT2_ARMV5
      ∨ toolChainType = ToolChain_RVCT2_ARMV6 ∨ toolChainType = ToolChain_RVCT_ARMV5_GNUPOC
      ∨ toolChainType = ToolChain_GCCE_GNUPOC ∨ toolChainType = ToolChain_GCC_MAEMO then
    if b.WITH_LLDB && core.lldbEnabled then LldbEngineType else GdbEngineType
  else if toolChainType = ToolChain_MSVC ∨ toolChainType = ToolChain_WINCE then
    CdbEngineType
  else NoEngineType

/-- The calls and signals that leave the run control, in the order made. -/
inductive RunControlEvent
  | started
  | finished
  | addToOutputWindowInline (msg : String) (onStdErr : Bool)
  | appendMessage (msg : String) (isError : Bool)
  | runControlStarted (engine : DebuggerEngine)
  | runControlFinished (engine : Option DebuggerEngine)
  | engineStartDebugger
  | engineHandleStartFailed
  | engineHandleFinished
  | engineQuitDebugger
  | showWarningWithOptions (title msg settingsCategory settingsId : String)
  deriving DecidableEq, Repr

/-- A `DebuggerRunControl`: its private data and the trace of what it emitted
and called so far. -/
structure DebuggerRunControl where
  d : DebuggerRunControlPrivate
  trace : List RunControlEvent
  deriving DecidableEq, Repr

/-- The slot `DebuggerRunControl::handleFinished`. -/
def DebuggerRunControl.handleFinished (q : DebuggerRunControl) : DebuggerRunControl :=
  let t1 := q.trace ++ [RunControlEvent.addToOutputWindowInline "Debugging has finished" false]
  let t2 := if q.d.m_engine.isSome then t1 ++ [RunControlEvent.engineHandleFinished] else t1
  { q with trace := t2 ++ [RunControlEvent.runControlFinished q.d.m_engine] }

/-- The method `DebuggerRunControl::debuggingFinished`; the constructor
connects the signal `finished()` to the slot `handleFinished()`, which
therefore runs at the emission. -/
def DebuggerRunControl.debuggingFinished (q : DebuggerRunControl) : DebuggerRunControl :=
  DebuggerRunControl.handleFinished
    { d := { q.d with m_running := false }, trace := q.trace ++ [RunControlEvent.finished] }

/-- The outcome of the selection sequence of the constructor: the engine kind,
the (possibly adjusted) start parameters and the private data with the message
set on the way. -/
structure Selection where
  engineType : DebuggerEngineType
  sp : DebuggerStartParameters
  d : DebuggerRunControlPrivate
  deriving DecidableEq, Repr

/-- Lines 272-282 of the constructor: the script kinds by the name of the
executable, otherwise the tool chain table with the Cdb availability test. -/
def selectByNameOrToolChain (b : BuildFlags) (core : DebuggerCore)
    (d : DebuggerRunControlPrivate) (sp : DebuggerStartParameters)
    (enabledEngineTypes : Nat) : DebuggerEngineType × DebuggerRunControlPrivate :=
  if QString.endsWith sp.executable ".js" then (ScriptEngineType, d)
  else if QString.endsWith sp.executable ".py" then (PdbEngineType, d)
  else
    let engineType := engineForToolChain b core sp.toolChainType
    if engineType = CdbEngineType ∧ hasEngine enabledEngineTypes CdbEngineType = false then
      (NoEngineType, { d with m_errorMessage := msgEngineNotAvailable "Cdb Engine" })
    else (engineType, d)

/-- Lines 267-299 of the constructor: the engine kind before the adjustment to
the active languages. -/
def selectEngineType (b : BuildFlags) (core : DebuggerCore)
    (d : DebuggerRunControlPrivate) (sp : DebuggerStartParameters) :
    DebuggerEngineType × DebuggerRunControlPrivate :=
  let enabledEngineTypes := d.enabledEngines b core
  let r1 := selectByNameOrToolChain b core d sp enabledEngineTypes
  -- FIXME: Unclean ipc override.
  let e2 := if sp.startMode = StartRemoteEngine then LldbEngineType else r1.1
  -- FIXME: 1 of 3 testing hacks.
  let e3 := if QString.startsWith sp.processArgs "@tcf@ " then GdbEngineType else e2
  let r4 :=
    if e3 = NoEngineType ∧ sp.startMode ≠ AttachToRemote
        ∧ QString.isEmpty sp.executable = false then
      engineForExecutable b core r1.2 enabledEngineTypes sp.executable
    else (e3, r1.2)
  if r4.1 = NoEngineType then engineForMode b r4.2 enabledEngineTypes sp.startMode
  else r4

/-- Lines 301-309 of the constructor: the adjustment to the active languages. -/
def adjustForLanguages (activeLangs : Nat) (engineType : DebuggerEngineType)
    (sp : DebuggerStartParameters) : DebuggerEngineType × DebuggerStartParameters :=
  if (engineType ≠ QmlEngineType ∧ engineType ≠ NoEngineType)
      ∧ hasLanguage activeLangs QmlLanguage = true then
    if hasLanguage activeLangs CppLanguage then
      (QmlCppEngineType, { sp with cppEngineType := engineType })
    else (QmlEngineType, sp)
  else (engineType, sp)

/-- Lines 267-309 of the constructor: the whole selection sequence, starting
from freshly constructed private data. -/
def DebuggerRunControl.selection (b : BuildFlags) (core : DebuggerCore)
    (enabledEngines : Nat) (startParams : DebuggerStartParameters) : Selection :=
  let d := DebuggerRunControlPrivate.init enabledEngines
  let r := selectEngineType b core d startParams
  let a := adjustForLanguages core.activeLanguages r.1 startParams
  { engineType := a.1, sp := a.2, d := r.2 }

/-- Lines 313-340 of the constructor: the switch that creates the engine.  The
result is the engine pointer (none for null) and the error message, which only
the Cdb factory may write. -/
def createEngine (core : DebuggerCore) (engineType : DebuggerEngineType)
    (sp : DebuggerStartParameters) (errorMessage : String) :
    Option DebuggerEngine × String :=
  match engineType with
  | GdbEngineType => (core.createGdbEngine sp, errorMessage)
  | ScriptEngineType => (core.createScriptEngine sp, errorMessage)
  | CdbEngineType => core.createCdbEngine sp errorMessage
  | PdbEngineType => (core.createPdbEngine sp, errorMessage)
  | TcfEngineType => (core.createTcfEngine sp, errorMessage)
  | QmlEngineType => (core.createQmlEngine sp, errorMessage)
  | QmlCppEngineType => (core.createQmlCppEngine sp, errorMessage)
  | LldbEngineType => (core.createLldbEngine sp, errorMessage)
  | NoEngineType => (none, errorMessage)
  | AllEngineTypes => (none, errorMessage)

/-- The text of the warning box of the constructor. -/
def msgCannotDebug (executable toolChainName errorMessage : String) : String :=
  "Cannot debug '" ++ executable ++ "' (tool chain: '" ++ toolChainName ++ "'): "
    ++ errorMessage

/-- The constructor `DebuggerRunControl::DebuggerRunControl`. -/
def DebuggerRunControl.ctor (b : BuildFlags) (core : DebuggerCore)
    (enabledEngines : Nat) (startParams : DebuggerStartParameters) : DebuggerRunControl :=
  let sel := DebuggerRunControl.selection b core enabledEngines startParams
  let c := createEngine core sel.engineType sel.sp sel.d.m_errorMessage
  let q : DebuggerRunControl :=
    { d := { sel.d with m_engine := c.1, m_errorMessage := c.2 }, trace := [] }
  if q.d.m_engine.isNone then
    -- Could not find anything suitable.
    let q1 := DebuggerRunControl.debuggingFinished q
    { q1 with trace := q1.trace ++ [RunControlEvent.showWarningWithOptions "Warning"
        (msgCannotDebug sel.sp.executable (core.toolChainName sel.sp.toolChainType)
          q1.d.m_errorMessage)
        DEBUGGER_SETTINGS_CATEGORY q1.d.m_settingsIdHint] }
  else q

/-! ### The lifecycle of the run control -/

/-- The result type `RunControl::StopResult` of `stop()`. -/
inductive StopResult
  | StoppedSynchronously
  | AsynchronousStop
  deriving DecidableEq, Repr

/-- The method `DebuggerRunControl::startFailed`; the emission of `finished()`
runs the connected slot `handleFinished()`. -/
def DebuggerRunControl.startFailed (q : DebuggerRunControl) : DebuggerRunControl :=
  let q1 : DebuggerRunControl :=
    { d := { q.d with m_running := false },
      trace := q.trace ++ [RunControlEvent.addToOutputWindowInline "Debugging has failed" false,
                           RunControlEvent.finished] }
  let q2 := DebuggerRunControl.handleFinished q1
  { q2 with trace := q2.trace ++ [RunControlEvent.engineHandleStartFailed] }

/-- Lines 436-441 of `start()`: the core is told, `started()` is emitted and
the running flag is set; the engine has not been called yet. -/
def DebuggerRunControl.startPrologue (engine : DebuggerEngine) (q : DebuggerRunControl) :
    DebuggerRunControl :=
  { d := { q.d with m_running := true },
    trace := q.trace ++ [RunControlEvent.runControlStarted engine, RunControlEvent.started] }

/-- Modelled from the spec: the call `d->m_engine->startDebugger(this)`
(debuggerengine.cpp is not among the sources): the start sequence of the engine
either reports a synchronous start failure, by calling `startFailed()` on the
run control before it returns, or returns without calling back. -/
def DebuggerRunControl.engineStartDebugger (startFailsSynchronously : Bool)
    (q : DebuggerRunControl) : DebuggerRunControl :=
  let q1 := { q with trace := q.trace ++ [RunControlEvent.engineStartDebugger] }
  if startFailsSynchronously then DebuggerRunControl.startFailed q1 else q1

/-- The method `DebuggerRunControl::start`.  Without an engine the assertion
`QTC_ASSERT(d->m_engine, return)` ends the call; the failed assertion only
writes a debug message, which is not part of the trace. -/
def DebuggerRunControl.start (startFailsSynchronously : Bool) (q : DebuggerRunControl) :
    DebuggerRunControl :=
  match q.d.m_engine with
  | none => q
  | some engine =>
    -- We might get a synchronous startFailed() notification on Windows,
    -- when launching the process fails. Emit a proper finished() sequence.
    let q1 := DebuggerRunControl.startPrologue engine q
    let q2 := DebuggerRunControl.engineStartDebugger startFailsSynchronously q1
    if q2.d.m_running then
      { q2 with trace := q2.trace ++
          [RunControlEvent.addToOutputWindowInline "Debugging starts" false,
           RunControlEvent.addToOutputWindowInline "\n" false] }
    else q2

/-- The method `DebuggerRunControl::stop`: the result and the state left
behind.  Without an engine the assertion returns `StoppedSynchronously`. -/
def DebuggerRunControl.stop (q : DebuggerRunControl) : StopResult × DebuggerRunControl :=
  match q.d.m_engine with
  | none => (StopResult.StoppedSynchronously, q)
  | some _ =>
    (StopResult.AsynchronousStop,
      { q with trace := q.trace ++ [RunControlEvent.engineQuitDebugger] })

/-- The method `DebuggerRunControl::isRunning`. -/
def DebuggerRunControl.isRunning (q : DebuggerRunControl) : Bool := q.d.m_running

/-- How often the signal `finished()` occurs in a list of events. -/
def finishedCount (l : List RunControlEvent) : Nat := l.count RunControlEvent.finished

/-- Whether an event is a call into the engine. -/
def isEngineCall : RunControlEvent → Bool
  | RunControlEvent.engineStartDebugger => true
  | RunControlEvent.engineHandleStartFailed => true
  | RunControlEvent.engineHandleFinished => true
  | RunControlEvent.engineQuitDebugger => true
  | _ => false

/-- The events a step added to the trace of a run control. -/
def eventsSince (q q2 : DebuggerRunControl) : List RunControlEvent :=
  q2.trace.drop q.trace.length

/-! ### Example inputs -/

/-- The start parameters of scenario A: the script `app.py`, started locally. -/
def scenarioAParameters : DebuggerStartParameters :=
  { executable := "app.py", processArgs := "", toolChainType := ToolChain_GCC,
    startMode := StartInternal, cppEngineType := NoEngineType, displayName := "app" }

/-- Start parameters of a native executable built with the MSVC tool chain. -/
def msvcParameters : DebuggerStartParameters :=
  { executable := "a.out", processArgs := "", toolChainType := ToolChain_MSVC,
    startMode := StartInternal, cppEngineType := NoEngineType, displayName := "a" }

/-- Start parameters of a post-mortem attach without an executable, for the MSVC
tool chain. -/
def crashParameters : DebuggerStartParameters :=
  { executable := "", processArgs := "", toolChainType := ToolChain_MSVC,
    startMode := AttachCrashedExternal, cppEngineType := NoEngineType, displayName := "crash" }

/-- A debugger core with C++ as the only active language, in which every check
passes and every factory yields an engine of its kind. -/
def plainCore : DebuggerCore :=
  { activeLanguages := CppLanguage
    lldbEnabled := false
    isCdbEngineEnabled := true
    cdbIsCdbEngineEnabled := true
    getPDBFiles := fun _ m => (true, [], m)
    gdbBinaryForToolChain := fun _ => "gdb"
    msgNoBinaryForToolChain := fun _ => "no gdb binary"
    checkCdbConfiguration := fun _ e p => (true, e, p)
    gdbSettingsId := "M.Gdb"
    toolChainName := fun _ => "tool chain"
    createGdbEngine := fun sp => some { engineType := GdbEngineType, startParameters := sp }
    createScriptEngine := fun sp => some { engineType := ScriptEngineType, startParameters := sp }
    createCdbEngine := fun sp e => (some { engineType := CdbEngineType, startParameters := sp }, e)
    createPdbEngine := fun sp => some { engineType := PdbEngineType, startParameters := sp }
    createTcfEngine := fun sp => some { engineType := TcfEngineType, startParameters := sp }
    createQmlEngine := fun sp => some { engineType := QmlEngineType, startParameters := sp }
    createQmlCppEngine := fun sp => some { engineType := QmlCppEngineType, startParameters := sp }
    createLldbEngine := fun sp => some { engineType := LldbEngineType, startParameters := sp } }

/-- The build without `Q_OS_WIN`, `CDB_ENABLED` and `WITH_LLDB`. -/
def unixBuild : BuildFlags := { Q_OS_WIN := false, CDB_ENABLED := false, WITH_LLDB := false }

/-- The build with `Q_OS_WIN` and `CDB_ENABLED`. -/
def windowsBuild : BuildFlags := { Q_OS_WIN := true, CDB_ENABLED := true, WITH_LLDB := false }

/-- A run control whose engine selection failed: the post-mortem attach in the
Windows build with only Gdb enabled. -/
def failedRunControl : DebuggerRunControl :=
  DebuggerRunControl.ctor windowsBuild plainCore 1 crashParameters

/-- A run control that holds a Gdb engine: the native executable with the GCC
tool chain, every engine enabled. -/
def gdbRunControl : DebuggerRunControl :=
  DebuggerRunControl.ctor unixBuild plainCore 0xff
    { msvcParameters with toolChainType := ToolChain_GCC }

/-- Start parameters of a remote engine start whose arguments carry the `@tcf@`
marker. -/
def remoteTcfParameters : DebuggerStartParameters :=
  { executable := "a.out", processArgs := "@tcf@ port", toolChainType := ToolChain_GCC,
    startMode := StartRemoteEngine, cppEngineType := NoEngineType, displayName := "remote" }

/-- A debugger core like the plain one in which no tool chain has a gdb
binary. -/
def noGdbCore : DebuggerCore :=
  { plainCore with gdbBinaryForToolChain := fun _ => "" }

/-- A debugger core like the plain one in which the Cdb configuration check
fails. -/
def noCdbCore : DebuggerCore :=
  { plainCore with checkCdbConfiguration := fun _ _ _ => (false, "no cdb", "") }

end Debugger

namespace CMakeProjectManager

/-! ### Data of cmakebuildsystem.cpp -/

/-- A `Utils::FilePath`, by its string. -/
abbrev FilePath := String

/-- Modelled from the spec: `FilePath::pathAppended` and `operator/`
(utils/fileutils.h is not among the sources): the path of an entry of a
directory. -/
def pathAppended (dir : FilePath) (name : String) : FilePath := dir ++ "/" ++ name

/-! Modelled from the spec: `enum ReparseParameters` is declared in
cmakebuildsystem.h, which is not among the sources.  The spec describes the
flags as independent orthogonal bits and `REPARSE_DEFAULT` as the empty set.
The member `m_reparseParameters` is an `int` used only with `|` and `&`; the
model holds its bit pattern as a natural number. -/

/-- Modelled from the spec: enumerator of `ReparseParameters` (cmakebuildsystem.h
is not among the sources): the empty flag set. -/
def REPARSE_DEFAULT : Nat := 0
/-- Modelled from the spec: enumerator of `ReparseParameters` (cmakebuildsystem.h
is not among the sources): force the tool run. -/
def REPARSE_FORCE_CMAKE_RUN : Nat := 1
/-- Modelled from the spec: enumerator of `ReparseParameters` (cmakebuildsystem.h
is not among the sources): force the configuration rewrite. -/
def REPARSE_FORCE_CONFIGURATION : Nat := 2
/-- Modelled from the spec: enumerator of `ReparseParameters` (cmakebuildsystem.h
is not among the sources): check for configuration drift. -/
def REPARSE_CHECK_CONFIGURATION : Nat := 4
/-- Modelled from the spec: enumerator of `ReparseParameters` (cmakebuildsystem.h
is not among the sources): scan the file tree. -/
def REPARSE_SCAN : Nat := 8
/-- Modelled from the spec: enumerator of `ReparseParameters` (cmakebuildsystem.h
is not among the sources): do not delay the parser run. -/
def REPARSE_URGENT : Nat := 16

/-- Modelled from the spec: `enum TargetType` of a build target
(cmakebuildtarget.h is not among the sources). -/
inductive TargetType
  | ExecutableType
  | StaticLibraryType
  | DynamicLibraryType
  | UtilityType
  | UnknownType
  deriving DecidableEq, Repr

open TargetType

/-- The members of `CMakeBuildTarget` the file reads (cmakebuildtarget.h is not
among the sources). -/
structure CMakeBuildTarget where
  title : String
  executable : FilePath
  targetType : TargetType
  workingDirectory : FilePath
  sourceDirectory : FilePath
  libraryDirectories : List FilePath
  linksToQtGui : Bool
  deriving DecidableEq, Repr

/-- A `FileNode` of the scanned tree: path, type and generated flag. -/
structure FileNode where
  filePath : FilePath
  fileType : Nat
  isGenerated : Bool
  deriving DecidableEq, Repr

/-- The members of `CMakeConfigItem` the file reads (cmakeconfigitem.h is not
among the sources); keys and values are byte arrays, held as strings. -/
structure CMakeConfigItem where
  key : String
  value : String
  inCMakeCache : Bool
  values : List String
  deriving DecidableEq, Repr

/-- The default-constructed `CMakeConfigItem`. -/
def CMakeConfigItem.null : CMakeConfigItem :=
  { key := "", value := "", inCMakeCache := false, values := [] }

/-- Modelled from the spec: `CMakeConfigItem::isNull` (cmakeconfigitem.h is not
among the sources): an item without a key. -/
def CMakeConfigItem.isNull (i : CMakeConfigItem) : Bool := QString.isEmpty i.key

/-- A `CMakeConfig`: a list of items. -/
abbrev CMakeConfig := List CMakeConfigItem

/-- The members of `CMakeTool` the file reads. -/
structure CMakeTool where
  isAutoRun : Bool
  autoCreateBuildDirectory : Bool
  cmakeExecutable : FilePath
  deriving DecidableEq, Repr

/-- The members of `BuildDirParameters` the file reads (builddirparameters.h is
not among the sources).  `isValid` is the value of `isValid()`, and
`expanderPresent` says whether the pointer `expander` is non-null. -/
structure BuildDirParameters where
  isValid : Bool
  cmakeTool : Option CMakeTool
  workDirectory : FilePath
  buildDirectory : FilePath
  generator : String
  extraGenerator : String
  configuration : CMakeConfig
  expanderPresent : Bool
  deriving DecidableEq, Repr

/-- Modelled from the spec: `Project::ParseGuard` (projectexplorer/buildsystem.h
is not among the sources): a token for "a parse is in flight for the project".
`guardsProject` says whether the token is live, `success` what it reports
when it is released. -/
structure ParseGuard where
  guardsProject : Bool
  success : Bool
  deriving DecidableEq, Repr

/-- The default-constructed guard `{}`: it guards nothing. -/
def ParseGuard.empty : ParseGuard := { guardsProject := false, success := false }

/-- Modelled from the spec: the `ConfigReader` (`FileApiReader`, fileapireader.h
is not among the sources): whether a run is in flight, and the parse results it
retains until they are taken or reset, with the messages the two `take` calls
report. -/
structure FileApiReader where
  isParsing : Bool
  buildTargets : List CMakeBuildTarget
  buildTargetsError : String
  cache : CMakeConfig
  cacheError : String
  deriving DecidableEq, Repr

/-- Modelled from the spec: the `AsyncFileScanner` (`TreeScanner`,
projectexplorer/treescanner.h is not among the sources): whether a scan is in
flight, and the nodes that `release()` hands out. -/
structure TreeScanner where
  scanning : Bool
  result : List FileNode
  deriving DecidableEq, Repr

/-- The members of `CMakeBuildConfiguration` the file reads and writes. -/
structure CMakeBuildConfiguration where
  isActive : Bool
  buildDirectory : FilePath
  configurationFromCMake : CMakeConfig
  configurationForCMake : CMakeConfig
  error : String
  deriving DecidableEq, Repr

/-- The project and kit properties the file reads. -/
structure Project where
  projectDirectory : FilePath
  displayName : String
  /-- Whether the device type of the kit is the Android device type. -/
  forAndroid : Bool
  deriving DecidableEq, Repr

/-- The file system, by the list of the paths that exist. -/
structure Disk where
  existing : List FilePath
  deriving DecidableEq, Repr

/-- The test `exists()` of a path. -/
def Disk.pathExists (fs : Disk) (p : FilePath) : Bool := fs.existing.contains p

/-- The call `Utils::FileUtils::removeRecursively(p)`: the path and everything
below it are gone afterwards. -/
def Disk.removeRecursively (fs : Disk) (p : FilePath) : Disk :=
  { existing := fs.existing.filter
      (fun q => !(q == p) && !(QString.startsWith q (p ++ "/"))) }

/-- A path comes into existence (a directory is created, a file is written). -/
def Disk.create (fs : Disk) (p : FilePath) : Disk :=
  if fs.pathExists p then fs else { existing := fs.existing ++ [p] }

/-- A `Utils::TemporaryDirectory`: its path and whether creating it worked. -/
structure TemporaryDirectory where
  path : FilePath
  isValid : Bool
  deriving DecidableEq, Repr

/-- A `BuildTargetInfo` as filled by `appTargets` (the closure
`runEnvModifier` captures only `buildKey`). -/
structure BuildTargetInfo where
  displayName : String
  targetFilePath : FilePath
  projectFilePath : FilePath
  workingDirectory : FilePath
  buildKey : String
  usesTerminal : Bool
  deriving DecidableEq, Repr

/-- The type tag of a `DeployableFile`. -/
inductive DeployableFileType
  | TypeNormal
  | TypeExecutable
  deriving DecidableEq, Repr

/-- A `DeployableFile`: local path, remote directory and type. -/
structure DeployableFile where
  localFilePath : FilePath
  remoteDirectory : String
  fileType : DeployableFileType
  deriving DecidableEq, Repr

/-- A `DeploymentData`: the list of its files. -/
abbrev DeploymentData := List DeployableFile

/-- The button of the "project has been changed" box the user clicked. -/
inductive ClickedButton
  | applyButton
  | defaultButton
  | noButton
  deriving DecidableEq, Repr

/-- The calls and signals that leave the build system, in the order made. -/
inductive Effect
  | parsingStarted
  | parsingFinished (success : Bool)
  | readerStop
  | readerResetData
  | readerParse (forceCMakeRun forceConfiguration : Bool)
  | scannerStart (directory : FilePath)
  | scannerBusy
  | clearTasks
  | updateProjectData
  | projectDataPublished (allFiles : List FileNode) (buildTargets : List CMakeBuildTarget)
      (configurationFromCMake : List CMakeConfigItem)
  | markAsSuccess
  | buildSystemUpdated
  | changedOutsideBox (changedKeys : List (String × String × String))
  | writeSettingsFile (path : FilePath) (contents : String)
  | removeRecursively (path : FilePath)
  | softAssert (condition : String)
  deriving DecidableEq, Repr

/-- The pure helpers outside the file: macro expansion, the text of one settings
line, the deployment manifest reader and path arithmetic. -/
structure World where
  /-- The value of `expander->expand(value)`. -/
  expand : String → String
  /-- The value of `item.toCMakeSetLine(expander)`. -/
  toCMakeSetLine : CMakeConfigItem → String
  /-- The call `addFilesFromDeploymentFile(path, sourceDir)`: the deployment
  prefix and the entries read. -/
  addFilesFromDeploymentFile : FilePath → FilePath → String × List DeployableFile
  /-- The value of `buildDir.relativeFilePath(executable.toFileInfo().dir().path())`. -/
  relativeDirOf : FilePath → FilePath → String
  /-- The value of `path.toUserOutput()`. -/
  toUserOutput : FilePath → String

/-- The answers of the environment during one call: whether `stop()` ends the
run of the reader at once, the button clicked in the box, whether
`createBuildDirectory()` works, the temporary directory a new
`TemporaryDirectory` yields, and whether the settings file can be opened. -/
structure Answers where
  readerStopsAtOnce : Bool
  clickedButton : ClickedButton
  createBuildDirectory : Bool
  temporaryDirectory : TemporaryDirectory
  settingsFileOpens : Bool
  deriving DecidableEq, Repr

/-- The state of a `CMakeBuildSystem`: its members, the members of the base
class it sets, the collaborators it talks to, and the trace of its calls. -/
structure CMakeBuildSystem where
  m_reparseParameters : Nat
  m_waitingForScan : Bool
  m_waitingForParse : Bool
  m_combinedScanAndParseResult : Bool
  m_allFiles : List FileNode
  m_buildTargets : List CMakeBuildTarget
  m_currentGuard : ParseGuard
  m_parameters : BuildDirParameters
  m_isHandlingError : Bool
  m_buildDirToTempDir : List (FilePath × TemporaryDirectory)
  m_reader : FileApiReader
  m_treeScanner : TreeScanner
  /-- The value set by `setApplicationTargets` (member of the base class). -/
  baseApplicationTargets : List BuildTargetInfo
  /-- The value set by `setDeploymentData` (member of the base class). -/
  baseDeploymentData : DeploymentData
  bc : CMakeBuildConfiguration
  project : Project
  fs : Disk
  trace : List Effect
  deriving DecidableEq, Repr

/-! ### Collaborators, as the spec describes them -/

/-- Modelled from the spec: `FileApiReader::stop` (fileapireader.cpp is not among
the sources): cancellation is requested; termination is best effort, so whether
the run has ended when the call returns is an answer of the environment. -/
def FileApiReader.stop (stopsAtOnce : Bool) (r : FileApiReader) : FileApiReader :=
  { r with isParsing := r.isParsing && !stopsAtOnce }

/-- Modelled from the spec: `FileApiReader::resetData` (fileapireader.cpp is not
among the sources): clears the retained parse results; idempotent. -/
def FileApiReader.resetData (r : FileApiReader) : FileApiReader :=
  { r with buildTargets := [], buildTargetsError := "", cache := [], cacheError := "" }

/-- Modelled from the spec: `FileApiReader::parse` (fileapireader.cpp is not
among the sources): the reader leaves Idle, a run is in flight. -/
def FileApiReader.parse (r : FileApiReader) : FileApiReader :=
  { r with isParsing := true }

/-- Modelled from the spec: `FileApiReader::takeBuildTargets` (fileapireader.cpp
is not among the sources): hands out the retained targets and the message. -/
def FileApiReader.takeBuildTargets (r : FileApiReader) :
    List CMakeBuildTarget × String × FileApiReader :=
  (r.buildTargets, r.buildTargetsError, { r with buildTargets := [] })

/-- Modelled from the spec: `FileApiReader::takeParsedConfiguration`
(fileapireader.cpp is not among the sources): hands out the retained cache
configuration (best effort after an error) and the message. -/
def FileApiReader.takeParsedConfiguration (r : FileApiReader) :
    CMakeConfig × String × FileApiReader :=
  (r.cache, r.cacheError, { r with cache := [] })

/-- Modelled from the spec: `TreeScanner::release` (treescanner.cpp is not among
the sources): hands out the nodes of the finished scan. -/
def TreeScanner.release (t : TreeScanner) : List FileNode × TreeScanner :=
  (t.result, { t with result := [] })

/-- Modelled from the spec: `ParseGuard::markAsSuccess` (buildsystem.h is not
among the sources). -/
def ParseGuard.markAsSuccess (g : ParseGuard) : ParseGuard := { g with success := true }

/-- Modelled from the spec: `DeploymentData::deployableForLocalFile`
(deploymentdata.h is not among the sources): the entry for a local path, or a
default-constructed entry. -/
def deployableForLocalFile (d : DeploymentData) (p : FilePath) : DeployableFile :=
  (d.find? (fun f => f.localFilePath == p)).getD
    { localFilePath := "", remoteDirectory := "", fileType := DeployableFileType.TypeNormal }

namespace CMakeBuildSystem

/-- Records a call or signal in the trace. -/
def emit (e : Effect) (s : CMakeBuildSystem) : CMakeBuildSystem :=
  { s with trace := s.trace ++ [e] }

/-- The method `CMakeBuildSystem::updateReparseParameters`. -/
def updateReparseParameters (parameters : Nat) (s : CMakeBuildSystem) : CMakeBuildSystem :=
  { s with m_reparseParameters := s.m_reparseParameters ||| parameters }

/-- The method `CMakeBuildSystem::takeReparseParameters`: the result and the
state left behind. -/
def takeReparseParameters (s : CMakeBuildSystem) : Nat × CMakeBuildSystem :=
  (s.m_reparseParameters, { s with m_reparseParameters := REPARSE_DEFAULT })

/-- The method `CMakeBuildSystem::stopParsingAndClearState`. -/
def stopParsingAndClearState (a : Answers) (s : CMakeBuildSystem) : CMakeBuildSystem :=
  let s1 := emit Effect.readerStop { s with m_reader := s.m_reader.stop a.readerStopsAtOnce }
  emit Effect.readerResetData { s1 with m_reader := s1.m_reader.resetData }

/-- The method `CMakeBuildConfiguration::setError`. -/
def setError (msg : String) (s : CMakeBuildSystem) : CMakeBuildSystem :=
  { s with bc := { s.bc with error := msg } }

/-- The method `CMakeBuildSystem::checkAndReportError`. -/
def checkAndReportError (errorMessage : String) (s : CMakeBuildSystem) : CMakeBuildSystem :=
  if !(QString.isEmpty errorMessage) then setError errorMessage s else s

/-- The method `CMakeBuildSystem::updateProjectData`: the call is recorded, then
the assertion on scanner and reader guards the body, whose publications (project
tree, extra compilers, code model) are one trace entry with the data read. -/
def updateProjectData (s : CMakeBuildSystem) : CMakeBuildSystem :=
  let s1 := emit Effect.updateProjectData s
  if !s1.m_treeScanner.scanning && !s1.m_reader.isParsing then
    emit (Effect.projectDataPublished s1.m_allFiles s1.m_buildTargets
      s1.bc.configurationFromCMake) s1
  else emit (Effect.softAssert "m_treeScanner.isFinished() && !m_reader.isParsing()") s1

/-- The assignment `m_currentGuard = {}`: the old guard is released (a live
guard reports the end of parsing with its success flag), the member is empty
afterwards. -/
def releaseCurrentGuard (s : CMakeBuildSystem) : CMakeBuildSystem :=
  let s1 := if s.m_currentGuard.guardsProject then
      emit (Effect.parsingFinished s.m_currentGuard.success) s else s
  { s1 with m_currentGuard := ParseGuard.empty }

/-- The method `CMakeBuildSystem::combineScanAndParse`. -/
def combineScanAndParse (s : CMakeBuildSystem) : CMakeBuildSystem :=
  if s.bc.isActive && (s.m_waitingForParse || s.m_waitingForScan) then s
  else
    let s1 :=
      if s.bc.isActive && s.m_combinedScanAndParseResult then
        let u := updateProjectData s
        emit Effect.markAsSuccess { u with m_currentGuard := u.m_currentGuard.markAsSuccess }
      else s
    let s2 := emit Effect.readerResetData { s1 with m_reader := s1.m_reader.resetData }
    let s3 := releaseCurrentGuard s2
    emit Effect.buildSystemUpdated s3

/-- The slot `CMakeBuildSystem::handleTreeScanningFinished`. -/
def handleTreeScanningFinished (s : CMakeBuildSystem) : CMakeBuildSystem :=
  let s1 := if !s.m_waitingForScan then emit (Effect.softAssert "m_waitingForScan") s else s
  let r := s1.m_treeScanner.release
  combineScanAndParse
    { s1 with m_allFiles := r.1, m_treeScanner := r.2, m_waitingForScan := false }

/-- The loop of `appTargets` over the build targets, with the list built so
far: a utility target is skipped (`continue`), an executable (on Android also a
dynamic library) appends its `BuildTargetInfo`, any other target adds
nothing. -/
def appTargetsLoop (forAndroid : Bool) :
    List CMakeBuildTarget → List BuildTargetInfo → List BuildTargetInfo
  | [], appTargetList => appTargetList
  | ct :: rest, appTargetList =>
    if ct.targetType = UtilityType then appTargetsLoop forAndroid rest appTargetList
    else if ct.targetType = ExecutableType
        ∨ (forAndroid = true ∧ ct.targetType = DynamicLibraryType) then
      let buildKey := ct.title
      let bti : BuildTargetInfo :=
        { displayName := ct.title
          targetFilePath := ct.executable
          projectFilePath := ct.sourceDirectory ++ "/"
          workingDirectory := ct.workingDirectory
          buildKey := buildKey
          usesTerminal := !ct.linksToQtGui }
      appTargetsLoop forAndroid rest (appTargetList ++ [bti])
    else appTargetsLoop forAndroid rest appTargetList

/-- The method `CMakeBuildSystem::appTargets`. -/
def appTargets (s : CMakeBuildSystem) : List BuildTargetInfo :=
  appTargetsLoop s.project.forAndroid s.m_buildTargets []

/-- The loop of `deploymentData` over the build targets: an executable or
dynamic library with a non-empty path that the data does not hold yet is added
as an executable file. -/
def addTargetExecutables (w : World) (buildDir : FilePath) (deploymentPrefix : String) :
    List CMakeBuildTarget → DeploymentData → DeploymentData
  | [], result => result
  | ct :: rest, result =>
    let result1 :=
      if (ct.targetType == ExecutableType || ct.targetType == DynamicLibraryType)
          && (!(QString.isEmpty ct.executable)
              && (deployableForLocalFile result ct.executable).localFilePath != ct.executable) then
        result ++ [{ localFilePath := ct.executable
                     remoteDirectory := deploymentPrefix ++ w.relativeDirOf buildDir ct.executable
                     fileType := DeployableFileType.TypeExecutable }]
      else result
    addTargetExecutables w buildDir deploymentPrefix rest result1

/-- The method `CMakeBuildSystem::deploymentData`. -/
def deploymentData (w : World) (s : CMakeBuildSystem) : DeploymentData :=
  let sourceDir := s.project.projectDirectory
  let buildDir := s.bc.buildDirectory
  let inSource := pathAppended sourceDir "QtCreatorDeployment.txt"
  let inBuild := pathAppended buildDir "QtCreatorDeployment.txt"
  let deploymentFilePath := if s.fs.pathExists inSource then inSource else inBuild
  if !(s.fs.pathExists inSource) && !(s.fs.pathExists inBuild) then []
  else
    let r := w.addFilesFromDeploymentFile deploymentFilePath sourceDir
    addTargetExecutables w buildDir r.1 s.m_buildTargets r.2

/-- The loop `for (auto &ci : cmakeConfig) ci.inCMakeCache = true;`. -/
def markInCMakeCache (c : CMakeConfig) : CMakeConfig :=
  c.map (fun ci => { ci with inCMakeCache := true })

/-- The slot `CMakeBuildSystem::handleParsingSucceeded`. -/
def handleParsingSucceeded (w : World) (a : Answers) (s : CMakeBuildSystem) :
    CMakeBuildSystem :=
  if !s.bc.isActive then stopParsingAndClearState a s
  else
    -- cmakeBuildConfiguration()->clearError();
    let s1 := setError "" s
    let t := s1.m_reader.takeBuildTargets
    let s2 := checkAndReportError t.2.1 { s1 with m_buildTargets := t.1, m_reader := t.2.2 }
    let c := s2.m_reader.takeParsedConfiguration
    let s3 := checkAndReportError c.2.1
      { s2 with m_reader := c.2.2,
                bc := { s2.bc with configurationFromCMake := markInCMakeCache c.1 } }
    let s4 := { s3 with baseApplicationTargets := appTargets s3 }
    let s5 := { s4 with baseDeploymentData := deploymentData w s4 }
    if !s5.m_waitingForParse then emit (Effect.softAssert "m_waitingForParse") s5
    else combineScanAndParse { s5 with m_waitingForParse := false }

/-- The slot `CMakeBuildSystem::handleParsingFailed`. -/
def handleParsingFailed (msg : String) (s : CMakeBuildSystem) : CMakeBuildSystem :=
  let s1 := setError msg s
  let c := s1.m_reader.takeParsedConfiguration
  -- ignore errorMessage here, we already got one.
  let s2 := { s1 with m_reader := c.2.2,
                      bc := { s1.bc with configurationFromCMake := markInCMakeCache c.1 } }
  let s3 := if !s2.m_waitingForParse then emit (Effect.softAssert "m_waitingForParse") s2 else s2
  combineScanAndParse
    { s3 with m_waitingForParse := false, m_combinedScanAndParseResult := false }

/-- The call `changedKeys.insert(key, value)` on the `QHash`: the value of a
key that is present is replaced. -/
def hashInsert (key : String) (value : String × String) :
    List (String × String × String) → List (String × String × String)
  | [] => [(key, value)]
  | e :: rest => if e.1 = key then (key, value) :: rest else e :: hashInsert key value rest

/-- The value of `projectItem.expandedValue(m_parameters.expander)`. -/
def expandedValue (w : World) (p : BuildDirParameters) (item : CMakeConfigItem) : String :=
  if p.expanderPresent then w.expand item.value else item.value

/-- The loop of `checkConfiguration` over the stored configuration: the new
configuration and the changed keys, each with the pair (cache value or
`<removed>`, project value). -/
def compareWithCache (w : World) (p : BuildDirParameters) (cache : CMakeConfig) :
    CMakeConfig → CMakeConfig → List (String × String × String) →
      CMakeConfig × List (String × String × String)
  | [], newConfig, changedKeys => (newConfig, changedKeys)
  | projectItem :: rest, newConfig, changedKeys =>
    let projectValue := expandedValue w p projectItem
    let cmakeItem := (cache.find? (fun i => i.key == projectItem.key)).getD CMakeConfigItem.null
    let iCacheValue := cmakeItem.value
    if cmakeItem.isNull then
      compareWithCache w p cache rest newConfig
        (hashInsert projectItem.key ("<removed>", projectValue) changedKeys)
    else if iCacheValue ≠ projectValue then
      compareWithCache w p cache rest (newConfig ++ [cmakeItem])
        (hashInsert projectItem.key (iCacheValue, projectValue) changedKeys)
    else compareWithCache w p cache rest (newConfig ++ [projectItem]) changedKeys

/-- The method `CMakeBuildSystem::checkConfiguration`: the result and the state
left behind.  The box is one trace entry with the changed keys it lists. -/
def checkConfiguration (w : World) (a : Answers) (s : CMakeBuildSystem) :
    Bool × CMakeBuildSystem :=
  -- always throw away changes in the tmpdir!
  if s.m_parameters.workDirectory ≠ s.m_parameters.buildDirectory then (false, s)
  else
    let cache := s.bc.configurationFromCMake
    if cache.isEmpty then (false, s) -- No cache file yet.
    else
      let r := compareWithCache w s.m_parameters cache s.m_parameters.configuration [] []
      if !r.2.isEmpty then
        let s1 := emit (Effect.changedOutsideBox r.2) s
        match a.clickedButton with
        | ClickedButton.applyButton =>
          (false, { s1 with m_parameters := { s1.m_parameters with configuration := r.1 },
                            bc := { s1.bc with configurationForCMake := r.1 } })
        | ClickedButton.defaultButton => (true, s1)
        | ClickedButton.noButton => (false, s1)
      else (false, s)

/-- The method `CMakeBuildSystem::clearCMakeCache`. -/
def clearCMakeCache (a : Answers) (s : CMakeBuildSystem) : CMakeBuildSystem :=
  if !s.m_parameters.isValid then emit (Effect.softAssert "m_parameters.isValid()") s
  else if s.m_isHandlingError then emit (Effect.softAssert "!m_isHandlingError") s
  else
    let s1 := stopParsingAndClearState a s
    let cmakeCache := pathAppended s1.m_parameters.workDirectory "CMakeCache.txt"
    let cmakeFiles := pathAppended s1.m_parameters.workDirectory "CMakeFiles"
    let s2 := if s1.fs.pathExists cmakeCache then
        emit (Effect.removeRecursively cmakeCache)
          { s1 with fs := s1.fs.removeRecursively cmakeCache } else s1
    if s2.fs.pathExists cmakeFiles then
      emit (Effect.removeRecursively cmakeFiles)
        { s2 with fs := s2.fs.removeRecursively cmakeFiles }
    else s2

/-- The text of the first failure of `workDirectory`. -/
def msgFailedBuildDirectory (w : World) (bdir : FilePath) : String :=
  "Failed to create build directory \"" ++ w.toUserOutput bdir ++ "\"."

/-- The text of the second failure of `workDirectory`. -/
def msgFailedTemporaryDirectory (path : FilePath) : String :=
  "Failed to create temporary directory \"" ++ path ++ "\"."

/-- The method `CMakeBuildSystem::workDirectory`: the directory and the state
left behind (the map of temporary directories, the file system, and whatever
`handleParsingFailed` did when a directory could not be created). -/
def workDirectory (w : World) (a : Answers) (parameters : BuildDirParameters)
    (s : CMakeBuildSystem) : FilePath × CMakeBuildSystem :=
  let bdir := parameters.buildDirectory
  if s.fs.pathExists bdir then
    (bdir, { s with m_buildDirToTempDir := s.m_buildDirToTempDir.filter (fun e => !(e.1 == bdir)) })
  else if (parameters.cmakeTool.map (fun t => t.autoCreateBuildDirectory)).getD false then
    if !a.createBuildDirectory then (bdir, handleParsingFailed (msgFailedBuildDirectory w bdir) s)
    else (bdir, { s with fs := s.fs.create bdir })
  else
    match s.m_buildDirToTempDir.find? (fun e => e.1 == bdir) with
    | some e => (e.2.path, s)
    | none =>
      let t := a.temporaryDirectory
      let s1 := { s with m_buildDirToTempDir := s.m_buildDirToTempDir ++ [(bdir, t)] }
      if !t.isValid then (bdir, handleParsingFailed (msgFailedTemporaryDirectory t.path) s1)
      else (t.path, { s1 with fs := s1.fs.create t.path })

/-- The contents `writeConfigurationIntoBuildDirectory` writes. -/
def settingsFileContents (w : World) (configuration : CMakeConfig) : String :=
  "# This file is managed by Qt Creator, do not edit!\n\n"
    ++ "\n".intercalate (configuration.map w.toCMakeSetLine)

/-- The method `CMakeBuildSystem::writeConfigurationIntoBuildDirectory`. -/
def writeConfigurationIntoBuildDirectory (w : World) (a : Answers) (s : CMakeBuildSystem) :
    CMakeBuildSystem :=
  if !s.m_parameters.expanderPresent then emit (Effect.softAssert "expander") s
  else
    let r := workDirectory w a s.m_parameters s
    let buildDir := r.1
    let s1 := r.2
    if !s1.fs.pathExists buildDir then emit (Effect.softAssert "buildDir.exists()") s1
    else
      let settingsFile := pathAppended buildDir "qtcsettings.cmake"
      let contents := settingsFileContents w s1.m_parameters.configuration
      if !a.settingsFileOpens then emit (Effect.softAssert "file.open(...)") s1
      else emit (Effect.writeSettingsFile settingsFile contents)
        { s1 with fs := s1.fs.create settingsFile }

/-- Modelled from the spec: `TreeScanner::asyncScanForFiles` (treescanner.cpp is
not among the sources): a scan starts unless one is still in flight, since a new
scan is only permitted once the previous one has acknowledged. -/
def asyncScanForFiles (directory : FilePath) (s : CMakeBuildSystem) : CMakeBuildSystem :=
  if s.m_treeScanner.scanning then emit Effect.scannerBusy s
  else emit (Effect.scannerStart directory)
    { s with m_treeScanner := { s.m_treeScanner with scanning := true } }

/-- Modelled from the spec: `BuildSystem::guardParsingRun` (buildsystem.h is not
among the sources): there is at most one live guard per project, so the new
guard is live exactly when the project is not parsing, that is when the current
guard of the build system is not live; a live guard announces the start. -/
def guardParsingRun (s : CMakeBuildSystem) : ParseGuard × CMakeBuildSystem :=
  if s.m_currentGuard.guardsProject then (ParseGuard.empty, s)
  else ({ guardsProject := true, success := false }, emit Effect.parsingStarted s)

/-- Lines 216-227 of `triggerParsing`: a new guard becomes the current one, or
(the project is parsing already) the old parse run is stopped and its guard
kept. -/
def acquireOrPreemptGuard (a : Answers) (s : CMakeBuildSystem) : CMakeBuildSystem :=
  let g := guardParsingRun s
  if !g.1.guardsProject then
    -- Stop old parse run and keep that ParseGuard!
    stopParsingAndClearState a g.2
  else
    -- Use new ParseGuard
    { g.2 with m_currentGuard := g.1 }

/-- Lines 232-247 of `triggerParsing`: the scan request for an empty file list,
the three flags of the cycle, and the start of the tree scanner. -/
def prepareCycle (s1 : CMakeBuildSystem) : CMakeBuildSystem :=
  let s2 := if s1.m_allFiles.isEmpty then updateReparseParameters REPARSE_SCAN s1 else s1
  let s3 := { s2 with m_waitingForScan := (s2.m_reparseParameters ||| REPARSE_SCAN) != 0,
                      m_waitingForParse := true,
                      m_combinedScanAndParseResult := true }
  if s3.m_waitingForScan then
    let c := if s3.m_treeScanner.scanning then
        emit (Effect.softAssert "m_treeScanner.isFinished()") s3 else s3
    asyncScanForFiles c.project.projectDirectory c
  else s3

/-- Lines 253-270 of `triggerParsing`: the pending flags are taken and the
forced behaviours decided; the result is the final flag set and the state. -/
def decideFlags (w : World) (a : Answers) (s5 : CMakeBuildSystem) : Nat × CMakeBuildSystem :=
  let t := takeReparseParameters s5
  let cache := pathAppended t.2.m_parameters.workDirectory "CMakeCache.txt"
  if !t.2.fs.pathExists cache then
    (t.1 ||| (REPARSE_FORCE_CONFIGURATION ||| REPARSE_FORCE_CMAKE_RUN), t.2)
  else if (t.1 &&& REPARSE_CHECK_CONFIGURATION) != 0 then
    let c := checkConfiguration w a t.2
    if c.1 then (t.1 ||| (REPARSE_FORCE_CONFIGURATION ||| REPARSE_FORCE_CMAKE_RUN), c.2)
    else (t.1, c.2)
  else (t.1, t.2)

/-- The method `CMakeBuildSystem::triggerParsing`. -/
def triggerParsing (w : World) (a : Answers) (s : CMakeBuildSystem) : CMakeBuildSystem :=
  let s1 := acquireOrPreemptGuard a s
  if s1.m_reader.isParsing then emit (Effect.softAssert "!m_reader.isParsing()") s1
  else
    let s4 := prepareCycle s1
    if !s4.m_parameters.isValid then emit (Effect.softAssert "m_parameters.isValid()") s4
    else
      let s5 := emit Effect.clearTasks s4
      let r := decideFlags w a s5
      let s6 := writeConfigurationIntoBuildDirectory w a r.2
      -- Asking reader to parse
      emit (Effect.readerParse ((r.1 &&& REPARSE_FORCE_CMAKE_RUN) != 0)
          ((r.1 &&& REPARSE_FORCE_CONFIGURATION) != 0))
        { s6 with m_reader := s6.m_reader.parse }

/-- Whether `triggerParsing` gets past its two assertions to the reader: the
reader is not parsing once the guard is settled, and the parameters are valid. -/
def reachesReader (a : Answers) (s : CMakeBuildSystem) : Bool :=
  !(acquireOrPreemptGuard a s).m_reader.isParsing && s.m_parameters.isValid

/-! ### Completions, as the environment delivers them -/

/-- A completion of one of the two background operations, with what it
carries: the nodes of the scan, the results of the reader, or its error with
the best-effort cache configuration. -/
inductive Completion
  | scanFinished (nodes : List FileNode)
  | parsingSucceeded (buildTargets : List CMakeBuildTarget) (cache : CMakeConfig)
  | parsingFailed (msg : String) (cache : CMakeConfig)
  deriving DecidableEq, Repr

/-- Modelled from the spec: the delivery of a completion.  The scanner (the
reader) ends its run and holds its result, then the connected slot runs:
`finished` is connected to `handleTreeScanningFinished`, `dataAvailable` to
`handleParsingSucceeded` and `errorOccurred` to `handleParsingFailed`. -/
def deliver (w : World) (a : Answers) (c : Completion) (s : CMakeBuildSystem) :
    CMakeBuildSystem :=
  match c with
  | Completion.scanFinished nodes =>
    handleTreeScanningFinished { s with m_treeScanner := { scanning := false, result := nodes } }
  | Completion.parsingSucceeded buildTargets cache =>
    handleParsingSucceeded w a
      { s with m_reader := { isParsing := false, buildTargets := buildTargets,
                             buildTargetsError := "", cache := cache, cacheError := "" } }
  | Completion.parsingFailed msg cache =>
    handleParsingFailed msg
      { s with m_reader := { isParsing := false, buildTargets := [],
                             buildTargetsError := "", cache := cache, cacheError := "" } }

/-! ### Reading the trace -/

/-- The effects a step added: the trace of the later state without the part the
earlier state had already. -/
def effectsSince (s s2 : CMakeBuildSystem) : List Effect := s2.trace.drop s.trace.length

/-- Whether an effect is a call of `m_reader.parse`. -/
def isReaderParse : Effect → Bool
  | Effect.readerParse _ _ => true
  | _ => false

/-- Whether an effect is the removal of a path. -/
def isRemove : Effect → Bool
  | Effect.removeRecursively _ => true
  | _ => false

/-- Whether an effect is the release of a live guard. -/
def isGuardRelease : Effect → Bool
  | Effect.parsingFinished _ => true
  | _ => false

/-- How often a step released the retained reader state, released a live guard,
and emitted the "build system updated" notification. -/
def releaseCounts (l : List Effect) : Nat × Nat × Nat :=
  (l.count Effect.readerResetData, l.countP isGuardRelease, l.count Effect.buildSystemUpdated)

/-! ### Example inputs -/

/-- A world in which expansion is the identity and no manifest has entries. -/
def plainWorld : World :=
  { expand := fun v => v
    toCMakeSetLine := fun i => "set(" ++ i.key ++ " " ++ i.value ++ ")"
    addFilesFromDeploymentFile := fun _ _ => ("", [])
    relativeDirOf := fun _ _ => "."
    toUserOutput := fun p => p }

/-- Answers of a smooth run: the reader stops at once, the user adapts the
project to the changes, directories and files can be created. -/
def plainAnswers : Answers :=
  { readerStopsAtOnce := true
    clickedButton := ClickedButton.applyButton
    createBuildDirectory := true
    temporaryDirectory := { path := "/tmp/qtc-cmake-0", isValid := true }
    settingsFileOpens := true }

/-- A configured, idle build system on an active build configuration: the build
directory holds a cache file that records the generator `Ninja`, the stored
configuration asks for `Unix Makefiles`, one file is known, nothing is pending. -/
def idleSystem : CMakeBuildSystem :=
  { m_reparseParameters := REPARSE_DEFAULT
    m_waitingForScan := false
    m_waitingForParse := false
    m_combinedScanAndParseResult := false
    m_allFiles := [{ filePath := "/src/main.cpp", fileType := 1, isGenerated := false }]
    m_buildTargets := [{ title := "app", executable := "/build/app",
                         targetType := ExecutableType, workingDirectory := "/build",
                         sourceDirectory := "/src", libraryDirectories := [],
                         linksToQtGui := false }]
    m_currentGuard := ParseGuard.empty
    m_parameters :=
      { isValid := true
        cmakeTool := some { isAutoRun := true, autoCreateBuildDirectory := false,
                            cmakeExecutable := "/usr/bin/cmake" }
        workDirectory := "/build"
        buildDirectory := "/build"
        generator := "Unix Makefiles"
        extraGenerator := ""
        configuration := [{ key := "CMAKE_GENERATOR", value := "Unix Makefiles",
                            inCMakeCache := false, values := [] }]
        expanderPresent := true }
    m_isHandlingError := false
    m_buildDirToTempDir := []
    m_reader := { isParsing := false, buildTargets := [], buildTargetsError := "",
                  cache := [], cacheError := "" }
    m_treeScanner := { scanning := false, result := [] }
    baseApplicationTargets := []
    baseDeploymentData := []
    bc := { isActive := true, buildDirectory := "/build",
            configurationFromCMake := [{ key := "CMAKE_GENERATOR", value := "Ninja",
                                         inCMakeCache := true, values := [] }],
            configurationForCMake := [], error := "" }
    project := { projectDirectory := "/src", displayName := "demo", forAndroid := false }
    fs := { existing := ["/src", "/build", "/build/CMakeCache.txt", "/build/CMakeFiles"] }
    trace := [] }

/-- The example system before its first configuration: no cache file, no
`CMakeFiles` directory, no cache configuration, no file known yet. -/
def unconfiguredSystem : CMakeBuildSystem :=
  { idleSystem with
    m_allFiles := []
    m_buildTargets := []
    bc := { idleSystem.bc with configurationFromCMake := [] }
    fs := { existing := ["/src", "/build"] } }

/-- The example system in the middle of a cycle: `triggerParsing` has run on the
idle system, the scan and the parse are in flight. -/
def runningCycle : CMakeBuildSystem := triggerParsing plainWorld plainAnswers idleSystem

/-- The running cycle after its build configuration was deactivated. -/
def deactivatedCycle : CMakeBuildSystem :=
  { runningCycle with bc := { runningCycle.bc with isActive := false } }

/-- The release counts of a cycle in which two completions arrive in the given
order: the counts after the first completion and after both, each taken from
the state the completions started in. -/
def cycleCounts (w : World) (a : Answers) (first second : Completion)
    (s : CMakeBuildSystem) : (Nat × Nat × Nat) × (Nat × Nat × Nat) :=
  (releaseCounts (effectsSince s (deliver w a first s)),
   releaseCounts (effectsSince s (deliver w a second (deliver w a first s))))

/-- The example cycle after a second `triggerParsing` preempted it. -/
def preemptedCycle : CMakeBuildSystem := triggerParsing plainWorld plainAnswers runningCycle

/-- The nodes the scan of the first cycle finds. -/
def firstScanNodes : List FileNode :=
  [{ filePath := "/src/stale.cpp", fileType := 1, isGenerated := false }]

/-- The build targets the reader of the second cycle reports. -/
def secondTargets : List CMakeBuildTarget :=
  [{ title := "tool", executable := "/build/tool", targetType := ExecutableType,
     workingDirectory := "/build", sourceDirectory := "/src", libraryDirectories := [],
     linksToQtGui := false }]

/-- The idle example system with the drift check pending: the cache records the
generator `Ninja`, the stored configuration asks for `Unix Makefiles`. -/
def driftSystem : CMakeBuildSystem :=
  { idleSystem with m_reparseParameters := REPARSE_CHECK_CONFIGURATION }

/-- The keys `criticalKeys` of `hasConfigChanged`. -/
def criticalKeys : List String :=
  ["CMAKE_GENERATOR", "CMAKE_COMMAND", "CMAKE_C_COMPILER", "CMAKE_CXX_COMPILER"]

/-- The calls `updateReparseParameters(f1)`, ..., `updateReparseParameters(fn)`,
in this order. -/
def accumulate (flags : List Nat) (s : CMakeBuildSystem) : CMakeBuildSystem :=
  flags.foldl (fun st f => updateReparseParameters f st) s

/-- An effect that is neither a call of `m_reader.parse` nor a removal. -/
def quiet (e : Effect) : Bool := !isReaderParse e && !isRemove e

/-- The second trace is the first one followed by quiet effects only. -/
def TraceExtends (l l2 : List Effect) : Prop := ∃ m, l2 = l ++ m ∧ m.all quiet = true

/-- A world whose deployment manifest has the prefix `/opt/demo/` and one data
file. -/
def manifestWorld : World :=
  { plainWorld with
    addFilesFromDeploymentFile := fun _ _ =>
      ("/opt/demo/", [{ localFilePath := "/src/data.txt", remoteDirectory := "/opt/demo/share",
                        fileType := DeployableFileType.TypeNormal }])
    relativeDirOf := fun _ _ => "bin" }

/-- The idle example system with a deployment manifest in the source directory
and three targets: an executable, a static library and a dynamic library, each
with an output path. -/
def manifestSystem : CMakeBuildSystem :=
  { idleSystem with
    m_buildTargets :=
      [{ title := "app", executable := "/build/app", targetType := ExecutableType,
         workingDirectory := "/build", sourceDirectory := "/src", libraryDirectories := [],
         linksToQtGui := false },
       { title := "core", executable := "/build/libcore.a", targetType := StaticLibraryType,
         workingDirectory := "/build", sourceDirectory := "/src", libraryDirectories := [],
         linksToQtGui := false },
       { title := "plugin", executable := "/build/libplugin.so",
         targetType := DynamicLibraryType, workingDirectory := "/build",
         sourceDirectory := "/src", libraryDirectories := [], linksToQtGui := false }]
    fs := { existing := ["/src", "/build", "/build/CMakeCache.txt", "/build/CMakeFiles",
                         "/src/QtCreatorDeployment.txt"] } }

/-- Whether `deploymentData` considers a build target: an executable or a
dynamic library with a non-empty output path. -/
def isDeployable (ct : CMakeBuildTarget) : Bool :=
  (ct.targetType == ExecutableType || ct.targetType == DynamicLibraryType)
    && !(QString.isEmpty ct.executable)

/-- The path of the deployment manifest `deploymentData` reads: the one in the
source directory if it exists, else the one in the build directory. -/
def deploymentFilePath (s : CMakeBuildSystem) : FilePath :=
  if s.fs.pathExists (pathAppended s.project.projectDirectory "QtCreatorDeployment.txt") then
    pathAppended s.project.projectDirectory "QtCreatorDeployment.txt"
  else pathAppended s.bc.buildDirectory "QtCreatorDeployment.txt"

/-- Whether a deployment manifest exists in the source or the build directory. -/
def hasDeploymentFile (s : CMakeBuildSystem) : Bool :=
  s.fs.pathExists (pathAppended s.project.projectDirectory "QtCreatorDeployment.txt")
    || s.fs.pathExists (pathAppended s.bc.buildDirectory "QtCreatorDeployment.txt")

/-- Whether an effect is a call of the tree scanner's `asyncScanForFiles`. -/
def isScannerCall : Effect → Bool
  | Effect.scannerStart _ => true
  | Effect.scannerBusy => true
  | _ => false

/-- Whether an effect belongs to the merge of a cycle: the call of
`updateProjectData`, its publication, or `markAsSuccess` on the guard. -/
def isMerge : Effect → Bool
  | Effect.updateProjectData => true
  | Effect.projectDataPublished _ _ _ => true
  | Effect.markAsSuccess => true
  | _ => false

/-- Whether an effect is the "project has been changed" box of
`checkConfiguration`. -/
def isChangedOutsideBox : Effect → Bool
  | Effect.changedOutsideBox _ => true
  | _ => false

/-- The second trace is the first one followed by effects other than the
box of `checkConfiguration`. -/
def BoxFree (l l2 : List Effect) : Prop :=
  ∃ m, l2 = l ++ m ∧ m.all (fun e => !isChangedOutsideBox e) = true

/-- Answers like the plain ones, with the user discarding the external
changes. -/
def discardAnswers : Answers :=
  { plainAnswers with clickedButton := ClickedButton.defaultButton }

/-- The item `checkConfiguration` finds in the cache for a stored item
(`Utils::findOrDefault` by key): the first cache item with the key of the stored
item, or the default-constructed (null) item when there is none. -/
def cacheItemFor (cache : CMakeConfig) (projectItem : CMakeConfigItem) : CMakeConfigItem :=
  (cache.find? (fun i => i.key == projectItem.key)).getD CMakeConfigItem.null

/-- Whether a stored item differs from the cache, in the words of the spec: its
key is missing from the cache (the lookup yields the null item), or the cache
value for the key differs from the expanded stored value. -/
def differsFromCache (w : World) (p : BuildDirParameters) (cache : CMakeConfig)
    (projectItem : CMakeConfigItem) : Bool :=
  (cacheItemFor cache projectItem).isNull
    || (cacheItemFor cache projectItem).value != expandedValue w p projectItem

/-- Whether `checkConfiguration` asks for a decision, in the words of the spec:
the work directory is the build directory, the cache configuration is not
empty, and some stored item differs from the cache. -/
def asksForDecision (w : World) (s : CMakeBuildSystem) : Bool :=
  s.m_parameters.workDirectory == s.m_parameters.buildDirectory
    && !s.bc.configurationFromCMake.isEmpty
    && s.m_parameters.configuration.any
        (differsFromCache w s.m_parameters s.bc.configurationFromCMake)

/-- What becomes of a stored item when the project is adapted, in the words of
the spec: nothing when its key is missing from the cache, the cache's item when
the values differ, the stored item itself when they agree. -/
def adaptedItem (w : World) (p : BuildDirParameters) (cache : CMakeConfig)
    (projectItem : CMakeConfigItem) : Option CMakeConfigItem :=
  if (cacheItemFor cache projectItem).isNull then none
  else if (cacheItemFor cache projectItem).value ≠ expandedValue w p projectItem then
    some (cacheItemFor cache projectItem)
  else some projectItem

/-- A world in which the macro `%{Generator}` expands to `Ninja`. -/
def macroWorld : World :=
  { plainWorld with expand := fun v => if v = "%{Generator}" then "Ninja" else v }

/-- The idle example system with a stored configuration that names the
generator by a macro and asks for a debug build, and a cache that records the
generator `Ninja` and a release build. -/
def macroSystem : CMakeBuildSystem :=
  { idleSystem with
    m_parameters := { idleSystem.m_parameters with
      configuration := [{ key := "CMAKE_GENERATOR", value := "%{Generator}",
                          inCMakeCache := false, values := [] },
                        { key := "CMAKE_BUILD_TYPE", value := "Debug",
                          inCMakeCache := false, values := [] },
                        { key := "CMAKE_PREFIX_PATH", value := "/opt/qt",
                          inCMakeCache := false, values := [] }] }
    bc := { idleSystem.bc with
      configurationFromCMake := [{ key := "CMAKE_BUILD_TYPE", value := "Release",
                                   inCMakeCache := true, values := [] },
                                 { key := "CMAKE_GENERATOR", value := "Ninja",
                                   inCMakeCache := true, values := [] }] } }

/-- Modelled from the spec: `Utils::sort(config, CMakeConfigItem::sortOperator())`
(utils/algorithm.h and cmakeconfigitem.h are not among the sources): a stable
sort of the items by key. -/
def sortByKey (config : CMakeConfig) : CMakeConfig :=
  config.insertionSort (fun x y => ¬ y.key < x.key)

/-- The loop of `hasConfigChanged` with the `return`s that end it: `ccit` and
`kcit` are the parts of the current and of the target configuration that are
still to be walked, `mustReparse` is the flag.  The result is the return value
and the state left behind. -/
def compareConfigurations (a : Answers) (s : CMakeBuildSystem) (ccit kcit : CMakeConfig)
    (mustReparse : Bool) : Bool × CMakeBuildSystem :=
  match ccit, kcit with
  | c :: cs, k :: ks =>
    if c.key = k.key then
      if c.value ≠ k.value then
        if criticalKeys.contains k.key then
          -- no need to trigger a new reader, clearCache will do that
          (false, clearCMakeCache a s)
        else compareConfigurations a s cs ks true
      else compareConfigurations a s cs ks mustReparse
    else if c.key < k.key then compareConfigurations a s cs (k :: ks) mustReparse
    else compareConfigurations a s (c :: cs) ks true
  | _, _ => (mustReparse || !kcit.isEmpty, s)
termination_by ccit.length + kcit.length

/-- The method `CMakeBuildSystem::hasConfigChanged`: the result and the state
left behind. -/
def hasConfigChanged (w : World) (a : Answers) (s : CMakeBuildSystem) :
    Bool × CMakeBuildSystem :=
  let s1 := (checkConfiguration w a s).2
  let currentConfig := s1.bc.configurationFromCMake
  match s1.m_parameters.cmakeTool with
  | none =>
    -- No cmake... we should not have ended up here in the first place
    (false, emit (Effect.softAssert "tool") s1)
  | some tool =>
    let extraKitGenerator := s1.m_parameters.extraGenerator
    let mainKitGenerator := s1.m_parameters.generator
    let targetConfig := s1.m_parameters.configuration
      ++ [{ key := "CMAKE_GENERATOR", value := mainKitGenerator, inCMakeCache := false,
            values := [] }]
      ++ (if !(QString.isEmpty extraKitGenerator) then
            [{ key := "CMAKE_EXTRA_GENERATOR", value := extraKitGenerator,
               inCMakeCache := false, values := [] }]
          else [])
      ++ [{ key := "CMAKE_COMMAND", value := w.toUserOutput tool.cmakeExecutable,
            inCMakeCache := false, values := [] }]
    compareConfigurations a s1 currentConfig (sortByKey targetConfig) false

/-- Whether a configuration is sorted by key with no key twice. -/
def SortedByKey (config : CMakeConfig) : Prop :=
  config.Pairwise (fun x y => x.key < y.key)

/-- Whether some critical key occurs in both configurations with different
values, in the words of the spec. -/
def hasCriticalDifference (current target : CMakeConfig) : Bool :=
  current.any (fun c => target.any (fun k =>
    c.key == k.key && c.value != k.value && criticalKeys.contains k.key))

/-- Whether some key of the target configuration is missing from the current
configuration or has a different value there, in the words of the spec. -/
def hasMissingOrChanged (current target : CMakeConfig) : Bool :=
  target.any (fun k =>
    !(current.any (fun c => c.key == k.key))
      || current.any (fun c => c.key == k.key && c.value != k.value))

/-- A current configuration, sorted by key: build type, compiler, generator
and an install prefix. -/
def walkCurrent : CMakeConfig :=
  [{ key := "CMAKE_BUILD_TYPE", value := "Release", inCMakeCache := true, values := [] },
   { key := "CMAKE_CXX_COMPILER", value := "/usr/bin/g++", inCMakeCache := true, values := [] },
   { key := "CMAKE_GENERATOR", value := "Ninja", inCMakeCache := true, values := [] },
   { key := "CMAKE_INSTALL_PREFIX", value := "/usr/local", inCMakeCache := true, values := [] }]

/-- A target configuration, sorted by key, that asks for a debug build (a
difference that is not critical) and for another generator (a critical one). -/
def walkTargetCritical : CMakeConfig :=
  [{ key := "CMAKE_BUILD_TYPE", value := "Debug", inCMakeCache := false, values := [] },
   { key := "CMAKE_GENERATOR", value := "Unix Makefiles", inCMakeCache := false, values := [] }]

/-- A target configuration, sorted by key, that agrees with the current one on
the build type and the generator. -/
def walkTargetSame : CMakeConfig :=
  [{ key := "CMAKE_BUILD_TYPE", value := "Release", inCMakeCache := false, values := [] },
   { key := "CMAKE_GENERATOR", value := "Ninja", inCMakeCache := false, values := [] }]

end CMakeBuildSystem
end CMakeProjectManager

/-! ## Part 2: theorems -/

namespace Debugger

open DebuggerEngineType DebuggerStartMode

/-! ### Engine selection -/

theorem msgNoPostMortemEngine_ne_msgEngineNotAvailable (engine : String) :
    msgNoPostMortemEngine ≠ msgEngineNotAvailable engine := by
  intro h
  have h2 := congrArg String.data h
  simp [msgEngineNotAvailable, msgNoPostMortemEngine] at h2

theorem engineForMode_none (b : BuildFlags) (d : DebuggerRunControlPrivate)
    (enabledEngineTypes : Nat) (startMode : DebuggerStartMode)
    (h : (engineForMode b d enabledEngineTypes startMode).1 = NoEngineType) :
    b.Q_OS_WIN = true ∧ startMode = AttachCrashedExternal
      ∧ (engineForMode b d enabledEngineTypes startMode).2.m_errorMessage
          = msgNoPostMortemEngine := by
  unfold engineForMode at h ⊢
  split_ifs at h ⊢
  all_goals simp_all

theorem selectEngineType_none (b : BuildFlags) (core : DebuggerCore)
    (d : DebuggerRunControlPrivate) (sp : DebuggerStartParameters)
    (h : (selectEngineType b core d sp).1 = NoEngineType) :
    b.Q_OS_WIN = true ∧ sp.startMode = AttachCrashedExternal
      ∧ (selectEngineType b core d sp).2.m_errorMessage = msgNoPostMortemEngine := by
  unfold selectEngineType at h ⊢
  simp only at h ⊢
  split_ifs at h ⊢ with h1 h2 h3 h4 h5 h6
  all_goals first
    | exact engineForMode_none _ _ _ _ h
    | (exfalso; simp_all)

/-- C2, evaluated at the failing input: for the executable `app.py` and the
enabled-engine set `0xf7` (every engine but Pdb), in every build and with every
collaborator, the Pdb bit is not in the enabled set, yet the selection sequence
yields `PdbEngineType` with the private data untouched, so the final kind is not
`NoEngineType` and the error message is empty; with the plain collaborators the
constructor ends holding a Pdb engine and has emitted nothing. -/
theorem C2_scenarioA_selects_disabled_pdb (b : BuildFlags) (core : DebuggerCore) :
    hasEngine ((DebuggerRunControlPrivate.init 0xf7).enabledEngines b core) PdbEngineType = false
    ∧ selectEngineType b core (DebuggerRunControlPrivate.init 0xf7) scenarioAParameters
        = (PdbEngineType, DebuggerRunControlPrivate.init 0xf7)
    ∧ (DebuggerRunControl.selection b core 0xf7 scenarioAParameters).engineType ≠ NoEngineType
    ∧ (DebuggerRunControl.selection b core 0xf7 scenarioAParameters).d.m_errorMessage = ""
    ∧ DebuggerRunControl.ctor b plainCore 0xf7 scenarioAParameters
        = { d := { DebuggerRunControlPrivate.init 0xf7 with
                    m_engine := some { engineType := PdbEngineType,
                                       startParameters := scenarioAParameters } },
            trace := [] } := by
  have h1 : QString.endsWith "app.py" ".js" = false := by decide
  have h2 : QString.endsWith "app.py" ".py" = true := by decide
  have h3 : QString.startsWith "" "@tcf@ " = false := by decide
  have hsel : selectEngineType b core (DebuggerRunControlPrivate.init 0xf7) scenarioAParameters
        = (PdbEngineType, DebuggerRunControlPrivate.init 0xf7) := by
    simp [selectEngineType, selectByNameOrToolChain, scenarioAParameters, h1, h2, h3]
  have hsel2 : selectEngineType b plainCore (DebuggerRunControlPrivate.init 0xf7)
      scenarioAParameters = (PdbEngineType, DebuggerRunControlPrivate.init 0xf7) := by
    simp [selectEngineType, selectByNameOrToolChain, scenarioAParameters, h1, h2, h3]
  refine ⟨?_, hsel, ?_, ?_, ?_⟩
  · unfold DebuggerRunControlPrivate.enabledEngines DebuggerRunControlPrivate.init
    simp only
    split_ifs <;> decide
  · simp only [DebuggerRunControl.selection, hsel, adjustForLanguages]
    split_ifs <;> simp
  · simp only [DebuggerRunControl.selection, hsel]
    rfl
  · simp only [DebuggerRunControl.ctor, DebuggerRunControl.selection, hsel2]
    decide

/-- C3, refuted as stated: in the build without `Q_OS_WIN`, for the native
executable `a.out` with the MSVC tool chain and only Gdb enabled, the tool chain
table implies Cdb, Cdb is not in the enabled set, and the selection nevertheless
ends with the Gdb engine, picked by executable. -/
theorem C3_counterexample_disabled_cdb_ends_with_gdb :
    QString.endsWith msvcParameters.executable ".js" = false
    ∧ QString.endsWith msvcParameters.executable ".py" = false
    ∧ engineForToolChain unixBuild plainCore msvcParameters.toolChainType = CdbEngineType
    ∧ hasEngine ((DebuggerRunControlPrivate.init 1).enabledEngines unixBuild plainCore)
        CdbEngineType = false
    ∧ (DebuggerRunControl.selection unixBuild plainCore 1 msvcParameters).engineType
        = GdbEngineType := by
  decide

/-- C3, as amended: for a non-script executable whose tool chain implies Cdb
while Cdb is not in the enabled set, the tool chain step records the Cdb "engine
not available" message and leaves the kind at `NoEngineType`; the selection then
goes on with the later steps, and the kind before the language adjustment is
`NoEngineType` only by the post-mortem rule of `engineForMode` (Windows build,
start mode `AttachCrashedExternal`), with the post-mortem message. -/
theorem C3_disabled_cdb_toolchain_step (b : BuildFlags) (core : DebuggerCore)
    (d : DebuggerRunControlPrivate) (sp : DebuggerStartParameters)
    (hjs : QString.endsWith sp.executable ".js" = false)
    (hpy : QString.endsWith sp.executable ".py" = false)
    (htc : engineForToolChain b core sp.toolChainType = CdbEngineType)
    (hoff : hasEngine (d.enabledEngines b core) CdbEngineType = false) :
    selectByNameOrToolChain b core d sp (d.enabledEngines b core)
        = (NoEngineType, { d with m_errorMessage := msgEngineNotAvailable "Cdb Engine" })
    ∧ ((selectEngineType b core d sp).1 = NoEngineType →
        b.Q_OS_WIN = true ∧ sp.startMode = AttachCrashedExternal
          ∧ (selectEngineType b core d sp).2.m_errorMessage = msgNoPostMortemEngine) := by
  refine ⟨?_, selectEngineType_none b core d sp⟩
  simp [selectByNameOrToolChain, hjs, hpy, htc, hoff]

/-- Witness of C3 as amended: a post-mortem attach for the MSVC tool chain with
only Gdb enabled, in the Windows build; the tool chain step records the Cdb
message, and the selection ends with `NoEngineType` and the post-mortem
message. -/
theorem C3_disabled_cdb_toolchain_step_witness :
    (QString.endsWith crashParameters.executable ".js" = false
      ∧ QString.endsWith crashParameters.executable ".py" = false
      ∧ engineForToolChain windowsBuild plainCore crashParameters.toolChainType = CdbEngineType
      ∧ hasEngine ((DebuggerRunControlPrivate.init 1).enabledEngines windowsBuild plainCore)
          CdbEngineType = false)
    ∧ selectByNameOrToolChain windowsBuild plainCore (DebuggerRunControlPrivate.init 1)
          crashParameters ((DebuggerRunControlPrivate.init 1).enabledEngines windowsBuild plainCore)
        = (NoEngineType, { DebuggerRunControlPrivate.init 1 with
            m_errorMessage := msgEngineNotAvailable "Cdb Engine" })
    ∧ (selectEngineType windowsBuild plainCore (DebuggerRunControlPrivate.init 1)
          crashParameters).1 = NoEngineType
    ∧ (selectEngineType windowsBuild plainCore (DebuggerRunControlPrivate.init 1)
          crashParameters).2.m_errorMessage = msgNoPostMortemEngine :=
  have h := C3_disabled_cdb_toolchain_step windowsBuild plainCore
    (DebuggerRunControlPrivate.init 1) crashParameters
    (by decide) (by decide) (by decide) (by decide)
  ⟨by decide, h.1, by decide, (h.2 (by decide)).2.2⟩

/-- C10, refuted as stated: in the build without `Q_OS_WIN`, with the empty
enabled-engine set (neither Gdb nor Cdb enabled) and start mode
`AttachCrashedExternal`, `engineForMode` returns the Gdb engine and sets no
message. -/
theorem C10_counterexample_unix_post_mortem_is_gdb :
    hasEngine 0 GdbEngineType = false ∧ hasEngine 0 CdbEngineType = false
    ∧ engineForMode unixBuild (DebuggerRunControlPrivate.init 0) 0 AttachCrashedExternal
        = (GdbEngineType, DebuggerRunControlPrivate.init 0) := by
  decide

/-- C10, as amended: in the Windows build, for start mode `AttachCrashedExternal`
with the Cdb engine not enabled, `engineForMode` returns `NoEngineType` and sets
the dedicated post-mortem message, which differs from every message of
`msgEngineNotAvailable`; in the build without `Q_OS_WIN` it returns the Gdb
engine for that start mode and sets no message. -/
theorem C10_windows_post_mortem_message (b : BuildFlags) (d : DebuggerRunControlPrivate)
    (enabledEngineTypes : Nat)
    (hoff : hasEngine enabledEngineTypes CdbEngineType = false) :
    (b.Q_OS_WIN = true →
      engineForMode b d enabledEngineTypes AttachCrashedExternal
        = (NoEngineType, { d with m_errorMessage := msgNoPostMortemEngine }))
    ∧ (b.Q_OS_WIN = false →
      engineForMode b d enabledEngineTypes AttachCrashedExternal = (GdbEngineType, d))
    ∧ msgNoPostMortemEngine
        = "There is no debugging engine available for post-mortem debugging."
    ∧ ∀ engine : String, msgNoPostMortemEngine ≠ msgEngineNotAvailable engine := by
  refine ⟨?_, ?_, rfl, msgNoPostMortemEngine_ne_msgEngineNotAvailable⟩
  · intro hwin
    simp [engineForMode, hwin, hoff]
  · intro hunix
    simp [engineForMode, hunix]

/-- Witness of C10 as amended: the empty enabled-engine set in the Windows
build. -/
theorem C10_windows_post_mortem_message_witness :
    hasEngine 0 CdbEngineType = false
    ∧ engineForMode windowsBuild (DebuggerRunControlPrivate.init 0) 0 AttachCrashedExternal
        = (NoEngineType, { DebuggerRunControlPrivate.init 0 with
            m_errorMessage := msgNoPostMortemEngine })
    ∧ ∀ engine : String, msgNoPostMortemEngine ≠ msgEngineNotAvailable engine :=
  have h := C10_windows_post_mortem_message windowsBuild (DebuggerRunControlPrivate.init 0) 0
    (by decide)
  ⟨by decide, h.1 rfl, h.2.2.2⟩

/-! ### The outcome of the selection -/

theorem engineForToolChain_ne_all (b : BuildFlags) (core : DebuggerCore) (toolChainType : Int) :
    engineForToolChain b core toolChainType ≠ AllEngineTypes := by
  unfold engineForToolChain
  split_ifs <;> simp

theorem engineForExecutable_ne_all (b : BuildFlags) (core : DebuggerCore)
    (d : DebuggerRunControlPrivate) (enabledEngineTypes : Nat) (executable : String) :
    (engineForExecutable b core d enabledEngineTypes executable).1 ≠ AllEngineTypes := by
  unfold engineForExecutable
  simp only [apply_ite Prod.fst]
  split_ifs <;> simp

theorem engineForMode_ne_all (b : BuildFlags) (d : DebuggerRunControlPrivate)
    (enabledEngineTypes : Nat) (startMode : DebuggerStartMode) :
    (engineForMode b d enabledEngineTypes startMode).1 ≠ AllEngineTypes := by
  unfold engineForMode
  split_ifs <;> simp

theorem selectByNameOrToolChain_ne_all (b : BuildFlags) (core : DebuggerCore)
    (d : DebuggerRunControlPrivate) (sp : DebuggerStartParameters) (enabledEngineTypes : Nat) :
    (selectByNameOrToolChain b core d sp enabledEngineTypes).1 ≠ AllEngineTypes := by
  unfold selectByNameOrToolChain
  simp only
  split_ifs <;> simp [engineForToolChain_ne_all]

theorem selectEngineType_ne_all (b : BuildFlags) (core : DebuggerCore)
    (d : DebuggerRunControlPrivate) (sp : DebuggerStartParameters) :
    (selectEngineType b core d sp).1 ≠ AllEngineTypes := by
  unfold selectEngineType
  simp only
  split_ifs <;>
    simp [engineForMode_ne_all, engineForExecutable_ne_all, selectByNameOrToolChain_ne_all]

theorem adjustForLanguages_kind (activeLangs : Nat) (engineType : DebuggerEngineType)
    (sp : DebuggerStartParameters) :
    ((adjustForLanguages activeLangs engineType sp).1 = NoEngineType ↔ engineType = NoEngineType)
    ∧ ((adjustForLanguages activeLangs engineType sp).1 = AllEngineTypes
        → engineType = AllEngineTypes) := by
  unfold adjustForLanguages
  split_ifs with h1 h2 <;> simp_all

/-- C11: for every build, every collaborator answer (active languages
included), every enabled-engine set and all start parameters (executable, tool
chain, start mode, process arguments), the selection sequence of the
constructor ends either with a concrete engine kind (neither `NoEngineType` nor
the mask `AllEngineTypes`) or with `NoEngineType` together with a non-empty
error message. -/
theorem C11_selection_is_kind_or_message (b : BuildFlags) (core : DebuggerCore)
    (enabledEngines : Nat) (startParams : DebuggerStartParameters) :
    ((DebuggerRunControl.selection b core enabledEngines startParams).engineType ≠ NoEngineType
      ∧ (DebuggerRunControl.selection b core enabledEngines startParams).engineType
          ≠ AllEngineTypes)
    ∨ ((DebuggerRunControl.selection b core enabledEngines startParams).engineType = NoEngineType
      ∧ (DebuggerRunControl.selection b core enabledEngines startParams).d.m_errorMessage ≠ "") := by
  have hk := adjustForLanguages_kind core.activeLanguages
    (selectEngineType b core (DebuggerRunControlPrivate.init enabledEngines) startParams).1
    startParams
  have hall := selectEngineType_ne_all b core (DebuggerRunControlPrivate.init enabledEngines)
    startParams
  by_cases hnone : (selectEngineType b core (DebuggerRunControlPrivate.init enabledEngines)
      startParams).1 = NoEngineType
  · right
    refine ⟨hk.1.mpr hnone, ?_⟩
    show (selectEngineType b core (DebuggerRunControlPrivate.init enabledEngines)
      startParams).2.m_errorMessage ≠ ""
    rw [(selectEngineType_none b core _ startParams hnone).2.2]
    decide
  · left
    exact ⟨fun h => hnone (hk.1.mp h), fun h => hall (hk.2 h)⟩

/-! ### The tool chain table, the overrides and the language adjustment -/

/-- C12: with no LLDB override in force (not both `WITH_LLDB` compiled in and
the setting `LLDB/enabled` on), `engineForToolChain` is the fixed table: the
ten tool chains LINUX_ICC, MinGW, GCC, WINSCW, GCCE, RVCT2_ARMV5, RVCT2_ARMV6,
RVCT_ARMV5_GNUPOC, GCCE_GNUPOC and GCC_MAEMO give the Gdb engine, MSVC and WINCE
give the Cdb engine, OTHER, UNKNOWN and INVALID give `NoEngineType`, and so does
every integer that is none of the twelve. -/
theorem C12_engineForToolChain_table (b : BuildFlags) (core : DebuggerCore)
    (hlldb : (b.WITH_LLDB && core.lldbEnabled) = false) :
    (∀ tc ∈ [ToolChain_LINUX_ICC, ToolChain_MinGW, ToolChain_GCC, ToolChain_WINSCW,
        ToolChain_GCCE, ToolChain_RVCT2_ARMV5, ToolChain_RVCT2_ARMV6,
        ToolChain_RVCT_ARMV5_GNUPOC, ToolChain_GCCE_GNUPOC, ToolChain_GCC_MAEMO],
      engineForToolChain b core tc = GdbEngineType)
    ∧ (∀ tc ∈ [ToolChain_MSVC, ToolChain_WINCE], engineForToolChain b core tc = CdbEngineType)
    ∧ (∀ tc ∈ [ToolChain_OTHER, ToolChain_UNKNOWN, ToolChain_INVALID],
      engineForToolChain b core tc = NoEngineType)
    ∧ (∀ tc : Int,
      tc ∉ [ToolChain_LINUX_ICC, ToolChain_MinGW, ToolChain_GCC, ToolChain_WINSCW,
        ToolChain_GCCE, ToolChain_RVCT2_ARMV5, ToolChain_RVCT2_ARMV6,
        ToolChain_RVCT_ARMV5_GNUPOC, ToolChain_GCCE_GNUPOC, ToolChain_GCC_MAEMO] →
      tc ∉ [ToolChain_MSVC, ToolChain_WINCE] →
      engineForToolChain b core tc = NoEngineType) := by
  refine ⟨?_, ?_, ?_, ?_⟩
  · intro tc htc
    simp only [List.mem_cons, List.mem_singleton, List.not_mem_nil, or_false] at htc
    unfold engineForToolChain
    rw [if_pos (by tauto)]
    simp [hlldb]
  · intro tc htc
    simp only [List.mem_cons, List.mem_singleton, List.not_mem_nil, or_false] at htc
    unfold engineForToolChain
    rcases htc with h | h <;> subst h <;> rw [if_neg (by decide), if_pos (by decide)]
  · intro tc htc
    simp only [List.mem_cons, List.mem_singleton, List.not_mem_nil, or_false] at htc
    unfold engineForToolChain
    rcases htc with h | h | h <;> subst h <;> rw [if_neg (by decide), if_neg (by decide)]
  · intro tc h1 h2
    simp only [List.mem_cons, List.mem_singleton, List.not_mem_nil, or_false, not_or] at h1 h2
    unfold engineForToolChain
    rw [if_neg (by tauto), if_neg (by tauto)]

/-- Witness of C12: the plain collaborators in the build without `WITH_LLDB`. -/
theorem C12_engineForToolChain_table_witness :
    (unixBuild.WITH_LLDB && plainCore.lldbEnabled) = false
    ∧ engineForToolChain unixBuild plainCore ToolChain_GCC_MAEMO = GdbEngineType
    ∧ engineForToolChain unixBuild plainCore ToolChain_WINCE = CdbEngineType
    ∧ engineForToolChain unixBuild plainCore ToolChain_INVALID = NoEngineType
    ∧ engineForToolChain unixBuild plainCore 4711 = NoEngineType :=
  have h := C12_engineForToolChain_table unixBuild plainCore (by decide)
  ⟨by decide, h.1 _ (by decide), h.2.1 _ (by decide), h.2.2.1 _ (by decide),
    h.2.2.2 4711 (by decide) (by decide)⟩

/-- C13, refuted as stated: for the native executable `a.out`, start mode
`StartRemoteEngine` and process arguments that start with `@tcf@ `, the engine
kind before the language adjustment is the Gdb engine, not Lldb. -/
theorem C13_counterexample_tcf_arguments_give_gdb :
    QString.endsWith remoteTcfParameters.executable ".js" = false
    ∧ QString.endsWith remoteTcfParameters.executable ".py" = false
    ∧ remoteTcfParameters.startMode = StartRemoteEngine
    ∧ (selectEngineType unixBuild plainCore (DebuggerRunControlPrivate.init 0xff)
        remoteTcfParameters).1 = GdbEngineType := by
  decide

/-- C13, as amended: if the start mode is `StartRemoteEngine`, the engine kind
selected before the language adjustment is Lldb whenever the process arguments
do not start with `@tcf@ `, whatever the executable, the tool chain and the
enabled-engine set are; when the process arguments start with `@tcf@ ` it is
the Gdb engine. -/
theorem C13_remote_engine_is_lldb_unless_tcf (b : BuildFlags) (core : DebuggerCore)
    (d : DebuggerRunControlPrivate) (sp : DebuggerStartParameters)
    (hmode : sp.startMode = StartRemoteEngine) :
    (QString.startsWith sp.processArgs "@tcf@ " = false →
      (selectEngineType b core d sp).1 = LldbEngineType)
    ∧ (QString.startsWith sp.processArgs "@tcf@ " = true →
      (selectEngineType b core d sp).1 = GdbEngineType) := by
  constructor
  · intro htcf
    unfold selectEngineType
    simp [hmode, htcf]
  · intro htcf
    unfold selectEngineType
    simp [hmode, htcf]

/-- Witness of C13 as amended: the remote start with and without the `@tcf@`
marker, in the Windows build with nothing enabled. -/
theorem C13_remote_engine_is_lldb_unless_tcf_witness :
    { remoteTcfParameters with processArgs := "" }.startMode = StartRemoteEngine
    ∧ (selectEngineType windowsBuild plainCore (DebuggerRunControlPrivate.init 0)
        { remoteTcfParameters with processArgs := "" }).1 = LldbEngineType
    ∧ (selectEngineType windowsBuild plainCore (DebuggerRunControlPrivate.init 0)
        remoteTcfParameters).1 = GdbEngineType :=
  ⟨rfl,
    (C13_remote_engine_is_lldb_unless_tcf windowsBuild plainCore (DebuggerRunControlPrivate.init 0)
      { remoteTcfParameters with processArgs := "" } rfl).1 (by decide),
    (C13_remote_engine_is_lldb_unless_tcf windowsBuild plainCore (DebuggerRunControlPrivate.init 0)
      remoteTcfParameters rfl).2 (by decide)⟩

/-- C14 (final adjustment): if the active languages include both QML and C++
and the kind selected so far is neither `QmlEngineType` nor `NoEngineType`, the
adjustment yields `QmlCppEngineType` and records the previous kind in
`sp.cppEngineType`; if the kind selected so far is `QmlEngineType` or
`NoEngineType`, or QML is not among the active languages, kind and start
parameters are left unchanged.  The final kind and start parameters of the
selection are this adjustment applied to the kind selected before it. -/
theorem C14_language_adjustment (b : BuildFlags) (core : DebuggerCore) (enabledEngines : Nat)
    (activeLangs : Nat) (engineType : DebuggerEngineType) (sp : DebuggerStartParameters) :
    (hasLanguage activeLangs QmlLanguage = true → hasLanguage activeLangs CppLanguage = true →
      engineType ≠ QmlEngineType → engineType ≠ NoEngineType →
      adjustForLanguages activeLangs engineType sp
        = (QmlCppEngineType, { sp with cppEngineType := engineType }))
    ∧ (engineType = QmlEngineType ∨ engineType = NoEngineType
        ∨ hasLanguage activeLangs QmlLanguage = false →
      adjustForLanguages activeLangs engineType sp = (engineType, sp))
    ∧ (DebuggerRunControl.selection b core enabledEngines sp).engineType
        = (adjustForLanguages core.activeLanguages
            (selectEngineType b core (DebuggerRunControlPrivate.init enabledEngines) sp).1 sp).1
    ∧ (DebuggerRunControl.selection b core enabledEngines sp).sp
        = (adjustForLanguages core.activeLanguages
            (selectEngineType b core (DebuggerRunControlPrivate.init enabledEngines) sp).1 sp).2 := by
  refine ⟨?_, ?_, rfl, rfl⟩
  · intro hq hc h1 h2
    simp [adjustForLanguages, hq, hc, h1, h2]
  · intro h
    unfold adjustForLanguages
    rcases h with h | h | h <;> simp [h]

/-- Witness of C14: Gdb with QML and C++ active, Gdb with C++ alone, and no
engine with QML and C++ active. -/
theorem C14_language_adjustment_witness :
    (hasLanguage 3 QmlLanguage = true ∧ hasLanguage 3 CppLanguage = true
      ∧ GdbEngineType ≠ QmlEngineType ∧ GdbEngineType ≠ NoEngineType
      ∧ hasLanguage 1 QmlLanguage = false)
    ∧ adjustForLanguages 3 GdbEngineType msvcParameters
        = (QmlCppEngineType, { msvcParameters with cppEngineType := GdbEngineType })
    ∧ adjustForLanguages 1 GdbEngineType msvcParameters = (GdbEngineType, msvcParameters)
    ∧ adjustForLanguages 3 NoEngineType msvcParameters = (NoEngineType, msvcParameters) :=
  have h := C14_language_adjustment unixBuild plainCore 0 3 GdbEngineType msvcParameters
  have h1 := C14_language_adjustment unixBuild plainCore 0 1 GdbEngineType msvcParameters
  have h0 := C14_language_adjustment unixBuild plainCore 0 3 NoEngineType msvcParameters
  ⟨by decide, h.1 (by decide) (by decide) (by decide) (by decide),
    h1.2.1 (Or.inr (Or.inr (by decide))), h0.2.1 (Or.inr (Or.inl rfl))⟩

/-! ### The lifecycle of the run control -/

theorem eventsSince_append (q q2 : DebuggerRunControl) (l : List RunControlEvent)
    (h : q2.trace = q.trace ++ l) : eventsSince q q2 = l := by
  simp [eventsSince, h]

/-- C16: on a run control with an engine, `start()` first tells the core, emits
`started()` and sets the running flag, and only then calls the engine's
`startDebugger`.  If the engine calls `startFailed()` synchronously during
`startDebugger`, then after `start()` the run control is not running,
`finished()` was emitted exactly once and no "Debugging starts" line was
emitted; if it does not, the run control is running after `start()`. -/
theorem C16_start_with_engine (q : DebuggerRunControl) (engine : DebuggerEngine)
    (hengine : q.d.m_engine = some engine) :
    ((DebuggerRunControl.startPrologue engine q).d.m_running = true
      ∧ eventsSince q (DebuggerRunControl.startPrologue engine q)
          = [RunControlEvent.runControlStarted engine, RunControlEvent.started])
    ∧ ((DebuggerRunControl.start true q).d.m_running = false
      ∧ eventsSince q (DebuggerRunControl.start true q)
          = [RunControlEvent.runControlStarted engine, RunControlEvent.started,
              RunControlEvent.engineStartDebugger,
              RunControlEvent.addToOutputWindowInline "Debugging has failed" false,
              RunControlEvent.finished,
              RunControlEvent.addToOutputWindowInline "Debugging has finished" false,
              RunControlEvent.engineHandleFinished,
              RunControlEvent.runControlFinished (some engine),
              RunControlEvent.engineHandleStartFailed]
      ∧ finishedCount (eventsSince q (DebuggerRunControl.start true q)) = 1
      ∧ RunControlEvent.addToOutputWindowInline "Debugging starts" false
          ∉ eventsSince q (DebuggerRunControl.start true q))
    ∧ ((DebuggerRunControl.start false q).d.m_running = true
      ∧ eventsSince q (DebuggerRunControl.start false q)
          = [RunControlEvent.runControlStarted engine, RunControlEvent.started,
              RunControlEvent.engineStartDebugger,
              RunControlEvent.addToOutputWindowInline "Debugging starts" false,
              RunControlEvent.addToOutputWindowInline "\n" false]) := by
  have ht : eventsSince q (DebuggerRunControl.start true q)
      = [RunControlEvent.runControlStarted engine, RunControlEvent.started,
          RunControlEvent.engineStartDebugger,
          RunControlEvent.addToOutputWindowInline "Debugging has failed" false,
          RunControlEvent.finished,
          RunControlEvent.addToOutputWindowInline "Debugging has finished" false,
          RunControlEvent.engineHandleFinished,
          RunControlEvent.runControlFinished (some engine),
          RunControlEvent.engineHandleStartFailed] := by
    apply eventsSince_append
    simp [DebuggerRunControl.start, DebuggerRunControl.startPrologue,
      DebuggerRunControl.engineStartDebugger, DebuggerRunControl.startFailed,
      DebuggerRunControl.handleFinished, hengine]
  refine ⟨⟨rfl, ?_⟩, ⟨?_, ht, ?_, ?_⟩, ⟨?_, ?_⟩⟩
  · apply eventsSince_append
    rfl
  · simp [DebuggerRunControl.start, DebuggerRunControl.startPrologue,
      DebuggerRunControl.engineStartDebugger, DebuggerRunControl.startFailed,
      DebuggerRunControl.handleFinished, hengine]
  · rw [ht]
    simp [finishedCount]
  · rw [ht]
    simp
  · simp [DebuggerRunControl.start, DebuggerRunControl.startPrologue,
      DebuggerRunControl.engineStartDebugger, hengine]
  · apply eventsSince_append
    simp [DebuggerRunControl.start, DebuggerRunControl.startPrologue,
      DebuggerRunControl.engineStartDebugger, hengine]

/-- Witness of C16: the example run control with the Gdb engine. -/
theorem C16_start_with_engine_witness :
    gdbRunControl.d.m_engine
        = some { engineType := GdbEngineType,
                 startParameters := { msvcParameters with toolChainType := ToolChain_GCC } }
    ∧ (DebuggerRunControl.start true gdbRunControl).d.m_running = false
    ∧ finishedCount (eventsSince gdbRunControl (DebuggerRunControl.start true gdbRunControl)) = 1
    ∧ (DebuggerRunControl.start false gdbRunControl).d.m_running = true :=
  have h := C16_start_with_engine gdbRunControl
    { engineType := GdbEngineType,
      startParameters := { msvcParameters with toolChainType := ToolChain_GCC } } (by decide)
  ⟨by decide, h.2.1.1, h.2.1.2.2.1, h.2.2.1⟩

/-- C17: `handleFinished()` writes its output line, then calls the engine's
`handleFinished` when an engine exists, and only after that notifies the core
(`runControlFinished`); without an engine it makes no call into an engine and
adds only the output line and the notification (with a null engine).  In both
cases the private data is unchanged. -/
theorem C17_handleFinished_engine_then_notification (q : DebuggerRunControl) :
    (∀ engine, q.d.m_engine = some engine →
      eventsSince q (DebuggerRunControl.handleFinished q)
        = [RunControlEvent.addToOutputWindowInline "Debugging has finished" false,
            RunControlEvent.engineHandleFinished,
            RunControlEvent.runControlFinished (some engine)])
    ∧ (q.d.m_engine = none →
      eventsSince q (DebuggerRunControl.handleFinished q)
          = [RunControlEvent.addToOutputWindowInline "Debugging has finished" false,
              RunControlEvent.runControlFinished none]
        ∧ (eventsSince q (DebuggerRunControl.handleFinished q)).filter isEngineCall = [])
    ∧ (DebuggerRunControl.handleFinished q).d = q.d := by
  refine ⟨?_, ?_, rfl⟩
  · intro engine hengine
    apply eventsSince_append
    simp [DebuggerRunControl.handleFinished, hengine]
  · intro hnone
    have h : eventsSince q (DebuggerRunControl.handleFinished q)
          = [RunControlEvent.addToOutputWindowInline "Debugging has finished" false,
              RunControlEvent.runControlFinished none] := by
      apply eventsSince_append
      simp [DebuggerRunControl.handleFinished, hnone]
    refine ⟨h, ?_⟩
    rw [h]
    rfl

/-- Witness of C17: the example run controls without and with an engine. -/
theorem C17_handleFinished_engine_then_notification_witness :
    failedRunControl.d.m_engine = none
    ∧ eventsSince failedRunControl (DebuggerRunControl.handleFinished failedRunControl)
        = [RunControlEvent.addToOutputWindowInline "Debugging has finished" false,
            RunControlEvent.runControlFinished none]
    ∧ eventsSince gdbRunControl (DebuggerRunControl.handleFinished gdbRunControl)
        = [RunControlEvent.addToOutputWindowInline "Debugging has finished" false,
            RunControlEvent.engineHandleFinished,
            RunControlEvent.runControlFinished gdbRunControl.d.m_engine] :=
  ⟨by decide,
    ((C17_handleFinished_engine_then_notification failedRunControl).2.1 (by decide)).1,
    (C17_handleFinished_engine_then_notification gdbRunControl).1 _ (by decide)⟩

/-- C18: on a run control with an engine, `stop()` asks the engine to quit and
returns `AsynchronousStop`; it leaves the private data and so the running flag
as they are and emits no `finished()`.  A later `debuggingFinished()` clears the
running flag and emits `finished()` (upon which the slot `handleFinished`
runs). -/
theorem C18_stop_is_asynchronous (q : DebuggerRunControl) (engine : DebuggerEngine)
    (hengine : q.d.m_engine = some engine) :
    ((DebuggerRunControl.stop q).1 = StopResult.AsynchronousStop
      ∧ (DebuggerRunControl.stop q).2.d = q.d
      ∧ DebuggerRunControl.isRunning (DebuggerRunControl.stop q).2
          = DebuggerRunControl.isRunning q
      ∧ eventsSince q (DebuggerRunControl.stop q).2 = [RunControlEvent.engineQuitDebugger]
      ∧ finishedCount (eventsSince q (DebuggerRunControl.stop q).2) = 0)
    ∧ (DebuggerRunControl.isRunning
          (DebuggerRunControl.debuggingFinished (DebuggerRunControl.stop q).2) = false
      ∧ eventsSince (DebuggerRunControl.stop q).2
          (DebuggerRunControl.debuggingFinished (DebuggerRunControl.stop q).2)
          = [RunControlEvent.finished,
              RunControlEvent.addToOutputWindowInline "Debugging has finished" false,
              RunControlEvent.engineHandleFinished,
              RunControlEvent.runControlFinished (some engine)]) := by
  have hs : DebuggerRunControl.stop q
      = (StopResult.AsynchronousStop,
          { q with trace := q.trace ++ [RunControlEvent.engineQuitDebugger] }) := by
    simp [DebuggerRunControl.stop, hengine]
  have he : eventsSince q (DebuggerRunControl.stop q).2 = [RunControlEvent.engineQuitDebugger] := by
    apply eventsSince_append
    rw [hs]
  refine ⟨⟨by rw [hs], by rw [hs], by rw [hs]; rfl, he, ?_⟩, ⟨rfl, ?_⟩⟩
  · rw [he]
    rfl
  · apply eventsSince_append
    rw [hs]
    simp [DebuggerRunControl.debuggingFinished, DebuggerRunControl.handleFinished, hengine]

/-- Witness of C18: the example run control with the Gdb engine, started and
then stopped. -/
theorem C18_stop_is_asynchronous_witness :
    gdbRunControl.d.m_engine
        = some { engineType := GdbEngineType,
                 startParameters := { msvcParameters with toolChainType := ToolChain_GCC } }
    ∧ (DebuggerRunControl.stop (DebuggerRunControl.start false gdbRunControl)).1
        = StopResult.AsynchronousStop
    ∧ DebuggerRunControl.isRunning
        (DebuggerRunControl.stop (DebuggerRunControl.start false gdbRunControl)).2 = true
    ∧ DebuggerRunControl.isRunning (DebuggerRunControl.debuggingFinished
        (DebuggerRunControl.stop (DebuggerRunControl.start false gdbRunControl)).2) = false :=
  have h := C18_stop_is_asynchronous (DebuggerRunControl.start false gdbRunControl)
    { engineType := GdbEngineType,
      startParameters := { msvcParameters with toolChainType := ToolChain_GCC } } (by decide)
  ⟨by decide, h.1.1, h.1.2.2.1.trans (by decide), h.2.1⟩

/-! ### The build without `Q_OS_WIN` -/

/-- C27: in the build without `Q_OS_WIN`, `engineForMode` returns the Tcf engine
for the start mode `AttachTcf` and the Gdb engine for every other start mode,
whatever the enabled-engine set is, and it leaves the private data alone; so the
selection of the constructor never ends with `NoEngineType`: for every
executable, tool chain, start mode, process arguments, enabled-engine set and
collaborator answers (the active languages included) the final engine kind is a
concrete kind. -/
theorem C27_unix_selection_is_never_none (b : BuildFlags) (core : DebuggerCore)
    (enabledEngines : Nat) (startParams : DebuggerStartParameters)
    (hunix : b.Q_OS_WIN = false) :
    (∀ (d : DebuggerRunControlPrivate) (enabled : Nat) (startMode : DebuggerStartMode),
      engineForMode b d enabled startMode
        = (if startMode = AttachTcf then TcfEngineType else GdbEngineType, d))
    ∧ (selectEngineType b core (DebuggerRunControlPrivate.init enabledEngines) startParams).1
        ≠ NoEngineType
    ∧ (DebuggerRunControl.selection b core enabledEngines startParams).engineType ≠ NoEngineType
    ∧ (DebuggerRunControl.selection b core enabledEngines startParams).engineType
        ≠ AllEngineTypes := by
  have hsel : (selectEngineType b core (DebuggerRunControlPrivate.init enabledEngines)
      startParams).1 ≠ NoEngineType := by
    intro h
    have := (selectEngineType_none b core _ startParams h).1
    rw [hunix] at this
    exact Bool.false_ne_true this
  refine ⟨?_, hsel, ?_, ?_⟩
  · intro d enabled startMode
    unfold engineForMode
    by_cases hm : startMode = AttachTcf <;> simp [hm, hunix]
  · intro h
    exact hsel ((adjustForLanguages_kind _ _ _).1.1 h)
  · intro h
    exact selectEngineType_ne_all b core _ startParams ((adjustForLanguages_kind _ _ _).2 h)

/-- Witness of C27: the post-mortem attach without an executable and with no
engine enabled, in the build without `Q_OS_WIN`, ends with the Gdb engine. -/
theorem C27_unix_selection_is_never_none_witness :
    unixBuild.Q_OS_WIN = false
    ∧ (DebuggerRunControl.selection unixBuild plainCore 0 crashParameters).engineType
        = GdbEngineType
    ∧ (DebuggerRunControl.selection unixBuild plainCore 0 crashParameters).engineType
        ≠ NoEngineType :=
  ⟨rfl, by decide,
    (C27_unix_selection_is_never_none unixBuild plainCore 0 crashParameters rfl).2.2.1⟩

/-! ### The two tool chain tables -/

/-- C30, the two tables side by side: with C++ among the active languages and no
LLDB override, `checkDebugConfiguration` looks for a gdb binary exactly for the
eight tool chains GCC, LINUX_ICC, MinGW, WINCE, WINSCW, GCCE, RVCT2_ARMV5 and
RVCT2_ARMV6 (it fails with the Gdb message exactly when the binary is missing),
asks for the Cdb configuration check exactly for MSVC, and succeeds without any
check for every other tool chain; `engineForToolChain` gives the Gdb engine
exactly for the ten tool chains LINUX_ICC, MinGW, GCC, WINSCW, GCCE,
RVCT2_ARMV5, RVCT2_ARMV6, RVCT_ARMV5_GNUPOC, GCCE_GNUPOC and GCC_MAEMO and the
Cdb engine exactly for MSVC and WINCE.  The tables differ on WINCE (checked for
gdb, mapped to Cdb, never checked for Cdb) and on RVCT_ARMV5_GNUPOC, GCCE_GNUPOC
and GCC_MAEMO (mapped to Gdb, never checked). -/
theorem C30_toolchain_tables_side_by_side (b : BuildFlags) (core : DebuggerCore)
    (toolChain : Int) (settingsCategory : Bool)
    (hcpp : hasLanguage core.activeLanguages CppLanguage = true)
    (hlldb : (b.WITH_LLDB && core.lldbEnabled) = false) :
    (toolChain ∈ [ToolChain_GCC, ToolChain_LINUX_ICC, ToolChain_MinGW, ToolChain_WINCE,
        ToolChain_WINSCW, ToolChain_GCCE, ToolChain_RVCT2_ARMV5, ToolChain_RVCT2_ARMV6] →
      (checkDebugConfiguration core toolChain settingsCategory).success
          = !(QString.isEmpty (core.gdbBinaryForToolChain toolChain))
      ∧ (QString.isEmpty (core.gdbBinaryForToolChain toolChain) = true →
        (checkDebugConfiguration core toolChain settingsCategory).errorMessage
          = core.msgNoBinaryForToolChain toolChain ++ msgEngineNotAvailable "Gdb"))
    ∧ (toolChain = ToolChain_MSVC →
      (checkDebugConfiguration core toolChain settingsCategory).success
        = (core.checkCdbConfiguration toolChain "" "").1)
    ∧ (toolChain ∉ [ToolChain_GCC, ToolChain_LINUX_ICC, ToolChain_MinGW, ToolChain_WINCE,
        ToolChain_WINSCW, ToolChain_GCCE, ToolChain_RVCT2_ARMV5, ToolChain_RVCT2_ARMV6] →
      toolChain ≠ ToolChain_MSVC →
      checkDebugConfiguration core toolChain settingsCategory
        = { success := true, errorMessage := "",
            settingsCategory := if settingsCategory then some "" else none,
            settingsPage := "" })
    ∧ (engineForToolChain b core toolChain = GdbEngineType ↔
      toolChain ∈ [ToolChain_LINUX_ICC, ToolChain_MinGW, ToolChain_GCC, ToolChain_WINSCW,
        ToolChain_GCCE, ToolChain_RVCT2_ARMV5, ToolChain_RVCT2_ARMV6,
        ToolChain_RVCT_ARMV5_GNUPOC, ToolChain_GCCE_GNUPOC, ToolChain_GCC_MAEMO])
    ∧ (engineForToolChain b core toolChain = CdbEngineType ↔
      toolChain ∈ [ToolChain_MSVC, ToolChain_WINCE]) := by
  have hcpp2 : (!(hasLanguage core.activeLanguages CppLanguage)) = false := by simp [hcpp]
  refine ⟨?_, ?_, ?_, ?_, ?_⟩
  · intro hmem
    have hor : toolChain = ToolChain_GCC ∨ toolChain = ToolChain_LINUX_ICC
        ∨ toolChain = ToolChain_MinGW ∨ toolChain = ToolChain_WINCE
        ∨ toolChain = ToolChain_WINSCW ∨ toolChain = ToolChain_GCCE
        ∨ toolChain = ToolChain_RVCT2_ARMV5 ∨ toolChain = ToolChain_RVCT2_ARMV6 := by
      simpa using hmem
    unfold checkDebugConfiguration
    simp only [hcpp2, Bool.false_eq_true, if_false, if_pos hor]
    cases hg : QString.isEmpty (core.gdbBinaryForToolChain toolChain) <;> simp
  · intro hmsvc
    subst hmsvc
    unfold checkDebugConfiguration
    simp only [hcpp2, Bool.false_eq_true, if_false]
    rw [if_neg (by decide)]
    simp only [if_true]
    cases hc : (core.checkCdbConfiguration ToolChain_MSVC "" "").1 <;> simp [hc]
  · intro hnot hmsvc
    have hor : ¬ (toolChain = ToolChain_GCC ∨ toolChain = ToolChain_LINUX_ICC
        ∨ toolChain = ToolChain_MinGW ∨ toolChain = ToolChain_WINCE
        ∨ toolChain = ToolChain_WINSCW ∨ toolChain = ToolChain_GCCE
        ∨ toolChain = ToolChain_RVCT2_ARMV5 ∨ toolChain = ToolChain_RVCT2_ARMV6) := by
      simpa using hnot
    unfold checkDebugConfiguration
    simp only [hcpp2, Bool.false_eq_true, if_false, if_neg hor, if_neg hmsvc]
    simp
  · unfold engineForToolChain
    simp only [hlldb, Bool.false_eq_true, if_false]
    by_cases h1 : toolChain = ToolChain_LINUX_ICC ∨ toolChain = ToolChain_MinGW
        ∨ toolChain = ToolChain_GCC ∨ toolChain = ToolChain_WINSCW
        ∨ toolChain = ToolChain_GCCE ∨ toolChain = ToolChain_RVCT2_ARMV5
        ∨ toolChain = ToolChain_RVCT2_ARMV6 ∨ toolChain = ToolChain_RVCT_ARMV5_GNUPOC
        ∨ toolChain = ToolChain_GCCE_GNUPOC ∨ toolChain = ToolChain_GCC_MAEMO
    · rw [if_pos h1]
      simpa using h1
    · rw [if_neg h1]
      have h3 : toolChain ∉ [ToolChain_LINUX_ICC, ToolChain_MinGW, ToolChain_GCC,
          ToolChain_WINSCW, ToolChain_GCCE, ToolChain_RVCT2_ARMV5, ToolChain_RVCT2_ARMV6,
          ToolChain_RVCT_ARMV5_GNUPOC, ToolChain_GCCE_GNUPOC, ToolChain_GCC_MAEMO] := by
        simpa using h1
      split_ifs <;> simp [h3]
  · unfold engineForToolChain
    simp only [hlldb, Bool.false_eq_true, if_false]
    by_cases h1 : toolChain = ToolChain_LINUX_ICC ∨ toolChain = ToolChain_MinGW
        ∨ toolChain = ToolChain_GCC ∨ toolChain = ToolChain_WINSCW
        ∨ toolChain = ToolChain_GCCE ∨ toolChain = ToolChain_RVCT2_ARMV5
        ∨ toolChain = ToolChain_RVCT2_ARMV6 ∨ toolChain = ToolChain_RVCT_ARMV5_GNUPOC
        ∨ toolChain = ToolChain_GCCE_GNUPOC ∨ toolChain = ToolChain_GCC_MAEMO
    · rw [if_pos h1]
      have : toolChain ∉ [ToolChain_MSVC, ToolChain_WINCE] := by
        rcases h1 with h | h | h | h | h | h | h | h | h | h <;> subst h <;> decide
      simp [this]
    · rw [if_neg h1]
      by_cases h2 : toolChain = ToolChain_MSVC ∨ toolChain = ToolChain_WINCE
      · rw [if_pos h2]
        simpa using h2
      · rw [if_neg h2]
        have : toolChain ∉ [ToolChain_MSVC, ToolChain_WINCE] := by simpa using h2
        simp [this]

/-- Witness of C30, the failing inputs: with C++ active and no gdb binary, the
tool chain WINCE fails the configuration check with the Gdb message although
`engineForToolChain` maps it to the Cdb engine, and a failing Cdb configuration
check does not make it fail; the tool chain GCC_MAEMO passes the check although
`engineForToolChain` maps it to the Gdb engine and no gdb binary exists. -/
theorem C30_toolchain_tables_side_by_side_witness :
    (hasLanguage noGdbCore.activeLanguages CppLanguage = true
      ∧ (unixBuild.WITH_LLDB && noGdbCore.lldbEnabled) = false)
    ∧ (engineForToolChain unixBuild noGdbCore ToolChain_WINCE = CdbEngineType
      ∧ (checkDebugConfiguration noGdbCore ToolChain_WINCE true).success = false
      ∧ (checkDebugConfiguration noGdbCore ToolChain_WINCE true).errorMessage
          = noGdbCore.msgNoBinaryForToolChain ToolChain_WINCE ++ msgEngineNotAvailable "Gdb"
      ∧ (checkDebugConfiguration noCdbCore ToolChain_WINCE true).success = true)
    ∧ (engineForToolChain unixBuild noGdbCore ToolChain_GCC_MAEMO = GdbEngineType
      ∧ (checkDebugConfiguration noGdbCore ToolChain_GCC_MAEMO true).success = true) :=
  have h := C30_toolchain_tables_side_by_side unixBuild noGdbCore ToolChain_WINCE true
    (by decide) (by decide)
  have hm := C30_toolchain_tables_side_by_side unixBuild noGdbCore ToolChain_GCC_MAEMO true
    (by decide) (by decide)
  ⟨⟨by decide, by decide⟩,
    ⟨h.2.2.2.2.2 (by decide), (h.1 (by decide)).1.trans (by decide),
      (h.1 (by decide)).2 (by decide), by decide⟩,
    ⟨hm.2.2.2.1.2 (by decide), by rw [hm.2.2.1 (by decide) (by decide)]⟩⟩

end Debugger

namespace CMakeProjectManager
namespace CMakeBuildSystem
open TargetType

/-! ### The reparse flag queue -/

theorem accumulate_pending (flags : List Nat) (s : CMakeBuildSystem) :
    (accumulate flags s).m_reparseParameters
      = flags.foldl (fun x f => x ||| f) s.m_reparseParameters := by
  induction flags generalizing s with
  | nil => rfl
  | cons f rest ih =>
    simp only [accumulate, List.foldl_cons] at ih ⊢
    rw [ih]
    rfl

theorem testBit_foldl_or (flags : List Nat) (x i : Nat) :
    (flags.foldl (fun x f => x ||| f) x).testBit i = true
      ↔ x.testBit i = true ∨ ∃ f ∈ flags, f.testBit i = true := by
  induction flags generalizing x with
  | nil => simp
  | cons f rest ih =>
    simp only [List.foldl_cons, ih, Nat.testBit_or, Bool.or_eq_true, List.mem_cons,
      exists_eq_or_imp]
    tauto

/-- C1: starting from an empty pending set (which is also what every
`takeReparseParameters` leaves behind), after the calls
`updateReparseParameters(f1)`, ..., `updateReparseParameters(fn)` the call
`takeReparseParameters` returns exactly `f1 | ... | fn`: a bit is set in the
result if and only if it is set in one of the accumulated values; a second
`takeReparseParameters` right after it returns `REPARSE_DEFAULT`, the empty
set. -/
theorem C1_take_returns_or_of_accumulated (s : CMakeBuildSystem) (flags : List Nat)
    (hempty : s.m_reparseParameters = REPARSE_DEFAULT) :
    (takeReparseParameters (accumulate flags s)).1 = flags.foldl (fun x f => x ||| f) 0
    ∧ (∀ i, (takeReparseParameters (accumulate flags s)).1.testBit i = true
          ↔ ∃ f ∈ flags, f.testBit i = true)
    ∧ (takeReparseParameters (takeReparseParameters (accumulate flags s)).2).1
        = REPARSE_DEFAULT
    ∧ REPARSE_DEFAULT = 0
    ∧ ∀ s0 : CMakeBuildSystem, (takeReparseParameters s0).2.m_reparseParameters
        = REPARSE_DEFAULT := by
  have h0 : s.m_reparseParameters = 0 := hempty
  refine ⟨?_, ?_, rfl, rfl, fun _ => rfl⟩
  · simp only [takeReparseParameters, accumulate_pending, h0]
  · intro i
    simp only [takeReparseParameters, accumulate_pending, h0, testBit_foldl_or]
    simp

/-- Witness of C1: three accumulated values on the idle example system. -/
theorem C1_take_returns_or_of_accumulated_witness :
    idleSystem.m_reparseParameters = REPARSE_DEFAULT
    ∧ ((takeReparseParameters (accumulate [REPARSE_SCAN, REPARSE_URGENT, REPARSE_SCAN] idleSystem)).1
          = [REPARSE_SCAN, REPARSE_URGENT, REPARSE_SCAN].foldl (fun x f => x ||| f) 0
      ∧ (∀ i, (takeReparseParameters
            (accumulate [REPARSE_SCAN, REPARSE_URGENT, REPARSE_SCAN] idleSystem)).1.testBit i = true
          ↔ ∃ f ∈ [REPARSE_SCAN, REPARSE_URGENT, REPARSE_SCAN], f.testBit i = true)
      ∧ (takeReparseParameters (takeReparseParameters
            (accumulate [REPARSE_SCAN, REPARSE_URGENT, REPARSE_SCAN] idleSystem)).2).1
          = REPARSE_DEFAULT
      ∧ REPARSE_DEFAULT = 0
      ∧ ∀ s0 : CMakeBuildSystem, (takeReparseParameters s0).2.m_reparseParameters
          = REPARSE_DEFAULT) :=
  ⟨by decide, C1_take_returns_or_of_accumulated idleSystem _ (by decide)⟩

/-! ### Traces and the file system along `triggerParsing` -/

theorem traceExtends_refl (l : List Effect) : TraceExtends l l := ⟨[], by simp, by simp⟩

theorem traceExtends_snoc {l l2 : List Effect} {e : Effect} (h : TraceExtends l l2)
    (hq : quiet e = true) : TraceExtends l (l2 ++ [e]) := by
  obtain ⟨m, hm, hall⟩ := h
  exact ⟨m ++ [e], by simp [hm], by simp [List.all_append, hall, hq]⟩

theorem stopParsingAndClearState_trace {l : List Effect} (a : Answers) (s : CMakeBuildSystem)
    (h : TraceExtends l s.trace) : TraceExtends l (stopParsingAndClearState a s).trace := by
  simp only [stopParsingAndClearState, emit]
  refine traceExtends_snoc (traceExtends_snoc h ?_) ?_ <;> rfl

theorem acquireOrPreemptGuard_trace {l : List Effect} (a : Answers) (s : CMakeBuildSystem)
    (h : TraceExtends l s.trace) : TraceExtends l (acquireOrPreemptGuard a s).trace := by
  unfold acquireOrPreemptGuard guardParsingRun
  by_cases hg : s.m_currentGuard.guardsProject = true
  · simp only [hg, if_true, ParseGuard.empty]
    exact stopParsingAndClearState_trace a s h
  · simp only [hg, emit]
    refine traceExtends_snoc h ?_
    rfl

theorem acquireOrPreemptGuard_frame (a : Answers) (s : CMakeBuildSystem) :
    (acquireOrPreemptGuard a s).m_parameters = s.m_parameters
    ∧ (acquireOrPreemptGuard a s).fs = s.fs
    ∧ (acquireOrPreemptGuard a s).bc = s.bc
    ∧ (acquireOrPreemptGuard a s).m_buildTargets = s.m_buildTargets
    ∧ (acquireOrPreemptGuard a s).m_allFiles = s.m_allFiles
    ∧ (acquireOrPreemptGuard a s).m_reparseParameters = s.m_reparseParameters := by
  unfold acquireOrPreemptGuard guardParsingRun
  by_cases hg : s.m_currentGuard.guardsProject = true
  · simp [hg, ParseGuard.empty, stopParsingAndClearState, emit]
  · simp [hg, emit]

theorem prepareCycle_frame (s : CMakeBuildSystem) :
    (prepareCycle s).m_parameters = s.m_parameters
    ∧ (prepareCycle s).fs = s.fs
    ∧ (prepareCycle s).bc = s.bc
    ∧ (prepareCycle s).m_buildTargets = s.m_buildTargets
    ∧ (prepareCycle s).m_allFiles = s.m_allFiles
    ∧ (prepareCycle s).m_reader = s.m_reader := by
  unfold prepareCycle asyncScanForFiles updateReparseParameters emit
  simp only
  split_ifs <;> simp

theorem prepareCycle_trace {l : List Effect} (s : CMakeBuildSystem)
    (h : TraceExtends l s.trace) : TraceExtends l (prepareCycle s).trace := by
  unfold prepareCycle asyncScanForFiles updateReparseParameters emit
  simp only
  split_ifs
  all_goals first
    | exact h
    | (refine traceExtends_snoc h ?_; rfl)
    | (refine traceExtends_snoc (traceExtends_snoc h ?_) ?_ <;> rfl)

theorem updateProjectData_trace {l : List Effect} (s : CMakeBuildSystem)
    (h : TraceExtends l s.trace) : TraceExtends l (updateProjectData s).trace := by
  unfold updateProjectData emit
  simp only
  split_ifs
  all_goals (refine traceExtends_snoc (traceExtends_snoc h ?_) ?_ <;> rfl)

theorem releaseCurrentGuard_trace {l : List Effect} (s : CMakeBuildSystem)
    (h : TraceExtends l s.trace) : TraceExtends l (releaseCurrentGuard s).trace := by
  unfold releaseCurrentGuard emit
  simp only
  split_ifs
  · refine traceExtends_snoc h ?_; rfl
  · exact h

theorem combineScanAndParse_trace {l : List Effect} (s : CMakeBuildSystem)
    (h : TraceExtends l s.trace) : TraceExtends l (combineScanAndParse s).trace := by
  unfold combineScanAndParse
  simp only
  split_ifs
  · exact h
  · simp only [emit]
    refine traceExtends_snoc (releaseCurrentGuard_trace _ ?_) rfl
    simp only
    refine traceExtends_snoc (traceExtends_snoc (updateProjectData_trace _ h) ?_) ?_ <;> rfl
  · simp only [emit]
    refine traceExtends_snoc (releaseCurrentGuard_trace _ ?_) rfl
    simp only
    refine traceExtends_snoc h ?_; rfl

theorem handleParsingFailed_trace {l : List Effect} (msg : String) (s : CMakeBuildSystem)
    (h : TraceExtends l s.trace) : TraceExtends l (handleParsingFailed msg s).trace := by
  unfold handleParsingFailed
  simp only
  apply combineScanAndParse_trace
  simp only [setError, emit]
  split_ifs
  · refine traceExtends_snoc h ?_; rfl
  · exact h

theorem workDirectory_trace {l : List Effect} (w : World) (a : Answers)
    (p : BuildDirParameters) (s : CMakeBuildSystem)
    (h : TraceExtends l s.trace) : TraceExtends l (workDirectory w a p s).2.trace := by
  unfold workDirectory
  simp only
  split_ifs <;> (try split) <;> first
    | exact h
    | exact handleParsingFailed_trace _ _ h

theorem writeConfigurationIntoBuildDirectory_trace {l : List Effect} (w : World) (a : Answers)
    (s : CMakeBuildSystem) (h : TraceExtends l s.trace) :
    TraceExtends l (writeConfigurationIntoBuildDirectory w a s).trace := by
  unfold writeConfigurationIntoBuildDirectory
  simp only [emit]
  split_ifs
  · refine traceExtends_snoc h ?_; rfl
  · refine traceExtends_snoc (workDirectory_trace w a _ s h) ?_; rfl
  · refine traceExtends_snoc (workDirectory_trace w a _ s h) ?_; rfl
  · refine traceExtends_snoc (workDirectory_trace w a _ s h) ?_; rfl

theorem checkConfiguration_trace {l : List Effect} (w : World) (a : Answers)
    (s : CMakeBuildSystem) (h : TraceExtends l s.trace) :
    TraceExtends l (checkConfiguration w a s).2.trace := by
  unfold checkConfiguration
  simp only [emit]
  split_ifs
  · exact h
  · exact h
  · split
    all_goals (refine traceExtends_snoc h ?_; rfl)
  · exact h

theorem decideFlags_trace {l : List Effect} (w : World) (a : Answers)
    (s : CMakeBuildSystem) (h : TraceExtends l s.trace) :
    TraceExtends l (decideFlags w a s).2.trace := by
  unfold decideFlags
  simp only [takeReparseParameters]
  split_ifs
  · exact h
  · exact checkConfiguration_trace w a _ h
  · exact checkConfiguration_trace w a _ h
  · exact h

theorem forced_has_cmake_run (x : Nat) :
    ((x ||| (REPARSE_FORCE_CONFIGURATION ||| REPARSE_FORCE_CMAKE_RUN))
      &&& REPARSE_FORCE_CMAKE_RUN != 0) = true := by
  have h : (x ||| (REPARSE_FORCE_CONFIGURATION ||| REPARSE_FORCE_CMAKE_RUN))
      &&& REPARSE_FORCE_CMAKE_RUN ≠ 0 := by
    intro h0
    have h1 := congrArg (fun n => n.testBit 0) h0
    simp only [Nat.testBit_and, Nat.testBit_or, Nat.zero_testBit] at h1
    revert h1
    cases x.testBit 0 <;> decide
  simpa using h

theorem forced_has_configuration (x : Nat) :
    ((x ||| (REPARSE_FORCE_CONFIGURATION ||| REPARSE_FORCE_CMAKE_RUN))
      &&& REPARSE_FORCE_CONFIGURATION != 0) = true := by
  have h : (x ||| (REPARSE_FORCE_CONFIGURATION ||| REPARSE_FORCE_CMAKE_RUN))
      &&& REPARSE_FORCE_CONFIGURATION ≠ 0 := by
    intro h0
    have h1 := congrArg (fun n => n.testBit 1) h0
    simp only [Nat.testBit_and, Nat.testBit_or, Nat.zero_testBit] at h1
    revert h1
    cases x.testBit 1 <;> decide
  simpa using h

theorem filter_isReaderParse_of_quiet (m : List Effect) (h : m.all quiet = true) :
    m.filter isReaderParse = [] := by
  rw [List.filter_eq_nil_iff]
  intro e he
  have hq := List.all_eq_true.mp h e he
  simp only [quiet, Bool.and_eq_true, Bool.not_eq_true'] at hq
  simp [hq.1]

theorem emit_trace (e : Effect) (s : CMakeBuildSystem) :
    (emit e s).trace = s.trace ++ [e] := rfl

theorem effectsSince_of_extends (s s2 : CMakeBuildSystem) (m : List Effect)
    (h : s2.trace = s.trace ++ m) : effectsSince s s2 = m := by
  simp [effectsSince, h]

/-- C4 (scenario B): whenever `triggerParsing` reaches the reader invocation
(the reader is not parsing once the guard is settled, the parameters are valid)
and `CMakeCache.txt` does not exist in the work directory, the reader is
invoked exactly once in that call, as the last effect, with `forceCMakeRun =
true` and `forceConfiguration = true`, whatever flags were pending. -/
theorem C4_missing_cache_forces_both_flags (w : World) (a : Answers) (s : CMakeBuildSystem)
    (hreach : reachesReader a s = true)
    (hcache : s.fs.pathExists (pathAppended s.m_parameters.workDirectory "CMakeCache.txt")
      = false) :
    (effectsSince s (triggerParsing w a s)).filter isReaderParse
        = [Effect.readerParse true true]
    ∧ (triggerParsing w a s).trace.getLast? = some (Effect.readerParse true true) := by
  simp only [reachesReader, Bool.and_eq_true, Bool.not_eq_true'] at hreach
  obtain ⟨hidle, hvalid⟩ := hreach
  have hA := acquireOrPreemptGuard_frame a s
  have hP := prepareCycle_frame (acquireOrPreemptGuard a s)
  have hflags : decideFlags w a (emit Effect.clearTasks (prepareCycle (acquireOrPreemptGuard a s)))
      = ((prepareCycle (acquireOrPreemptGuard a s)).m_reparseParameters
            ||| (REPARSE_FORCE_CONFIGURATION ||| REPARSE_FORCE_CMAKE_RUN),
          (takeReparseParameters
            (emit Effect.clearTasks (prepareCycle (acquireOrPreemptGuard a s)))).2) := by
    unfold decideFlags
    simp only [takeReparseParameters, emit, hP.1, hP.2.1, hA.1, hA.2.1, hcache]
    simp
  have hext : TraceExtends s.trace
      (writeConfigurationIntoBuildDirectory w a (takeReparseParameters
        (emit Effect.clearTasks (prepareCycle (acquireOrPreemptGuard a s)))).2).trace := by
    apply writeConfigurationIntoBuildDirectory_trace
    simp only [takeReparseParameters, emit]
    refine traceExtends_snoc (prepareCycle_trace _ (acquireOrPreemptGuard_trace a s
      (traceExtends_refl _))) ?_
    rfl
  obtain ⟨m, hm, hall⟩ := hext
  have htrace : (triggerParsing w a s).trace
      = s.trace ++ (m ++ [Effect.readerParse true true]) := by
    unfold triggerParsing
    simp only [hidle, hP.1, hA.1, hvalid, hflags, forced_has_cmake_run,
      forced_has_configuration, Bool.false_eq_true, if_false, Bool.not_true, emit_trace, hm,
      List.append_assoc]
  constructor
  · rw [effectsSince_of_extends s _ _ htrace, List.filter_append,
      filter_isReaderParse_of_quiet m hall]
    rfl
  · rw [htrace, ← List.append_assoc, List.getLast?_append]
    rfl

/-- Witness of C4: the example system before its first configuration, with no
flag pending. -/
theorem C4_missing_cache_forces_both_flags_witness :
    (reachesReader plainAnswers unconfiguredSystem = true
      ∧ unconfiguredSystem.fs.pathExists
          (pathAppended unconfiguredSystem.m_parameters.workDirectory "CMakeCache.txt") = false)
    ∧ ((effectsSince unconfiguredSystem
          (triggerParsing plainWorld plainAnswers unconfiguredSystem)).filter isReaderParse
          = [Effect.readerParse true true]
      ∧ (triggerParsing plainWorld plainAnswers unconfiguredSystem).trace.getLast?
          = some (Effect.readerParse true true)) :=
  ⟨by decide,
    C4_missing_cache_forces_both_flags plainWorld plainAnswers unconfiguredSystem
      (by decide) (by decide)⟩

/-! ### The merge point -/

/-- C5 (merge-order independence): in a cycle on an active build configuration
in which both the scan and the parse are awaited, scan completion followed by
parse success and parse success followed by scan completion end in the same
state, trace included; the first completion adds no effect at all, and the
second one runs the merge body exactly once: `updateProjectData` (publishing
the scanned nodes, the parsed targets and the parsed cache configuration),
`markAsSuccess`, the reader reset, the release of the guard (reported when the
guard is live) and the notification. -/
theorem C5_merge_order_independent (w : World) (a : Answers) (s : CMakeBuildSystem)
    (nodes : List FileNode) (targets : List CMakeBuildTarget) (cache : CMakeConfig)
    (hactive : s.bc.isActive = true) (hscan : s.m_waitingForScan = true)
    (hparse : s.m_waitingForParse = true) (hresult : s.m_combinedScanAndParseResult = true) :
    deliver w a (Completion.parsingSucceeded targets cache)
        (deliver w a (Completion.scanFinished nodes) s)
      = deliver w a (Completion.scanFinished nodes)
          (deliver w a (Completion.parsingSucceeded targets cache) s)
    ∧ effectsSince s (deliver w a (Completion.scanFinished nodes) s) = []
    ∧ effectsSince s (deliver w a (Completion.parsingSucceeded targets cache) s) = []
    ∧ effectsSince s (deliver w a (Completion.parsingSucceeded targets cache)
          (deliver w a (Completion.scanFinished nodes) s))
        = [Effect.updateProjectData,
            Effect.projectDataPublished nodes targets (markInCMakeCache cache),
            Effect.markAsSuccess, Effect.readerResetData]
          ++ (if s.m_currentGuard.guardsProject then [Effect.parsingFinished true] else [])
          ++ [Effect.buildSystemUpdated] := by
  refine ⟨?_, ?_, ?_, ?_⟩
  · simp [deliver, handleTreeScanningFinished, handleParsingSucceeded, combineScanAndParse,
      TreeScanner.release, FileApiReader.takeBuildTargets, FileApiReader.takeParsedConfiguration,
      FileApiReader.resetData, checkAndReportError, setError, updateProjectData,
      releaseCurrentGuard, emit, appTargets, deploymentData, ParseGuard.markAsSuccess,
      QString.isEmpty, hactive, hscan, hparse, hresult]
  · simp [effectsSince, deliver, handleTreeScanningFinished, combineScanAndParse,
      TreeScanner.release, hactive, hscan, hparse]
  · simp [effectsSince, deliver, handleParsingSucceeded, combineScanAndParse,
      FileApiReader.takeBuildTargets, FileApiReader.takeParsedConfiguration,
      checkAndReportError, setError, QString.isEmpty, hactive, hscan, hparse]
  · cases hg : s.m_currentGuard.guardsProject <;>
    simp [effectsSince, deliver, handleTreeScanningFinished, handleParsingSucceeded,
      combineScanAndParse, hg,
      TreeScanner.release, FileApiReader.takeBuildTargets, FileApiReader.takeParsedConfiguration,
      FileApiReader.resetData, checkAndReportError, setError, updateProjectData,
      releaseCurrentGuard, emit, ParseGuard.markAsSuccess,
      QString.isEmpty, hactive, hscan, hparse, hresult]

/-- Witness of C5: the example cycle started by `triggerParsing`. -/
theorem C5_merge_order_independent_witness :
    (runningCycle.bc.isActive = true ∧ runningCycle.m_waitingForScan = true
      ∧ runningCycle.m_waitingForParse = true
      ∧ runningCycle.m_combinedScanAndParseResult = true)
    ∧ (deliver plainWorld plainAnswers (Completion.parsingSucceeded [] [])
          (deliver plainWorld plainAnswers (Completion.scanFinished []) runningCycle)
        = deliver plainWorld plainAnswers (Completion.scanFinished [])
            (deliver plainWorld plainAnswers (Completion.parsingSucceeded [] []) runningCycle)
      ∧ effectsSince runningCycle
          (deliver plainWorld plainAnswers (Completion.scanFinished []) runningCycle) = []
      ∧ effectsSince runningCycle
          (deliver plainWorld plainAnswers (Completion.parsingSucceeded [] []) runningCycle) = []
      ∧ effectsSince runningCycle (deliver plainWorld plainAnswers
            (Completion.parsingSucceeded [] [])
            (deliver plainWorld plainAnswers (Completion.scanFinished []) runningCycle))
          = [Effect.updateProjectData,
              Effect.projectDataPublished [] [] (markInCMakeCache []),
              Effect.markAsSuccess, Effect.readerResetData]
            ++ (if runningCycle.m_currentGuard.guardsProject then [Effect.parsingFinished true]
                else [])
            ++ [Effect.buildSystemUpdated]) :=
  ⟨by decide,
    C5_merge_order_independent plainWorld plainAnswers runningCycle [] [] []
      (by decide) (by decide) (by decide) (by decide)⟩

/-- C6, refuted as stated: in the example cycle whose build configuration was
deactivated before the completions, the scan completion resets the reader,
releases the guard and notifies, and the parse failure that follows resets the
reader and notifies again: two "build system updated" notifications in one
cycle. -/
theorem C6_counterexample_deactivated_cycle_notifies_twice :
    deactivatedCycle.bc.isActive = false
    ∧ cycleCounts plainWorld plainAnswers (Completion.scanFinished [])
        (Completion.parsingFailed "CMake failed" []) deactivatedCycle
      = ((1, 1, 1), (2, 1, 2)) := by
  decide

/-- C6, as amended: in a cycle that awaits the scan and the parse under a live
guard, on a build configuration that is active at both completions, for parse
success and parse failure and for either arrival order, the first completion
releases nothing and after the second one the reader state was reset once, the
guard released once and the notification emitted once.  On a deactivated build
configuration every scan completion and every parse failure resets the reader
and notifies on its own (two notifications for scan plus failure), and a parse
success only stops and resets the reader, without release or notification.
The triples count reader resets, guard releases and notifications. -/
theorem C6_release_counts_per_cycle (w : World) (a : Answers) (s : CMakeBuildSystem)
    (nodes : List FileNode) (targets : List CMakeBuildTarget) (cache : CMakeConfig)
    (msg : String)
    (hscan : s.m_waitingForScan = true) (hparse : s.m_waitingForParse = true)
    (hguard : s.m_currentGuard.guardsProject = true) :
    (s.bc.isActive = true →
      cycleCounts w a (Completion.scanFinished nodes) (Completion.parsingSucceeded targets cache) s
          = ((0, 0, 0), (1, 1, 1))
      ∧ cycleCounts w a (Completion.parsingSucceeded targets cache) (Completion.scanFinished nodes) s
          = ((0, 0, 0), (1, 1, 1))
      ∧ cycleCounts w a (Completion.scanFinished nodes) (Completion.parsingFailed msg cache) s
          = ((0, 0, 0), (1, 1, 1))
      ∧ cycleCounts w a (Completion.parsingFailed msg cache) (Completion.scanFinished nodes) s
          = ((0, 0, 0), (1, 1, 1)))
    ∧ (s.bc.isActive = false →
      cycleCounts w a (Completion.scanFinished nodes) (Completion.parsingFailed msg cache) s
          = ((1, 1, 1), (2, 1, 2))
      ∧ cycleCounts w a (Completion.parsingFailed msg cache) (Completion.scanFinished nodes) s
          = ((1, 1, 1), (2, 1, 2))
      ∧ cycleCounts w a (Completion.scanFinished nodes) (Completion.parsingSucceeded targets cache) s
          = ((1, 1, 1), (2, 1, 1))
      ∧ cycleCounts w a (Completion.parsingSucceeded targets cache) (Completion.scanFinished nodes) s
          = ((1, 0, 0), (2, 1, 1))) := by
  constructor
  · intro hactive
    refine ⟨?_, ?_, ?_, ?_⟩ <;> cases hres : s.m_combinedScanAndParseResult <;>
    simp [cycleCounts, releaseCounts, isGuardRelease, effectsSince, deliver,
      handleTreeScanningFinished, handleParsingSucceeded, handleParsingFailed,
      combineScanAndParse, TreeScanner.release, FileApiReader.takeBuildTargets,
      FileApiReader.takeParsedConfiguration, FileApiReader.resetData, checkAndReportError,
      setError, updateProjectData, releaseCurrentGuard, emit, ParseGuard.markAsSuccess,
      QString.isEmpty, hactive, hscan, hparse, hguard, hres]
  · intro hinactive
    refine ⟨?_, ?_, ?_, ?_⟩ <;>
    simp [cycleCounts, releaseCounts, isGuardRelease, effectsSince, deliver,
      handleTreeScanningFinished, handleParsingSucceeded, handleParsingFailed,
      combineScanAndParse, TreeScanner.release, FileApiReader.takeBuildTargets,
      FileApiReader.takeParsedConfiguration, FileApiReader.resetData, checkAndReportError,
      setError, updateProjectData, releaseCurrentGuard, emit, ParseGuard.markAsSuccess,
      stopParsingAndClearState, ParseGuard.empty, FileApiReader.stop,
      QString.isEmpty, hinactive, hscan, hparse, hguard]

/-- Witness of C6 as amended: the example cycle started by `triggerParsing`. -/
theorem C6_release_counts_per_cycle_witness :
    (runningCycle.m_waitingForScan = true ∧ runningCycle.m_waitingForParse = true
      ∧ runningCycle.m_currentGuard.guardsProject = true ∧ runningCycle.bc.isActive = true)
    ∧ cycleCounts plainWorld plainAnswers (Completion.parsingFailed "CMake failed" [])
        (Completion.scanFinished []) runningCycle = ((0, 0, 0), (1, 1, 1)) :=
  ⟨by decide,
    ((C6_release_counts_per_cycle plainWorld plainAnswers runningCycle [] [] [] "CMake failed"
      (by decide) (by decide) (by decide)).1 (by decide)).2.2.2⟩

/-! ### What a failed cycle does to the snapshot -/

/-- C8, evaluated at the failing input: the example cycle is preempted by a
second `triggerParsing` while its scan is still in flight.  The second call
stops and resets the reader, finds the scanner busy (its own assertion
`m_treeScanner.isFinished()` fails) and starts no scan, yet waits for one; the
completion of the first scan is then accepted as the completion the second
cycle waits for, and the parse success of the second cycle merges the nodes of
the first scan into the published project data. -/
theorem C8_first_scan_is_merged_into_second_cycle :
    effectsSince runningCycle preemptedCycle
      = [Effect.readerStop, Effect.readerResetData,
          Effect.softAssert "m_treeScanner.isFinished()", Effect.scannerBusy,
          Effect.clearTasks,
          Effect.writeSettingsFile "/build/qtcsettings.cmake"
            "# This file is managed by Qt Creator, do not edit!\n\nset(CMAKE_GENERATOR Unix Makefiles)",
          Effect.readerParse false false]
    ∧ preemptedCycle.m_waitingForScan = true
    ∧ (deliver plainWorld plainAnswers (Completion.scanFinished firstScanNodes)
        preemptedCycle).m_waitingForScan = false
    ∧ (deliver plainWorld plainAnswers (Completion.scanFinished firstScanNodes)
        preemptedCycle).m_allFiles = firstScanNodes
    ∧ effectsSince preemptedCycle
        (deliver plainWorld plainAnswers (Completion.parsingSucceeded secondTargets [])
          (deliver plainWorld plainAnswers (Completion.scanFinished firstScanNodes)
            preemptedCycle))
      = [Effect.updateProjectData,
          Effect.projectDataPublished firstScanNodes secondTargets [],
          Effect.markAsSuccess, Effect.readerResetData, Effect.parsingFinished true,
          Effect.buildSystemUpdated] := by
  decide

/-! ### The drift check of `triggerParsing` -/

theorem or_and_of_disjoint (x b c : Nat) (h : b &&& c = 0) : (x ||| b) &&& c = x &&& c := by
  rw [Nat.and_comm, Nat.and_or_distrib_left, Nat.and_comm c b, h, Nat.or_zero, Nat.and_comm]

theorem prepareCycle_pending (s : CMakeBuildSystem) :
    (prepareCycle s).m_reparseParameters = s.m_reparseParameters
    ∨ (prepareCycle s).m_reparseParameters = s.m_reparseParameters ||| REPARSE_SCAN := by
  unfold prepareCycle asyncScanForFiles updateReparseParameters emit
  simp only
  split_ifs <;> simp

theorem pending_bits (s : CMakeBuildSystem) (c : Nat) (h : REPARSE_SCAN &&& c = 0) :
    (prepareCycle s).m_reparseParameters &&& c = s.m_reparseParameters &&& c := by
  rcases prepareCycle_pending s with h1 | h1
  · rw [h1]
  · rw [h1, or_and_of_disjoint _ _ _ h]

theorem checkConfiguration_result_congr (w : World) (a : Answers) (s t : CMakeBuildSystem)
    (hp : t.m_parameters = s.m_parameters) (hb : t.bc = s.bc) :
    (checkConfiguration w a t).1 = (checkConfiguration w a s).1 := by
  unfold checkConfiguration
  simp only [hp, hb, emit]
  split_ifs <;> (try split) <;> simp

theorem appTargetsLoop_eq (forAndroid : Bool) (targets : List CMakeBuildTarget)
    (acc : List BuildTargetInfo) :
    appTargetsLoop forAndroid targets acc
      = acc ++ (targets.filter (fun ct => ct.targetType == ExecutableType
            || (forAndroid && ct.targetType == DynamicLibraryType))).map
          (fun ct =>
            { displayName := ct.title
              targetFilePath := ct.executable
              projectFilePath := ct.sourceDirectory ++ "/"
              workingDirectory := ct.workingDirectory
              buildKey := ct.title
              usesTerminal := !ct.linksToQtGui }) := by
  induction targets generalizing acc with
  | nil => simp [appTargetsLoop]
  | cons ct rest ih =>
    unfold appTargetsLoop
    by_cases hu : ct.targetType = UtilityType
    · simp [hu, ih]
    · by_cases he : ct.targetType = ExecutableType
      · simp [hu, he, ih]
      · by_cases hd : ct.targetType = DynamicLibraryType
        · cases forAndroid <;> simp [hu, he, hd, ih]
        · simp [hu, he, hd, ih]

/-- C19: `appTargets()` is, in the order of the build-target list, one entry
for each target whose kind is `ExecutableType`, and also for each target whose
kind is `DynamicLibraryType` when the device type of the kit is Android; so the
number of entries is the number of such targets, a list of only utility, static
library and unknown targets (and dynamic libraries when the kit is not for
Android) gives no entry, and every entry stems from such a target, with
`displayName` and `buildKey` its title, `targetFilePath` its executable,
`workingDirectory` its working directory and `usesTerminal` the negation of
`linksToQtGui`. -/
theorem C19_appTargets_entries (s : CMakeBuildSystem) :
    appTargets s
        = (s.m_buildTargets.filter (fun ct => ct.targetType == ExecutableType
              || (s.project.forAndroid && ct.targetType == DynamicLibraryType))).map
            (fun ct =>
              { displayName := ct.title
                targetFilePath := ct.executable
                projectFilePath := ct.sourceDirectory ++ "/"
                workingDirectory := ct.workingDirectory
                buildKey := ct.title
                usesTerminal := !ct.linksToQtGui })
    ∧ (appTargets s).length
        = s.m_buildTargets.countP (fun ct => ct.targetType == ExecutableType
            || (s.project.forAndroid && ct.targetType == DynamicLibraryType))
    ∧ (appTargets { s with m_buildTargets := s.m_buildTargets.filter (fun ct =>
          ct.targetType == UtilityType || ct.targetType == StaticLibraryType
            || ct.targetType == UnknownType
            || (!s.project.forAndroid && ct.targetType == DynamicLibraryType)) }) = []
    ∧ (∀ bti ∈ appTargets s, ∃ ct ∈ s.m_buildTargets,
        (ct.targetType = ExecutableType
          ∨ (s.project.forAndroid = true ∧ ct.targetType = DynamicLibraryType))
        ∧ bti.displayName = ct.title ∧ bti.buildKey = ct.title
        ∧ bti.targetFilePath = ct.executable ∧ bti.workingDirectory = ct.workingDirectory
        ∧ bti.usesTerminal = !ct.linksToQtGui) := by
  have h := appTargetsLoop_eq s.project.forAndroid s.m_buildTargets []
  refine ⟨by simpa [appTargets] using h, ?_, ?_, ?_⟩
  · simp only [appTargets, h, List.nil_append, List.length_map, List.countP_eq_length_filter]
  · simp only [appTargets, appTargetsLoop_eq, List.nil_append, List.map_eq_nil_iff,
      List.filter_filter, List.filter_eq_nil_iff]
    intro ct _
    cases ct.targetType <;> cases s.project.forAndroid <;> simp
  · intro bti hbti
    simp only [appTargets, h, List.nil_append, List.mem_map, List.mem_filter, Bool.or_eq_true,
      Bool.and_eq_true, beq_iff_eq] at hbti
    obtain ⟨ct, ⟨hmem, hkind⟩, rfl⟩ := hbti
    exact ⟨ct, hmem, hkind, rfl, rfl, rfl, rfl, rfl⟩

/-- Witness of C19: the idle example system has one executable target, and the
list has the one entry for it. -/
theorem C19_appTargets_entries_witness :
    appTargets idleSystem
      = [{ displayName := "app", targetFilePath := "/build/app", projectFilePath := "/src/",
           workingDirectory := "/build", buildKey := "app", usesTerminal := true }] :=
  (C19_appTargets_entries idleSystem).1.trans (by decide)

theorem ne_empty_of_not_isEmpty (p : String) (hp : QString.isEmpty p = false) : p ≠ "" := by
  intro h
  subst h
  revert hp
  decide

theorem deployableForLocalFile_ne_iff (d : DeploymentData) (p : FilePath)
    (hp : QString.isEmpty p = false) :
    ((deployableForLocalFile d p).localFilePath != p) = true
      ↔ ∀ f ∈ d, f.localFilePath ≠ p := by
  have hne := ne_empty_of_not_isEmpty p hp
  unfold deployableForLocalFile
  cases hfind : d.find? (fun f => f.localFilePath == p) with
  | none =>
    simp only [Option.getD_none, bne_iff_ne, ne_eq]
    rw [List.find?_eq_none] at hfind
    constructor
    · intro _ f hf
      simpa using hfind f hf
    · intro _ h
      exact hne h.symm
  | some f =>
    have hmem := List.mem_of_find?_eq_some hfind
    have hp2 := List.find?_some hfind
    simp only [beq_iff_eq] at hp2
    simp only [Option.getD_some, bne_iff_ne, ne_eq, hp2, not_true_eq_false, false_iff,
      not_forall]
    exact ⟨f, hmem, by simp [hp2]⟩

theorem addTargetExecutables_spec (w : World) (buildDir : FilePath) (deploymentPrefix : String)
    (targets : List CMakeBuildTarget) (result : DeploymentData) :
    ∃ added : DeploymentData,
      addTargetExecutables w buildDir deploymentPrefix targets result = result ++ added
      ∧ (∀ f ∈ added, f.fileType = DeployableFileType.TypeExecutable
          ∧ ∃ ct ∈ targets, isDeployable ct = true ∧ f.localFilePath = ct.executable
            ∧ f.remoteDirectory = deploymentPrefix ++ w.relativeDirOf buildDir ct.executable
            ∧ ∀ m ∈ result, m.localFilePath ≠ ct.executable)
      ∧ (∀ ct ∈ targets, isDeployable ct = true →
          ∃ f ∈ result ++ added, f.localFilePath = ct.executable)
      ∧ (added.map (fun f => f.localFilePath)).Nodup := by
  induction targets generalizing result with
  | nil => exact ⟨[], by simp [addTargetExecutables], by simp, by simp, by simp⟩
  | cons ct rest ih =>
    unfold addTargetExecutables
    simp only
    by_cases hd : isDeployable ct = true
    · have hp : QString.isEmpty ct.executable = false := by
        simp only [isDeployable, Bool.and_eq_true, Bool.not_eq_true'] at hd
        exact hd.2
      have hkind : (ct.targetType == ExecutableType || ct.targetType == DynamicLibraryType)
          = true := by
        simp only [isDeployable, Bool.and_eq_true] at hd
        exact hd.1
      by_cases hc : ((deployableForLocalFile result ct.executable).localFilePath
          != ct.executable) = true
      · -- the target is added
        have hfree := (deployableForLocalFile_ne_iff result ct.executable hp).mp hc
        rw [if_pos (by simp [hkind, hp, hc])]
        obtain ⟨added, heq, hprop, hcov, hnodup⟩ := ih
          (result ++ [{ localFilePath := ct.executable
                        remoteDirectory := deploymentPrefix ++ w.relativeDirOf buildDir ct.executable
                        fileType := DeployableFileType.TypeExecutable }])
        refine ⟨{ localFilePath := ct.executable
                  remoteDirectory := deploymentPrefix ++ w.relativeDirOf buildDir ct.executable
                  fileType := DeployableFileType.TypeExecutable } :: added, ?_, ?_, ?_, ?_⟩
        · rw [heq]
          simp
        · intro f hf
          rcases List.mem_cons.mp hf with rfl | hf
          · exact ⟨rfl, ct, List.mem_cons_self _ _, hd, rfl, rfl, hfree⟩
          · obtain ⟨ht, ct2, hmem, hd2, hl, hr, hfree2⟩ := hprop f hf
            exact ⟨ht, ct2, List.mem_cons_of_mem _ hmem, hd2, hl, hr,
              fun m hm => hfree2 m (List.mem_append_left _ hm)⟩
        · intro ct2 hmem hd2
          rcases List.mem_cons.mp hmem with rfl | hmem
          · exact ⟨⟨ct2.executable,
              deploymentPrefix ++ w.relativeDirOf buildDir ct2.executable,
              DeployableFileType.TypeExecutable⟩, by simp, rfl⟩
          · obtain ⟨f, hf, hl⟩ := hcov ct2 hmem hd2
            exact ⟨f, by simpa using hf, hl⟩
        · simp only [List.map_cons, List.nodup_cons, List.mem_map, not_exists, not_and]
          refine ⟨?_, hnodup⟩
          intro f hf hl
          obtain ⟨_, ct2, _, _, hl2, _, hfree2⟩ := hprop f hf
          exact hfree2 ⟨ct.executable,
            deploymentPrefix ++ w.relativeDirOf buildDir ct.executable,
            DeployableFileType.TypeExecutable⟩ (by simp) (by rw [← hl2, hl])
      · -- the target is covered already
        rw [if_neg (by simp [hc])]
        obtain ⟨added, heq, hprop, hcov, hnodup⟩ := ih result
        refine ⟨added, heq, ?_, ?_, hnodup⟩
        · intro f hf
          obtain ⟨ht, ct2, hmem, hd2, hl, hr, hfree2⟩ := hprop f hf
          exact ⟨ht, ct2, List.mem_cons_of_mem _ hmem, hd2, hl, hr, hfree2⟩
        · intro ct2 hmem hd2
          rcases List.mem_cons.mp hmem with rfl | hmem
          · have hcovered : ¬ ∀ f ∈ result, f.localFilePath ≠ ct2.executable :=
              fun h => hc ((deployableForLocalFile_ne_iff result ct2.executable hp).mpr h)
            simp only [not_forall, not_not] at hcovered
            obtain ⟨f, hf, hl⟩ := hcovered
            exact ⟨f, List.mem_append_left _ hf, hl⟩
          · exact hcov ct2 hmem hd2
    · -- the target is not considered
      have hcond : ((ct.targetType == ExecutableType || ct.targetType == DynamicLibraryType)
          && (!(QString.isEmpty ct.executable)
              && (deployableForLocalFile result ct.executable).localFilePath != ct.executable))
          = false := by
        simp only [isDeployable, Bool.and_eq_true, not_and, Bool.not_eq_true,
          Bool.not_eq_false'] at hd
        cases hk : (ct.targetType == ExecutableType || ct.targetType == DynamicLibraryType)
        · simp
        · simp [hd hk]
      rw [if_neg (by simp [hcond])]
      obtain ⟨added, heq, hprop, hcov, hnodup⟩ := ih result
      refine ⟨added, heq, ?_, ?_, hnodup⟩
      · intro f hf
        obtain ⟨ht, ct2, hmem, hd2, hl, hr, hfree2⟩ := hprop f hf
        exact ⟨ht, ct2, List.mem_cons_of_mem _ hmem, hd2, hl, hr, hfree2⟩
      · intro ct2 hmem hd2
        rcases List.mem_cons.mp hmem with rfl | hmem
        · exact absurd hd2 hd
        · exact hcov ct2 hmem hd2

/-- C20, refuted as stated: the idle example system has no manifest in either
directory and an executable target with the output path `/build/app`, and its
deployment data is empty, so the target does not appear; and in the example
system with a manifest, the static library target with the output path
`/build/libcore.a`, which the manifest does not cover, does not appear in the
result either. -/
theorem C20_counterexample_no_manifest_no_entries :
    (hasDeploymentFile idleSystem = false
      ∧ idleSystem.m_buildTargets.map (fun ct => (ct.targetType, ct.executable))
          = [(ExecutableType, "/build/app")]
      ∧ deploymentData plainWorld idleSystem = [])
    ∧ (hasDeploymentFile manifestSystem = true
      ∧ (StaticLibraryType, "/build/libcore.a")
          ∈ manifestSystem.m_buildTargets.map (fun ct => (ct.targetType, ct.executable))
      ∧ (deploymentData manifestWorld manifestSystem).map (fun f => f.localFilePath)
          = ["/src/data.txt", "/build/app", "/build/libplugin.so"]) := by
  decide

/-- C20, as amended: when `QtCreatorDeployment.txt` exists in neither the source
nor the build directory, `deploymentData()` returns no entry at all (which is
not an error; no target is added then).  When it exists (the one in the source
directory first), the result is the entries of the manifest followed by added
entries, where every added entry is an executable-type entry for the output
path of a build target of kind executable or dynamic library with a non-empty
output path that the manifest does not cover, placed below the deployment
prefix; no output path is added twice; and every such target has an entry for
its output path in the result. -/
theorem C20_deploymentData_manifest_then_executables (w : World) (s : CMakeBuildSystem) :
    (hasDeploymentFile s = false → deploymentData w s = [])
    ∧ (hasDeploymentFile s = true →
      ∃ added : DeploymentData,
        deploymentData w s
          = (w.addFilesFromDeploymentFile (deploymentFilePath s) s.project.projectDirectory).2
              ++ added
        ∧ (∀ f ∈ added, f.fileType = DeployableFileType.TypeExecutable
            ∧ ∃ ct ∈ s.m_buildTargets, isDeployable ct = true
              ∧ f.localFilePath = ct.executable
              ∧ f.remoteDirectory
                  = (w.addFilesFromDeploymentFile (deploymentFilePath s)
                      s.project.projectDirectory).1
                    ++ w.relativeDirOf s.bc.buildDirectory ct.executable
              ∧ ∀ m ∈ (w.addFilesFromDeploymentFile (deploymentFilePath s)
                    s.project.projectDirectory).2, m.localFilePath ≠ ct.executable)
        ∧ (∀ ct ∈ s.m_buildTargets, isDeployable ct = true →
            ∃ f ∈ deploymentData w s, f.localFilePath = ct.executable)
        ∧ (added.map (fun f => f.localFilePath)).Nodup) := by
  constructor
  · intro hno
    simp only [hasDeploymentFile, Bool.or_eq_false_iff] at hno
    simp [deploymentData, hno.1, hno.2]
  · intro hyes
    have hd : deploymentData w s
        = addTargetExecutables w s.bc.buildDirectory
            (w.addFilesFromDeploymentFile (deploymentFilePath s) s.project.projectDirectory).1
            s.m_buildTargets
            (w.addFilesFromDeploymentFile (deploymentFilePath s) s.project.projectDirectory).2 := by
      simp only [hasDeploymentFile, Bool.or_eq_true] at hyes
      unfold deploymentData deploymentFilePath
      simp only
      rw [if_neg]
      rcases hyes with h | h <;> simp [h]
    obtain ⟨added, heq, hprop, hcov, hnodup⟩ := addTargetExecutables_spec w s.bc.buildDirectory
      (w.addFilesFromDeploymentFile (deploymentFilePath s) s.project.projectDirectory).1
      s.m_buildTargets
      (w.addFilesFromDeploymentFile (deploymentFilePath s) s.project.projectDirectory).2
    refine ⟨added, hd.trans heq, hprop, ?_, hnodup⟩
    intro ct hmem hdep
    rw [hd, heq]
    exact hcov ct hmem hdep

/-- Witness of C20 as amended: the example system with a manifest; its result
is the manifest entry followed by the entries for the executable and for the
dynamic library. -/
theorem C20_deploymentData_manifest_then_executables_witness :
    (hasDeploymentFile manifestSystem = true ∧ hasDeploymentFile idleSystem = false)
    ∧ deploymentData plainWorld idleSystem = []
    ∧ ∃ added : DeploymentData,
        deploymentData manifestWorld manifestSystem
          = (manifestWorld.addFilesFromDeploymentFile (deploymentFilePath manifestSystem)
              manifestSystem.project.projectDirectory).2 ++ added
        ∧ (added.map (fun f => f.localFilePath)).Nodup :=
  have h := C20_deploymentData_manifest_then_executables manifestWorld manifestSystem
  have h0 := C20_deploymentData_manifest_then_executables plainWorld idleSystem
  ⟨by decide, h0.1 (by decide),
    (h.2 (by decide)).elim fun added ha => ⟨added, ha.1, ha.2.2.2⟩⟩

/-! ### The flags of a cycle along `triggerParsing` -/

theorem combineScanAndParse_flags (s : CMakeBuildSystem) :
    (combineScanAndParse s).m_waitingForScan = s.m_waitingForScan
    ∧ (combineScanAndParse s).m_waitingForParse = s.m_waitingForParse
    ∧ (combineScanAndParse s).m_combinedScanAndParseResult = s.m_combinedScanAndParseResult
    ∧ (combineScanAndParse s).m_reparseParameters = s.m_reparseParameters
    ∧ (combineScanAndParse s).m_parameters = s.m_parameters
    ∧ (combineScanAndParse s).m_treeScanner = s.m_treeScanner := by
  unfold combineScanAndParse releaseCurrentGuard updateProjectData emit
  simp only
  split_ifs <;> simp

theorem handleParsingFailed_flags (msg : String) (s : CMakeBuildSystem) :
    (handleParsingFailed msg s).m_waitingForScan = s.m_waitingForScan
    ∧ (handleParsingFailed msg s).m_waitingForParse = false
    ∧ (handleParsingFailed msg s).m_combinedScanAndParseResult = false
    ∧ (handleParsingFailed msg s).m_reparseParameters = s.m_reparseParameters
    ∧ (handleParsingFailed msg s).m_parameters = s.m_parameters
    ∧ (handleParsingFailed msg s).m_treeScanner = s.m_treeScanner := by
  unfold handleParsingFailed
  simp only [(combineScanAndParse_flags _).1, (combineScanAndParse_flags _).2.1,
    (combineScanAndParse_flags _).2.2.1, (combineScanAndParse_flags _).2.2.2.1,
    (combineScanAndParse_flags _).2.2.2.2.1, (combineScanAndParse_flags _).2.2.2.2.2]
  simp only [setError, emit, FileApiReader.takeParsedConfiguration]
  split_ifs <;> simp

theorem workDirectory_flags (w : World) (a : Answers) (p : BuildDirParameters)
    (s : CMakeBuildSystem) :
    (workDirectory w a p s).2.m_waitingForScan = s.m_waitingForScan
    ∧ (((workDirectory w a p s).2.m_waitingForParse = s.m_waitingForParse
        ∧ (workDirectory w a p s).2.m_combinedScanAndParseResult
            = s.m_combinedScanAndParseResult)
      ∨ (workDirectory w a p s).2.m_combinedScanAndParseResult = false)
    ∧ (workDirectory w a p s).2.m_reparseParameters = s.m_reparseParameters
    ∧ (workDirectory w a p s).2.m_parameters = s.m_parameters
    ∧ (workDirectory w a p s).2.m_treeScanner = s.m_treeScanner := by
  unfold workDirectory
  simp only
  split_ifs <;> (try split) <;>
    simp [(handleParsingFailed_flags _ _).1, (handleParsingFailed_flags _ _).2.1,
      (handleParsingFailed_flags _ _).2.2.1, (handleParsingFailed_flags _ _).2.2.2.1,
      (handleParsingFailed_flags _ _).2.2.2.2.1, (handleParsingFailed_flags _ _).2.2.2.2.2]

theorem writeConfigurationIntoBuildDirectory_flags (w : World) (a : Answers)
    (s : CMakeBuildSystem) :
    (writeConfigurationIntoBuildDirectory w a s).m_waitingForScan = s.m_waitingForScan
    ∧ (((writeConfigurationIntoBuildDirectory w a s).m_waitingForParse = s.m_waitingForParse
        ∧ (writeConfigurationIntoBuildDirectory w a s).m_combinedScanAndParseResult
            = s.m_combinedScanAndParseResult)
      ∨ (writeConfigurationIntoBuildDirectory w a s).m_combinedScanAndParseResult = false)
    ∧ (writeConfigurationIntoBuildDirectory w a s).m_reparseParameters = s.m_reparseParameters
    ∧ (writeConfigurationIntoBuildDirectory w a s).m_parameters = s.m_parameters
    ∧ (writeConfigurationIntoBuildDirectory w a s).m_treeScanner = s.m_treeScanner := by
  have hW := workDirectory_flags w a s.m_parameters s
  unfold writeConfigurationIntoBuildDirectory
  simp only [emit]
  split_ifs <;> simp [hW.1, hW.2.1, hW.2.2.1, hW.2.2.2.1, hW.2.2.2.2]

theorem checkConfiguration_flags (w : World) (a : Answers) (s : CMakeBuildSystem) :
    (checkConfiguration w a s).2.m_waitingForScan = s.m_waitingForScan
    ∧ (checkConfiguration w a s).2.m_waitingForParse = s.m_waitingForParse
    ∧ (checkConfiguration w a s).2.m_combinedScanAndParseResult
        = s.m_combinedScanAndParseResult
    ∧ (checkConfiguration w a s).2.m_reparseParameters = s.m_reparseParameters
    ∧ (checkConfiguration w a s).2.m_treeScanner = s.m_treeScanner
    ∧ (checkConfiguration w a s).2.m_parameters.isValid = s.m_parameters.isValid := by
  unfold checkConfiguration
  simp only [emit]
  split_ifs <;> (try split) <;> simp

theorem decideFlags_flags (w : World) (a : Answers) (s : CMakeBuildSystem) :
    (decideFlags w a s).2.m_waitingForScan = s.m_waitingForScan
    ∧ (decideFlags w a s).2.m_waitingForParse = s.m_waitingForParse
    ∧ (decideFlags w a s).2.m_combinedScanAndParseResult = s.m_combinedScanAndParseResult
    ∧ (decideFlags w a s).2.m_reparseParameters = REPARSE_DEFAULT
    ∧ (decideFlags w a s).2.m_treeScanner = s.m_treeScanner := by
  unfold decideFlags
  simp only [takeReparseParameters]
  split_ifs <;>
    simp [(checkConfiguration_flags w a _).1, (checkConfiguration_flags w a _).2.1,
      (checkConfiguration_flags w a _).2.2.1, (checkConfiguration_flags w a _).2.2.2.1,
      (checkConfiguration_flags w a _).2.2.2.2.1]

theorem scan_bit_nonzero (x : Nat) : ((x ||| REPARSE_SCAN) != 0) = true := by
  have h : (x ||| REPARSE_SCAN).testBit 3 = true := by
    rw [Nat.testBit_or]
    simp only [Bool.or_eq_true]
    right
    decide
  rw [bne_iff_ne]
  intro h0
  rw [h0] at h
  simp at h

theorem prepareCycle_scan (s : CMakeBuildSystem) :
    (prepareCycle s).m_waitingForScan = true
    ∧ (prepareCycle s).m_waitingForParse = true
    ∧ (prepareCycle s).m_combinedScanAndParseResult = true
    ∧ ∃ pre : List Effect, pre.all quiet = true
        ∧ (prepareCycle s).trace
          = s.trace ++ (pre ++ [if s.m_treeScanner.scanning then Effect.scannerBusy
              else Effect.scannerStart s.project.projectDirectory]) := by
  cases hs : s.m_treeScanner.scanning <;> cases he : s.m_allFiles.isEmpty
  · refine ⟨?_, ?_, ?_, [], rfl, ?_⟩ <;>
      simp [prepareCycle, scan_bit_nonzero, asyncScanForFiles, updateReparseParameters, emit,
        hs, he]
  · refine ⟨?_, ?_, ?_, [], rfl, ?_⟩ <;>
      simp [prepareCycle, scan_bit_nonzero, asyncScanForFiles, updateReparseParameters, emit,
        hs, he]
  · refine ⟨?_, ?_, ?_, [Effect.softAssert "m_treeScanner.isFinished()"], rfl, ?_⟩ <;>
      simp [prepareCycle, scan_bit_nonzero, asyncScanForFiles, updateReparseParameters, emit,
        hs, he]
  · refine ⟨?_, ?_, ?_, [Effect.softAssert "m_treeScanner.isFinished()"], rfl, ?_⟩ <;>
      simp [prepareCycle, scan_bit_nonzero, asyncScanForFiles, updateReparseParameters, emit,
        hs, he]

theorem acquireOrPreemptGuard_scanner (a : Answers) (s : CMakeBuildSystem) :
    (acquireOrPreemptGuard a s).m_treeScanner = s.m_treeScanner
    ∧ (acquireOrPreemptGuard a s).project = s.project
    ∧ (acquireOrPreemptGuard a s).m_waitingForScan = s.m_waitingForScan
    ∧ (acquireOrPreemptGuard a s).m_waitingForParse = s.m_waitingForParse := by
  unfold acquireOrPreemptGuard guardParsingRun stopParsingAndClearState emit
  simp only
  split_ifs <;> simp_all [ParseGuard.empty]

/-- The trace of `triggerParsing` past its first assertion: what the guard step
added, what `prepareCycle` added up to the call of the scanner, the call of the
scanner, and the rest. -/
theorem triggerParsing_scanner_call (w : World) (a : Answers) (s : CMakeBuildSystem)
    (hreader : (acquireOrPreemptGuard a s).m_reader.isParsing = false) :
    ∃ pre post : List Effect,
      (triggerParsing w a s).trace
        = s.trace ++ (pre ++ [if s.m_treeScanner.scanning then Effect.scannerBusy
            else Effect.scannerStart s.project.projectDirectory] ++ post) := by
  obtain ⟨m0, hm0, -⟩ := acquireOrPreemptGuard_trace a s (traceExtends_refl s.trace)
  obtain ⟨-, -, -, pre, -, hpre⟩ := prepareCycle_scan (acquireOrPreemptGuard a s)
  have hS := acquireOrPreemptGuard_scanner a s
  rw [hS.1, hS.2.1, hm0] at hpre
  by_cases hvalid : (prepareCycle (acquireOrPreemptGuard a s)).m_parameters.isValid = true
  · have hext : TraceExtends (prepareCycle (acquireOrPreemptGuard a s)).trace
        (writeConfigurationIntoBuildDirectory w a (decideFlags w a
          (emit Effect.clearTasks (prepareCycle (acquireOrPreemptGuard a s)))).2).trace := by
      apply writeConfigurationIntoBuildDirectory_trace
      apply decideFlags_trace
      rw [emit_trace]
      refine traceExtends_snoc (traceExtends_refl _) ?_
      rfl
    obtain ⟨m, hm, -⟩ := hext
    refine ⟨m0 ++ pre, m ++ [Effect.readerParse
      ((decideFlags w a (emit Effect.clearTasks
        (prepareCycle (acquireOrPreemptGuard a s)))).1 &&& REPARSE_FORCE_CMAKE_RUN != 0)
      ((decideFlags w a (emit Effect.clearTasks
        (prepareCycle (acquireOrPreemptGuard a s)))).1 &&& REPARSE_FORCE_CONFIGURATION != 0)],
      ?_⟩
    unfold triggerParsing
    simp only [hreader, hvalid, Bool.false_eq_true, if_false, Bool.not_true, emit_trace, hm,
      hpre, List.append_assoc]
  · refine ⟨m0 ++ pre, [Effect.softAssert "m_parameters.isValid()"], ?_⟩
    have hv : (prepareCycle (acquireOrPreemptGuard a s)).m_parameters.isValid = false := by
      simpa using hvalid
    unfold triggerParsing
    simp only [hreader, hv, Bool.false_eq_true, if_false, Bool.not_false, if_true,
      emit_trace, hpre, List.append_assoc]

theorem triggerParsing_waitingForScan (w : World) (a : Answers) (s : CMakeBuildSystem)
    (hreader : (acquireOrPreemptGuard a s).m_reader.isParsing = false) :
    (triggerParsing w a s).m_waitingForScan = true := by
  have hP := (prepareCycle_scan (acquireOrPreemptGuard a s)).1
  unfold triggerParsing
  simp only [hreader, Bool.false_eq_true, if_false, emit]
  split_ifs <;>
    simp [(writeConfigurationIntoBuildDirectory_flags w a _).1, (decideFlags_flags w a _).1, hP]

/-- C21, the slip in `triggerParsing`: the flag `m_waitingForScan` is computed
with `|` instead of `&`, so in every call that passes the first assertion (the
reader is not parsing once the guard is settled) the flag is true afterwards
and the tree scanner was called in that call (started, when it was idle),
whatever the pending flags and the file list are; in particular with a
non-empty file list and `REPARSE_SCAN` not pending. -/
theorem C21_scan_is_awaited_whatever_is_pending (w : World) (a : Answers)
    (s : CMakeBuildSystem)
    (hreader : (acquireOrPreemptGuard a s).m_reader.isParsing = false) :
    (triggerParsing w a s).m_waitingForScan = true
    ∧ (effectsSince s (triggerParsing w a s)).filter isScannerCall ≠ []
    ∧ (s.m_treeScanner.scanning = false →
      Effect.scannerStart s.project.projectDirectory ∈ effectsSince s (triggerParsing w a s)) := by
  obtain ⟨pre, post, htrace⟩ := triggerParsing_scanner_call w a s hreader
  refine ⟨triggerParsing_waitingForScan w a s hreader, ?_, ?_⟩
  · rw [effectsSince_of_extends s _ _ htrace]
    cases s.m_treeScanner.scanning <;> simp [List.filter_append, isScannerCall]
  · intro hidle
    rw [effectsSince_of_extends s _ _ htrace, hidle]
    simp

/-- Witness of C21, the failing input: the idle example system holds one file
and has no flag pending, yet `triggerParsing` starts the scanner and waits for
the scan. -/
theorem C21_scan_is_awaited_whatever_is_pending_witness :
    ((acquireOrPreemptGuard plainAnswers idleSystem).m_reader.isParsing = false
      ∧ idleSystem.m_allFiles.isEmpty = false
      ∧ idleSystem.m_reparseParameters &&& REPARSE_SCAN = 0
      ∧ idleSystem.m_treeScanner.scanning = false)
    ∧ (triggerParsing plainWorld plainAnswers idleSystem).m_waitingForScan = true
    ∧ Effect.scannerStart "/src"
        ∈ effectsSince idleSystem (triggerParsing plainWorld plainAnswers idleSystem) :=
  have h := C21_scan_is_awaited_whatever_is_pending plainWorld plainAnswers idleSystem
    (by decide)
  ⟨by decide, h.1, h.2.2 (by decide)⟩

/-! ### Completions on a deactivated build configuration, and failed cycles -/

/-- C22: when a completion (scan finished, parse succeeded, parse failed)
arrives while the build configuration is not active, the merge is skipped:
`updateProjectData` is not called and nothing is published, the guard is not
marked successful (a live guard that is released reports the success flag it
had), the build-target list stays as it was, and the reader's retained data is
discarded by exactly one `resetData`, after which the reader retains neither
targets nor a cache configuration. -/
theorem C22_inactive_completion_skips_merge (w : World) (a : Answers) (c : Completion)
    (s : CMakeBuildSystem) (hinactive : s.bc.isActive = false) :
    (effectsSince s (deliver w a c s)).filter isMerge = []
    ∧ (deliver w a c s).m_buildTargets = s.m_buildTargets
    ∧ (effectsSince s (deliver w a c s)).count Effect.readerResetData = 1
    ∧ ((deliver w a c s).m_reader.buildTargets = [] ∧ (deliver w a c s).m_reader.cache = [])
    ∧ (∀ b : Bool, Effect.parsingFinished b ∈ effectsSince s (deliver w a c s) →
        b = s.m_currentGuard.success)
    ∧ ((deliver w a c s).m_currentGuard = s.m_currentGuard
      ∨ (deliver w a c s).m_currentGuard = ParseGuard.empty) := by
  cases c with
  | scanFinished nodes =>
    cases hg : s.m_currentGuard.guardsProject <;> cases hw : s.m_waitingForScan <;>
    simp [effectsSince, deliver, handleTreeScanningFinished, combineScanAndParse,
      TreeScanner.release, FileApiReader.resetData, releaseCurrentGuard, emit, isMerge,
      hinactive, hg, hw]
  | parsingSucceeded targets cache =>
    simp [effectsSince, deliver, handleParsingSucceeded, stopParsingAndClearState,
      FileApiReader.stop, FileApiReader.resetData, emit, isMerge, hinactive]
  | parsingFailed msg cache =>
    cases hg : s.m_currentGuard.guardsProject <;> cases hw : s.m_waitingForParse <;>
    simp [effectsSince, deliver, handleParsingFailed, combineScanAndParse, setError,
      FileApiReader.takeParsedConfiguration, FileApiReader.resetData, releaseCurrentGuard,
      emit, isMerge, hinactive, hg, hw]

/-- Witness of C22: the example cycle after its build configuration was
deactivated; the parse succeeds with the second target list, which is not taken
over. -/
theorem C22_inactive_completion_skips_merge_witness :
    deactivatedCycle.bc.isActive = false
    ∧ (effectsSince deactivatedCycle (deliver plainWorld plainAnswers
        (Completion.parsingSucceeded secondTargets []) deactivatedCycle)).filter isMerge = []
    ∧ (deliver plainWorld plainAnswers (Completion.parsingSucceeded secondTargets [])
        deactivatedCycle).m_buildTargets = idleSystem.m_buildTargets
    ∧ effectsSince deactivatedCycle (deliver plainWorld plainAnswers
        (Completion.parsingSucceeded secondTargets []) deactivatedCycle)
      = [Effect.readerStop, Effect.readerResetData] :=
  have h := C22_inactive_completion_skips_merge plainWorld plainAnswers
    (Completion.parsingSucceeded secondTargets []) deactivatedCycle (by decide)
  ⟨by decide, h.1, h.2.1.trans (by decide), by decide⟩

theorem handleTreeScanningFinished_trace {l : List Effect} (s : CMakeBuildSystem)
    (h : TraceExtends l s.trace) : TraceExtends l (handleTreeScanningFinished s).trace := by
  unfold handleTreeScanningFinished
  apply combineScanAndParse_trace
  simp only [emit]
  split_ifs
  · exact traceExtends_snoc h rfl
  · exact h

theorem handleParsingSucceeded_trace {l : List Effect} (w : World) (a : Answers)
    (s : CMakeBuildSystem) (h : TraceExtends l s.trace) :
    TraceExtends l (handleParsingSucceeded w a s).trace := by
  unfold handleParsingSucceeded
  simp only
  split_ifs
  · exact stopParsingAndClearState_trace a s h
  · refine traceExtends_snoc ?_ rfl
    simp only [checkAndReportError, setError]
    split_ifs <;> exact h
  · apply combineScanAndParse_trace
    simp only [checkAndReportError, setError]
    split_ifs <;> exact h

theorem deliver_trace (w : World) (a : Answers) (c : Completion) (s : CMakeBuildSystem) :
    (deliver w a c s).trace = s.trace ++ effectsSince s (deliver w a c s) := by
  have h : TraceExtends s.trace (deliver w a c s).trace := by
    cases c with
    | scanFinished nodes =>
      exact handleTreeScanningFinished_trace _ (traceExtends_refl _)
    | parsingSucceeded targets cache =>
      exact handleParsingSucceeded_trace w a _ (traceExtends_refl _)
    | parsingFailed msg cache =>
      exact handleParsingFailed_trace msg _ (traceExtends_refl _)
  obtain ⟨m, hm, -⟩ := h
  rw [effectsSince_of_extends s _ m hm, hm]

theorem effectsSince_two_completions (w : World) (a : Answers) (c1 c2 : Completion)
    (s : CMakeBuildSystem) :
    effectsSince s (deliver w a c2 (deliver w a c1 s))
      = effectsSince s (deliver w a c1 s)
        ++ effectsSince (deliver w a c1 s) (deliver w a c2 (deliver w a c1 s)) := by
  apply effectsSince_of_extends
  rw [deliver_trace w a c2 (deliver w a c1 s)]
  nth_rewrite 1 [deliver_trace w a c1 s]
  rw [List.append_assoc]

theorem deliver_after_failure (w : World) (a : Answers) (c : Completion)
    (t : CMakeBuildSystem) (hfailed : t.m_combinedScanAndParseResult = false) :
    (deliver w a c t).m_combinedScanAndParseResult = false
    ∧ (effectsSince t (deliver w a c t)).filter isMerge = [] := by
  cases c with
  | scanFinished nodes =>
    cases hact : t.bc.isActive <;> cases hg : t.m_currentGuard.guardsProject <;>
    cases hw : t.m_waitingForScan <;> cases hp : t.m_waitingForParse <;>
    simp [effectsSince, deliver, handleTreeScanningFinished, combineScanAndParse,
      TreeScanner.release, FileApiReader.resetData, releaseCurrentGuard, emit, isMerge,
      hfailed, hact, hg, hw, hp]
  | parsingSucceeded targets cache =>
    cases hact : t.bc.isActive <;> cases hg : t.m_currentGuard.guardsProject <;>
    cases hw : t.m_waitingForScan <;> cases hp : t.m_waitingForParse <;>
    simp [effectsSince, deliver, handleParsingSucceeded, combineScanAndParse,
      stopParsingAndClearState, FileApiReader.stop, FileApiReader.takeBuildTargets,
      FileApiReader.takeParsedConfiguration, FileApiReader.resetData, checkAndReportError,
      setError, releaseCurrentGuard, emit, isMerge, QString.isEmpty,
      hfailed, hact, hg, hw, hp]
  | parsingFailed msg cache =>
    cases hact : t.bc.isActive <;> cases hg : t.m_currentGuard.guardsProject <;>
    cases hw : t.m_waitingForScan <;> cases hp : t.m_waitingForParse <;>
    simp [effectsSince, deliver, handleParsingFailed, combineScanAndParse, setError,
      FileApiReader.takeParsedConfiguration, FileApiReader.resetData, releaseCurrentGuard,
      emit, isMerge, hfailed, hact, hg, hw, hp]

theorem deliver_parsingFailed_flags (w : World) (a : Answers) (msg : String)
    (cache : CMakeConfig) (t : CMakeBuildSystem) :
    (deliver w a (Completion.parsingFailed msg cache) t).m_combinedScanAndParseResult = false
    ∧ (effectsSince t (deliver w a (Completion.parsingFailed msg cache) t)).filter isMerge
        = [] := by
  cases hact : t.bc.isActive <;> cases hg : t.m_currentGuard.guardsProject <;>
  cases hw : t.m_waitingForScan <;> cases hp : t.m_waitingForParse <;>
  simp [effectsSince, deliver, handleParsingFailed, combineScanAndParse, setError,
    FileApiReader.takeParsedConfiguration, FileApiReader.resetData, releaseCurrentGuard,
    emit, isMerge, hact, hg, hw, hp]

theorem deliver_scanFinished_while_parsing (w : World) (a : Answers) (nodes : List FileNode)
    (t : CMakeBuildSystem) (hparse : t.m_waitingForParse = true) :
    (effectsSince t (deliver w a (Completion.scanFinished nodes) t)).filter isMerge = [] := by
  cases hact : t.bc.isActive <;> cases hg : t.m_currentGuard.guardsProject <;>
  cases hw : t.m_waitingForScan <;>
  simp [effectsSince, deliver, handleTreeScanningFinished, combineScanAndParse,
    TreeScanner.release, FileApiReader.resetData, releaseCurrentGuard, emit, isMerge,
    hact, hg, hw, hparse]

theorem triggerParsing_cycle_flags (w : World) (a : Answers) (s : CMakeBuildSystem)
    (hreader : (acquireOrPreemptGuard a s).m_reader.isParsing = false) :
    ((triggerParsing w a s).m_waitingForParse = true
      ∧ (triggerParsing w a s).m_combinedScanAndParseResult = true)
    ∨ (triggerParsing w a s).m_combinedScanAndParseResult = false := by
  have hP := prepareCycle_scan (acquireOrPreemptGuard a s)
  unfold triggerParsing
  simp only [hreader, Bool.false_eq_true, if_false, emit]
  split_ifs
  · left
    exact ⟨hP.2.1, hP.2.2.1⟩
  · have hW := (writeConfigurationIntoBuildDirectory_flags w a (decideFlags w a
      { prepareCycle (acquireOrPreemptGuard a s) with
        trace := (prepareCycle (acquireOrPreemptGuard a s)).trace ++ [Effect.clearTasks] }).2).2.1
    rw [(decideFlags_flags w a _).2.1, (decideFlags_flags w a _).2.2.1] at hW
    rcases hW with ⟨h1, h2⟩ | h
    · left
      exact ⟨h1.trans hP.2.1, h2.trans hP.2.2.1⟩
    · right
      exact h

/-- C23: `triggerParsing` (past its first assertion) sets
`m_combinedScanAndParseResult` to true at the start of the cycle; a parse
failure sets it to false, and no completion sets it back, so it stays false
until the next `triggerParsing`, and while it is false no completion merges.
Consequently, in a cycle in which the reader reports an error the merge point
never calls `updateProjectData` and never marks the guard as successful,
whether the scan completion arrives before or after the parse error. -/
theorem C23_failed_cycle_never_merges (w : World) (a : Answers) (s : CMakeBuildSystem)
    (msg : String) (cache : CMakeConfig) (nodes : List FileNode)
    (hreader : (acquireOrPreemptGuard a s).m_reader.isParsing = false) :
    (prepareCycle (acquireOrPreemptGuard a s)).m_combinedScanAndParseResult = true
    ∧ (∀ t : CMakeBuildSystem,
        (deliver w a (Completion.parsingFailed msg cache) t).m_combinedScanAndParseResult
          = false)
    ∧ (∀ (t : CMakeBuildSystem) (c : Completion), t.m_combinedScanAndParseResult = false →
        (deliver w a c t).m_combinedScanAndParseResult = false
        ∧ (effectsSince t (deliver w a c t)).filter isMerge = [])
    ∧ (effectsSince (triggerParsing w a s)
        (deliver w a (Completion.parsingFailed msg cache)
          (deliver w a (Completion.scanFinished nodes) (triggerParsing w a s)))).filter isMerge
        = []
    ∧ (effectsSince (triggerParsing w a s)
        (deliver w a (Completion.scanFinished nodes)
          (deliver w a (Completion.parsingFailed msg cache) (triggerParsing w a s)))).filter
          isMerge = [] := by
  refine ⟨(prepareCycle_scan _).2.2.1, fun t => (deliver_parsingFailed_flags w a msg cache t).1,
    fun t c h => deliver_after_failure w a c t h, ?_, ?_⟩
  · rw [effectsSince_two_completions, List.filter_append,
      (deliver_parsingFailed_flags w a msg cache _).2, List.append_nil]
    rcases triggerParsing_cycle_flags w a s hreader with ⟨hp, -⟩ | hf
    · exact deliver_scanFinished_while_parsing w a nodes _ hp
    · exact (deliver_after_failure w a _ _ hf).2
  · rw [effectsSince_two_completions, List.filter_append,
      (deliver_parsingFailed_flags w a msg cache _).2, List.nil_append]
    exact (deliver_after_failure w a _ _ (deliver_parsingFailed_flags w a msg cache _).1).2

/-- Witness of C23: the cycle on the idle example system, scan completion
first; the guard is released with the success flag false. -/
theorem C23_failed_cycle_never_merges_witness :
    (acquireOrPreemptGuard plainAnswers idleSystem).m_reader.isParsing = false
    ∧ (effectsSince runningCycle
        (deliver plainWorld plainAnswers (Completion.parsingFailed "CMake failed" [])
          (deliver plainWorld plainAnswers (Completion.scanFinished firstScanNodes)
            runningCycle))).filter isMerge = []
    ∧ effectsSince runningCycle
        (deliver plainWorld plainAnswers (Completion.parsingFailed "CMake failed" [])
          (deliver plainWorld plainAnswers (Completion.scanFinished firstScanNodes)
            runningCycle))
      = [Effect.readerResetData, Effect.parsingFinished false, Effect.buildSystemUpdated] :=
  ⟨by decide,
    (C23_failed_cycle_never_merges plainWorld plainAnswers idleSystem "CMake failed" []
      firstScanNodes (by decide)).2.2.2.1,
    by decide⟩

/-! ### The force flags and the reader call of `triggerParsing` -/

theorem boxFree_refl (l : List Effect) : BoxFree l l := ⟨[], by simp, by simp⟩

theorem boxFree_snoc {l l2 : List Effect} {e : Effect} (h : BoxFree l l2)
    (hq : isChangedOutsideBox e = false) : BoxFree l (l2 ++ [e]) := by
  obtain ⟨m, hm, hall⟩ := h
  exact ⟨m ++ [e], by simp [hm], by simp [List.all_append, hall, hq]⟩

theorem stopParsingAndClearState_boxFree {l : List Effect} (a : Answers) (s : CMakeBuildSystem)
    (h : BoxFree l s.trace) : BoxFree l (stopParsingAndClearState a s).trace := by
  simp only [stopParsingAndClearState, emit]
  refine boxFree_snoc (boxFree_snoc h ?_) ?_ <;> rfl

theorem acquireOrPreemptGuard_boxFree {l : List Effect} (a : Answers) (s : CMakeBuildSystem)
    (h : BoxFree l s.trace) : BoxFree l (acquireOrPreemptGuard a s).trace := by
  unfold acquireOrPreemptGuard guardParsingRun
  by_cases hg : s.m_currentGuard.guardsProject = true
  · simp only [hg, if_true, ParseGuard.empty]
    exact stopParsingAndClearState_boxFree a s h
  · simp only [hg, emit]
    refine boxFree_snoc h ?_
    rfl

theorem prepareCycle_boxFree {l : List Effect} (s : CMakeBuildSystem)
    (h : BoxFree l s.trace) : BoxFree l (prepareCycle s).trace := by
  unfold prepareCycle asyncScanForFiles updateReparseParameters emit
  simp only
  split_ifs
  all_goals first
    | exact h
    | (refine boxFree_snoc h ?_; rfl)
    | (refine boxFree_snoc (boxFree_snoc h ?_) ?_ <;> rfl)

theorem updateProjectData_boxFree {l : List Effect} (s : CMakeBuildSystem)
    (h : BoxFree l s.trace) : BoxFree l (updateProjectData s).trace := by
  unfold updateProjectData emit
  simp only
  split_ifs
  all_goals (refine boxFree_snoc (boxFree_snoc h ?_) ?_ <;> rfl)

theorem releaseCurrentGuard_boxFree {l : List Effect} (s : CMakeBuildSystem)
    (h : BoxFree l s.trace) : BoxFree l (releaseCurrentGuard s).trace := by
  unfold releaseCurrentGuard emit
  simp only
  split_ifs
  · refine boxFree_snoc h ?_; rfl
  · exact h

theorem combineScanAndParse_boxFree {l : List Effect} (s : CMakeBuildSystem)
    (h : BoxFree l s.trace) : BoxFree l (combineScanAndParse s).trace := by
  unfold combineScanAndParse
  simp only
  split_ifs
  · exact h
  · simp only [emit]
    refine boxFree_snoc (releaseCurrentGuard_boxFree _ ?_) rfl
    simp only
    refine boxFree_snoc (boxFree_snoc (updateProjectData_boxFree _ h) ?_) ?_ <;> rfl
  · simp only [emit]
    refine boxFree_snoc (releaseCurrentGuard_boxFree _ ?_) rfl
    simp only
    refine boxFree_snoc h ?_; rfl

theorem handleParsingFailed_boxFree {l : List Effect} (msg : String) (s : CMakeBuildSystem)
    (h : BoxFree l s.trace) : BoxFree l (handleParsingFailed msg s).trace := by
  unfold handleParsingFailed
  simp only
  apply combineScanAndParse_boxFree
  simp only [setError, emit]
  split_ifs
  · refine boxFree_snoc h ?_; rfl
  · exact h

theorem workDirectory_boxFree {l : List Effect} (w : World) (a : Answers)
    (p : BuildDirParameters) (s : CMakeBuildSystem)
    (h : BoxFree l s.trace) : BoxFree l (workDirectory w a p s).2.trace := by
  unfold workDirectory
  simp only
  split_ifs <;> (try split) <;> first
    | exact h
    | exact handleParsingFailed_boxFree _ _ h

theorem writeConfigurationIntoBuildDirectory_boxFree {l : List Effect} (w : World)
    (a : Answers) (s : CMakeBuildSystem) (h : BoxFree l s.trace) :
    BoxFree l (writeConfigurationIntoBuildDirectory w a s).trace := by
  unfold writeConfigurationIntoBuildDirectory
  simp only [emit]
  split_ifs
  · refine boxFree_snoc h ?_; rfl
  · refine boxFree_snoc (workDirectory_boxFree w a _ s h) ?_; rfl
  · refine boxFree_snoc (workDirectory_boxFree w a _ s h) ?_; rfl
  · refine boxFree_snoc (workDirectory_boxFree w a _ s h) ?_; rfl

theorem decideFlags_with_cache (w : World) (a : Answers) (t : CMakeBuildSystem)
    (hcache : t.fs.pathExists (pathAppended t.m_parameters.workDirectory "CMakeCache.txt")
      = true) :
    (decideFlags w a t).1
      = (if ((t.m_reparseParameters &&& REPARSE_CHECK_CONFIGURATION != 0)
            && (checkConfiguration w a (takeReparseParameters t).2).1) = true then
          t.m_reparseParameters ||| (REPARSE_FORCE_CONFIGURATION ||| REPARSE_FORCE_CMAKE_RUN)
        else t.m_reparseParameters)
    ∧ ((t.m_reparseParameters &&& REPARSE_CHECK_CONFIGURATION != 0) = false →
        (decideFlags w a t).2 = (takeReparseParameters t).2) := by
  unfold decideFlags
  simp only [takeReparseParameters, hcache, Bool.not_true, Bool.false_eq_true, if_false]
  cases hc : (t.m_reparseParameters &&& REPARSE_CHECK_CONFIGURATION != 0)
  · simp
  · simp only [if_true, Bool.true_and]
    refine ⟨?_, fun h => absurd h (by simp)⟩
    split_ifs <;> rfl

/-- The call of the reader at the end of `triggerParsing`: when both assertions
hold, the call is `triggerParsing` without its last line, followed by
`m_reader.parse` with the bits of the final flag set, and what came before the
reader call neither called the reader nor removed anything. -/
theorem triggerParsing_reader_call (w : World) (a : Answers) (s : CMakeBuildSystem)
    (hreach : reachesReader a s = true) :
    triggerParsing w a s
      = emit (Effect.readerParse
            ((decideFlags w a (emit Effect.clearTasks
              (prepareCycle (acquireOrPreemptGuard a s)))).1 &&& REPARSE_FORCE_CMAKE_RUN != 0)
            ((decideFlags w a (emit Effect.clearTasks
              (prepareCycle (acquireOrPreemptGuard a s)))).1
                &&& REPARSE_FORCE_CONFIGURATION != 0))
          { writeConfigurationIntoBuildDirectory w a (decideFlags w a
              (emit Effect.clearTasks (prepareCycle (acquireOrPreemptGuard a s)))).2 with
            m_reader := (writeConfigurationIntoBuildDirectory w a (decideFlags w a
              (emit Effect.clearTasks
                (prepareCycle (acquireOrPreemptGuard a s)))).2).m_reader.parse }
    ∧ TraceExtends s.trace
        (writeConfigurationIntoBuildDirectory w a (decideFlags w a
          (emit Effect.clearTasks (prepareCycle (acquireOrPreemptGuard a s)))).2).trace := by
  simp only [reachesReader, Bool.and_eq_true, Bool.not_eq_true'] at hreach
  obtain ⟨hidle, hvalid⟩ := hreach
  have hA := acquireOrPreemptGuard_frame a s
  have hP := prepareCycle_frame (acquireOrPreemptGuard a s)
  constructor
  · unfold triggerParsing
    simp only [hidle, hP.1, hA.1, hvalid, Bool.false_eq_true, if_false, Bool.not_true]
  · apply writeConfigurationIntoBuildDirectory_trace
    apply decideFlags_trace
    rw [emit_trace]
    refine traceExtends_snoc (prepareCycle_trace _ (acquireOrPreemptGuard_trace a s
      (traceExtends_refl _))) ?_
    rfl

/-- C24: when `triggerParsing` reaches the reader and the cache file exists,
the reader is called once, with `forceCMakeRun` = (`REPARSE_FORCE_CMAKE_RUN`
was pending) or (`REPARSE_CHECK_CONFIGURATION` was pending and
`checkConfiguration()` returned true) and `forceConfiguration` =
(`REPARSE_FORCE_CONFIGURATION` was pending) or (`REPARSE_CHECK_CONFIGURATION`
was pending and `checkConfiguration()` returned true).  When
`REPARSE_CHECK_CONFIGURATION` is not pending, `checkConfiguration` is not
consulted: no box is shown in the call and the stored parameters are those of
before.  After the call the pending flag set is empty. -/
theorem C24_force_flags_with_cache (w : World) (a : Answers) (s : CMakeBuildSystem)
    (hreach : reachesReader a s = true)
    (hcache : s.fs.pathExists (pathAppended s.m_parameters.workDirectory "CMakeCache.txt")
      = true) :
    (effectsSince s (triggerParsing w a s)).filter isReaderParse
        = [Effect.readerParse
            ((s.m_reparseParameters &&& REPARSE_FORCE_CMAKE_RUN != 0)
              || ((s.m_reparseParameters &&& REPARSE_CHECK_CONFIGURATION != 0)
                  && (checkConfiguration w a s).1))
            ((s.m_reparseParameters &&& REPARSE_FORCE_CONFIGURATION != 0)
              || ((s.m_reparseParameters &&& REPARSE_CHECK_CONFIGURATION != 0)
                  && (checkConfiguration w a s).1))]
    ∧ ((s.m_reparseParameters &&& REPARSE_CHECK_CONFIGURATION != 0) = false →
        (effectsSince s (triggerParsing w a s)).filter isChangedOutsideBox = []
        ∧ (triggerParsing w a s).m_parameters = s.m_parameters)
    ∧ (triggerParsing w a s).m_reparseParameters = REPARSE_DEFAULT := by
  obtain ⟨hstate, m, hm, hall⟩ := triggerParsing_reader_call w a s hreach
  have hA := acquireOrPreemptGuard_frame a s
  have hP := prepareCycle_frame (acquireOrPreemptGuard a s)
  have hbits : ∀ c, REPARSE_SCAN &&& c = 0 →
      (prepareCycle (acquireOrPreemptGuard a s)).m_reparseParameters &&& c
        = s.m_reparseParameters &&& c := by
    intro c hc
    rw [pending_bits _ c hc, hA.2.2.2.2.2]
  have hcc : (checkConfiguration w a (takeReparseParameters
      (emit Effect.clearTasks (prepareCycle (acquireOrPreemptGuard a s)))).2).1
        = (checkConfiguration w a s).1 := by
    apply checkConfiguration_result_congr
    · simp only [takeReparseParameters, emit, hP.1, hA.1]
    · simp only [takeReparseParameters, emit, hP.2.2.1, hA.2.2.1]
  have hcache2 : (emit Effect.clearTasks (prepareCycle (acquireOrPreemptGuard a s))).fs.pathExists
      (pathAppended (emit Effect.clearTasks
        (prepareCycle (acquireOrPreemptGuard a s))).m_parameters.workDirectory
        "CMakeCache.txt") = true := by
    show (prepareCycle (acquireOrPreemptGuard a s)).fs.pathExists
      (pathAppended (prepareCycle (acquireOrPreemptGuard a s)).m_parameters.workDirectory
        "CMakeCache.txt") = true
    rw [hP.1, hP.2.1, hA.1, hA.2.1]
    exact hcache
  obtain ⟨hflags, hstate2⟩ := decideFlags_with_cache w a
    (emit Effect.clearTasks (prepareCycle (acquireOrPreemptGuard a s))) hcache2
  rw [hcc] at hflags
  have hpend : ((emit Effect.clearTasks
      (prepareCycle (acquireOrPreemptGuard a s))).m_reparseParameters
        &&& REPARSE_CHECK_CONFIGURATION != 0)
      = (s.m_reparseParameters &&& REPARSE_CHECK_CONFIGURATION != 0) := by
    show ((prepareCycle (acquireOrPreemptGuard a s)).m_reparseParameters
        &&& REPARSE_CHECK_CONFIGURATION != 0) = _
    rw [hbits _ (by decide)]
  rw [hpend] at hflags hstate2
  have hrun : ((decideFlags w a (emit Effect.clearTasks
      (prepareCycle (acquireOrPreemptGuard a s)))).1 &&& REPARSE_FORCE_CMAKE_RUN != 0)
      = ((s.m_reparseParameters &&& REPARSE_FORCE_CMAKE_RUN != 0)
          || ((s.m_reparseParameters &&& REPARSE_CHECK_CONFIGURATION != 0)
              && (checkConfiguration w a s).1)) := by
    rw [hflags]
    cases ((s.m_reparseParameters &&& REPARSE_CHECK_CONFIGURATION != 0)
        && (checkConfiguration w a s).1)
    · simp only [Bool.false_eq_true, if_false, Bool.or_false]
      show ((prepareCycle (acquireOrPreemptGuard a s)).m_reparseParameters
        &&& REPARSE_FORCE_CMAKE_RUN != 0) = _
      rw [hbits _ (by decide)]
    · simp only [if_true, Bool.or_true]
      exact forced_has_cmake_run _
  have hconf : ((decideFlags w a (emit Effect.clearTasks
      (prepareCycle (acquireOrPreemptGuard a s)))).1 &&& REPARSE_FORCE_CONFIGURATION != 0)
      = ((s.m_reparseParameters &&& REPARSE_FORCE_CONFIGURATION != 0)
          || ((s.m_reparseParameters &&& REPARSE_CHECK_CONFIGURATION != 0)
              && (checkConfiguration w a s).1)) := by
    rw [hflags]
    cases ((s.m_reparseParameters &&& REPARSE_CHECK_CONFIGURATION != 0)
        && (checkConfiguration w a s).1)
    · simp only [Bool.false_eq_true, if_false, Bool.or_false]
      show ((prepareCycle (acquireOrPreemptGuard a s)).m_reparseParameters
        &&& REPARSE_FORCE_CONFIGURATION != 0) = _
      rw [hbits _ (by decide)]
    · simp only [if_true, Bool.or_true]
      exact forced_has_configuration _
  rw [hrun, hconf] at hstate
  refine ⟨?_, ?_, ?_⟩
  · have htrace : (triggerParsing w a s).trace = s.trace ++ (m ++ [Effect.readerParse
          ((s.m_reparseParameters &&& REPARSE_FORCE_CMAKE_RUN != 0)
            || ((s.m_reparseParameters &&& REPARSE_CHECK_CONFIGURATION != 0)
                && (checkConfiguration w a s).1))
          ((s.m_reparseParameters &&& REPARSE_FORCE_CONFIGURATION != 0)
            || ((s.m_reparseParameters &&& REPARSE_CHECK_CONFIGURATION != 0)
                && (checkConfiguration w a s).1))]) := by
      rw [hstate, emit_trace]
      simp only [hm, List.append_assoc]
    rw [effectsSince_of_extends s _ _ htrace, List.filter_append,
      filter_isReaderParse_of_quiet m hall]
    rfl
  · intro hnocheck
    have hfree : BoxFree s.trace
        (writeConfigurationIntoBuildDirectory w a (decideFlags w a
          (emit Effect.clearTasks (prepareCycle (acquireOrPreemptGuard a s)))).2).trace := by
      apply writeConfigurationIntoBuildDirectory_boxFree
      rw [hstate2 hnocheck]
      simp only [takeReparseParameters, emit]
      refine boxFree_snoc (prepareCycle_boxFree _ (acquireOrPreemptGuard_boxFree a s
        (boxFree_refl _))) ?_
      rfl
    obtain ⟨m2, hm2, hall2⟩ := hfree
    constructor
    · have htrace : (triggerParsing w a s).trace = s.trace ++ (m2 ++ [Effect.readerParse
            ((s.m_reparseParameters &&& REPARSE_FORCE_CMAKE_RUN != 0)
              || ((s.m_reparseParameters &&& REPARSE_CHECK_CONFIGURATION != 0)
                  && (checkConfiguration w a s).1))
            ((s.m_reparseParameters &&& REPARSE_FORCE_CONFIGURATION != 0)
              || ((s.m_reparseParameters &&& REPARSE_CHECK_CONFIGURATION != 0)
                  && (checkConfiguration w a s).1))]) := by
        rw [hstate, emit_trace]
        simp only [hm2, List.append_assoc]
      rw [effectsSince_of_extends s _ _ htrace, List.filter_append]
      have : m2.filter isChangedOutsideBox = [] := by
        rw [List.filter_eq_nil_iff]
        intro e he
        have := List.all_eq_true.mp hall2 e he
        simpa using this
      rw [this]
      rfl
    · rw [hstate]
      show (writeConfigurationIntoBuildDirectory w a (decideFlags w a
        (emit Effect.clearTasks (prepareCycle (acquireOrPreemptGuard a s)))).2).m_parameters = _
      rw [(writeConfigurationIntoBuildDirectory_flags w a _).2.2.2.1, hstate2 hnocheck]
      show (prepareCycle (acquireOrPreemptGuard a s)).m_parameters = _
      rw [hP.1, hA.1]
  · rw [hstate]
    show (writeConfigurationIntoBuildDirectory w a (decideFlags w a
      (emit Effect.clearTasks (prepareCycle (acquireOrPreemptGuard a s)))).2).m_reparseParameters
        = _
    rw [(writeConfigurationIntoBuildDirectory_flags w a _).2.2.1,
      (decideFlags_flags w a _).2.2.2.1]

/-- Witness of C24: the example system with the drift check pending and the
user discarding the external changes (both force flags are passed as true), and
the idle example system with nothing pending (no box, both flags false). -/
theorem C24_force_flags_with_cache_witness :
    (reachesReader discardAnswers driftSystem = true
      ∧ driftSystem.fs.pathExists
          (pathAppended driftSystem.m_parameters.workDirectory "CMakeCache.txt") = true
      ∧ reachesReader discardAnswers idleSystem = true
      ∧ (idleSystem.m_reparseParameters &&& REPARSE_CHECK_CONFIGURATION != 0) = false)
    ∧ (effectsSince driftSystem
        (triggerParsing plainWorld discardAnswers driftSystem)).filter isReaderParse
      = [Effect.readerParse true true]
    ∧ (effectsSince idleSystem
        (triggerParsing plainWorld discardAnswers idleSystem)).filter isReaderParse
      = [Effect.readerParse false false]
    ∧ (effectsSince idleSystem
        (triggerParsing plainWorld discardAnswers idleSystem)).filter isChangedOutsideBox = []
    ∧ (triggerParsing plainWorld discardAnswers driftSystem).m_reparseParameters
      = REPARSE_DEFAULT :=
  have h := C24_force_flags_with_cache plainWorld discardAnswers driftSystem
    (by decide) (by decide)
  have h0 := C24_force_flags_with_cache plainWorld discardAnswers idleSystem
    (by decide) (by decide)
  ⟨by decide, h.1.trans (by decide), h0.1.trans (by decide), (h0.2.1 (by decide)).1, h.2.2⟩

theorem hashInsert_keys (key : String) (value : String × String)
    (l : List (String × String × String)) (k : String) :
    k ∈ (hashInsert key value l).map Prod.fst ↔ k = key ∨ k ∈ l.map Prod.fst := by
  induction l with
  | nil => simp [hashInsert]
  | cons e rest ih =>
    unfold hashInsert
    by_cases he : e.1 = key
    · simp only [he, if_true, List.map_cons, List.mem_cons]
      tauto
    · simp only [he, if_false, List.map_cons, List.mem_cons, ih]
      tauto

theorem hashInsert_nodup (key : String) (value : String × String)
    (l : List (String × String × String)) (h : (l.map Prod.fst).Nodup) :
    ((hashInsert key value l).map Prod.fst).Nodup := by
  induction l with
  | nil => simp [hashInsert]
  | cons e rest ih =>
    rw [List.map_cons, List.nodup_cons] at h
    unfold hashInsert
    by_cases he : e.1 = key
    · simp only [he, if_true, List.map_cons, List.nodup_cons]
      exact ⟨he ▸ h.1, h.2⟩
    · simp only [he, if_false, List.map_cons, List.nodup_cons]
      refine ⟨?_, ih h.2⟩
      rw [hashInsert_keys]
      rintro (h1 | h1)
      · exact he h1
      · exact h.1 h1

/-- The loop of `checkConfiguration`, in closed form: the new configuration is
the list built so far followed by the adapted items, in order, and the keys of
the hash are the keys it held before and the keys of the items that differ from
the cache. -/
theorem compareWithCache_spec (w : World) (p : BuildDirParameters) (cache : CMakeConfig)
    (items newConfig : CMakeConfig) (changedKeys : List (String × String × String)) :
    (compareWithCache w p cache items newConfig changedKeys).1
        = newConfig ++ items.filterMap (adaptedItem w p cache)
    ∧ (∀ k, k ∈ (compareWithCache w p cache items newConfig changedKeys).2.map Prod.fst
        ↔ k ∈ changedKeys.map Prod.fst
          ∨ ∃ i ∈ items, i.key = k ∧ differsFromCache w p cache i = true)
    ∧ ((changedKeys.map Prod.fst).Nodup →
        ((compareWithCache w p cache items newConfig changedKeys).2.map Prod.fst).Nodup) := by
  induction items generalizing newConfig changedKeys with
  | nil => simp [compareWithCache]
  | cons item rest ih =>
    unfold compareWithCache
    simp only
    by_cases hnull : (cacheItemFor cache item).isNull = true
    · have hnull2 : ((List.find? (fun i => i.key == item.key) cache).getD
          CMakeConfigItem.null).isNull = true := hnull
      simp only [hnull2, if_true]
      obtain ⟨h1, h2, h3⟩ := ih newConfig
        (hashInsert item.key ("<removed>", expandedValue w p item) changedKeys)
      refine ⟨?_, ?_, ?_⟩
      · rw [h1]
        simp [adaptedItem, hnull]
      · intro k
        rw [h2, hashInsert_keys]
        simp only [List.mem_cons, exists_eq_or_imp, differsFromCache, hnull, Bool.true_or,
          and_true]
        constructor
        · rintro ((h | h) | h)
          · exact Or.inr (Or.inl h.symm)
          · exact Or.inl h
          · exact Or.inr (Or.inr h)
        · rintro (h | h | h)
          · exact Or.inl (Or.inr h)
          · exact Or.inl (Or.inl h.symm)
          · exact Or.inr h
      · intro hn
        exact h3 (hashInsert_nodup _ _ _ hn)
    · have hnull2 : ((List.find? (fun i => i.key == item.key) cache).getD
          CMakeConfigItem.null).isNull = false := by
        simpa [cacheItemFor] using hnull
      have hnull3 : (cacheItemFor cache item).isNull = false := hnull2
      simp only [hnull2, Bool.false_eq_true, if_false]
      by_cases hval : (cacheItemFor cache item).value = expandedValue w p item
      · have hval2 : ((List.find? (fun i => i.key == item.key) cache).getD
            CMakeConfigItem.null).value = expandedValue w p item := hval
        simp only [hval2, ne_eq, not_true_eq_false, if_false]
        obtain ⟨h1, h2, h3⟩ := ih (newConfig ++ [item]) changedKeys
        refine ⟨?_, ?_, h3⟩
        · rw [h1]
          simp [adaptedItem, hnull3, hval]
        · intro k
          rw [h2]
          simp [differsFromCache, hnull3, hval]
      · have hval2 : ¬ ((List.find? (fun i => i.key == item.key) cache).getD
            CMakeConfigItem.null).value = expandedValue w p item := hval
        simp only [ne_eq, hval2, not_false_eq_true, if_true]
        obtain ⟨h1, h2, h3⟩ := ih
          (newConfig ++ [(cache.find? (fun i => i.key == item.key)).getD CMakeConfigItem.null])
          (hashInsert item.key
            (((cache.find? (fun i => i.key == item.key)).getD CMakeConfigItem.null).value,
              expandedValue w p item) changedKeys)
        refine ⟨?_, ?_, ?_⟩
        · have ha : adaptedItem w p cache item = some (cacheItemFor cache item) := by
            simp [adaptedItem, hnull3, hval]
          rw [h1, List.filterMap_cons, ha]
          simp [cacheItemFor]
        · intro k
          rw [h2, hashInsert_keys]
          simp only [List.mem_cons, exists_eq_or_imp, differsFromCache, hnull3, Bool.false_or,
            bne_iff_ne, ne_eq, hval, not_false_eq_true, and_true]
          constructor
          · rintro ((h | h) | h)
            · exact Or.inr (Or.inl h.symm)
            · exact Or.inl h
            · exact Or.inr (Or.inr h)
          · rintro (h | h | h)
            · exact Or.inl (Or.inr h)
            · exact Or.inl (Or.inl h.symm)
            · exact Or.inr h
        · intro hn
          exact h3 (hashInsert_nodup _ _ _ hn)

theorem compareWithCache_isEmpty (w : World) (p : BuildDirParameters)
    (cache items : CMakeConfig) :
    (compareWithCache w p cache items [] []).2.isEmpty
      = !(items.any (differsFromCache w p cache)) := by
  have hkeys := (compareWithCache_spec w p cache items [] []).2.1
  cases hr : (compareWithCache w p cache items [] []).2 with
  | nil =>
    rw [hr] at hkeys
    simp only [List.isEmpty_nil, Bool.true_eq, Bool.not_eq_true', List.any_eq_false]
    intro i hi hd
    have := (hkeys i.key).2 (Or.inr ⟨i, hi, rfl, hd⟩)
    simp at this
  | cons e rest =>
    rw [hr] at hkeys
    simp only [List.isEmpty_cons, Bool.false_eq, Bool.not_eq_false', List.any_eq_true]
    rcases (hkeys e.1).1 (by simp) with h | ⟨i, hi, -, hd⟩
    · simp at h
    · exact ⟨i, hi, hd⟩

theorem checkConfiguration_silent (w : World) (a : Answers) (s : CMakeBuildSystem)
    (h : asksForDecision w s = false) : checkConfiguration w a s = (false, s) := by
  have he := compareWithCache_isEmpty w s.m_parameters s.bc.configurationFromCMake
    s.m_parameters.configuration
  unfold checkConfiguration
  unfold asksForDecision at h
  by_cases hw : s.m_parameters.workDirectory = s.m_parameters.buildDirectory
  · cases hc : s.bc.configurationFromCMake.isEmpty
    · simp only [hw, beq_self_eq_true, hc, Bool.not_false, Bool.true_and] at h
      simp only [hw, ne_eq, not_true_eq_false, if_false, hc, Bool.false_eq_true, he, h,
        Bool.not_false, Bool.not_true]
    · simp [hw, hc]
  · simp [hw]

theorem checkConfiguration_asks (w : World) (a : Answers) (s : CMakeBuildSystem)
    (h : asksForDecision w s = true) :
    checkConfiguration w a s
      = match a.clickedButton with
        | ClickedButton.applyButton =>
          (false, { emit (Effect.changedOutsideBox
              (compareWithCache w s.m_parameters s.bc.configurationFromCMake
                s.m_parameters.configuration [] []).2) s with
            m_parameters := { s.m_parameters with
              configuration := (compareWithCache w s.m_parameters s.bc.configurationFromCMake
                s.m_parameters.configuration [] []).1 },
            bc := { s.bc with
              configurationForCMake := (compareWithCache w s.m_parameters
                s.bc.configurationFromCMake s.m_parameters.configuration [] []).1 } })
        | ClickedButton.defaultButton =>
          (true, emit (Effect.changedOutsideBox
              (compareWithCache w s.m_parameters s.bc.configurationFromCMake
                s.m_parameters.configuration [] []).2) s)
        | ClickedButton.noButton =>
          (false, emit (Effect.changedOutsideBox
              (compareWithCache w s.m_parameters s.bc.configurationFromCMake
                s.m_parameters.configuration [] []).2) s) := by
  have he := compareWithCache_isEmpty w s.m_parameters s.bc.configurationFromCMake
    s.m_parameters.configuration
  unfold asksForDecision at h
  simp only [Bool.and_eq_true, beq_iff_eq, Bool.not_eq_true'] at h
  obtain ⟨⟨hw, hc⟩, hany⟩ := h
  unfold checkConfiguration
  simp only [hw, ne_eq, not_true_eq_false, if_false, hc, Bool.false_eq_true, he, hany,
    Bool.not_true, Bool.not_false, if_true]
  cases a.clickedButton <;> simp [emit, hw]

/-- C25: `checkConfiguration` asks for a decision (shows the box) exactly when
the work directory is the build directory, the cache configuration is not empty
and some item of the stored configuration is missing from the cache or has a
cache value that differs from its expanded stored value; the box then lists
exactly the keys of those items, each once.  When it does not ask, it returns
false and changes nothing.  It returns true exactly when it asked and the answer
was "discard external changes".  (For a stored item with a non-empty key,
"missing from the cache" says that no cache item has its key.) -/
theorem C25_checkConfiguration_decision (w : World) (a : Answers) (s : CMakeBuildSystem) :
    (asksForDecision w s = true →
      ∃ changedKeys : List (String × String × String),
        effectsSince s (checkConfiguration w a s).2 = [Effect.changedOutsideBox changedKeys]
        ∧ (∀ k, k ∈ changedKeys.map Prod.fst
            ↔ ∃ i ∈ s.m_parameters.configuration, i.key = k
                ∧ differsFromCache w s.m_parameters s.bc.configurationFromCMake i = true)
        ∧ (changedKeys.map Prod.fst).Nodup)
    ∧ (asksForDecision w s = false → checkConfiguration w a s = (false, s))
    ∧ ((checkConfiguration w a s).1 = true
        ↔ asksForDecision w s = true ∧ a.clickedButton = ClickedButton.defaultButton)
    ∧ (∀ (cache : CMakeConfig) (item : CMakeConfigItem), QString.isEmpty item.key = false →
        ((cacheItemFor cache item).isNull = true ↔ ∀ c ∈ cache, c.key ≠ item.key)) := by
  refine ⟨?_, checkConfiguration_silent w a s, ?_, ?_⟩
  · intro hasks
    obtain ⟨-, hkeys, hnodup⟩ := compareWithCache_spec w s.m_parameters
      s.bc.configurationFromCMake s.m_parameters.configuration [] []
    refine ⟨_, ?_, fun k => (hkeys k).trans (by simp), hnodup (by simp)⟩
    rw [checkConfiguration_asks w a s hasks]
    cases a.clickedButton <;> simp [effectsSince, emit]
  · cases hasks : asksForDecision w s
    · rw [checkConfiguration_silent w a s hasks]
      simp
    · rw [checkConfiguration_asks w a s hasks]
      cases a.clickedButton <;> simp
  · intro cache item hkey
    unfold cacheItemFor
    cases hf : cache.find? (fun i => i.key == item.key) with
    | none =>
      simp only [Option.getD_none]
      rw [List.find?_eq_none] at hf
      refine ⟨fun _ c hc hk => hf c hc (by simp [hk]), fun _ => by decide⟩
    | some c =>
      simp only [Option.getD_some]
      have hk : c.key = item.key := by
        have := List.find?_some hf
        simpa using this
      have hmem := List.mem_of_find?_eq_some hf
      constructor
      · intro hnull
        unfold CMakeConfigItem.isNull at hnull
        rw [hk, hkey] at hnull
        exact absurd hnull (by simp)
      · intro hall
        exact absurd hk (hall c hmem)

/-- Witness of C25: the example system with the generator drift: the box lists
the key `CMAKE_GENERATOR`, and the call returns true when the user discards the
external changes and false when the user adapts the project. -/
theorem C25_checkConfiguration_decision_witness :
    asksForDecision plainWorld driftSystem = true
    ∧ (∃ changedKeys : List (String × String × String),
        effectsSince driftSystem (checkConfiguration plainWorld discardAnswers driftSystem).2
          = [Effect.changedOutsideBox changedKeys]
        ∧ (∀ k, k ∈ changedKeys.map Prod.fst
            ↔ ∃ i ∈ driftSystem.m_parameters.configuration, i.key = k
                ∧ differsFromCache plainWorld driftSystem.m_parameters
                    driftSystem.bc.configurationFromCMake i = true)
        ∧ (changedKeys.map Prod.fst).Nodup)
    ∧ (checkConfiguration plainWorld discardAnswers driftSystem).1 = true
    ∧ (checkConfiguration plainWorld plainAnswers driftSystem).1 = false
    ∧ asksForDecision plainWorld unconfiguredSystem = false
    ∧ checkConfiguration plainWorld discardAnswers unconfiguredSystem
        = (false, unconfiguredSystem) :=
  have h := C25_checkConfiguration_decision plainWorld discardAnswers driftSystem
  have hu := C25_checkConfiguration_decision plainWorld discardAnswers unconfiguredSystem
  ⟨by decide, h.1 (by decide), h.2.2.1.2 ⟨by decide, rfl⟩, by decide, by decide,
    hu.2.1 (by decide)⟩

theorem cacheItemFor_found (cache : CMakeConfig) (item : CMakeConfigItem)
    (h : (cacheItemFor cache item).isNull = false) :
    cacheItemFor cache item ∈ cache ∧ (cacheItemFor cache item).key = item.key := by
  unfold cacheItemFor at h ⊢
  cases hf : cache.find? (fun i => i.key == item.key) with
  | none =>
    rw [hf] at h
    exact absurd h (by decide)
  | some c =>
    simp only [Option.getD_some]
    exact ⟨List.mem_of_find?_eq_some hf, by simpa using List.find?_some hf⟩

theorem cacheItemFor_idem (cache : CMakeConfig) (item : CMakeConfigItem)
    (h : (cacheItemFor cache item).isNull = false) :
    cacheItemFor cache (cacheItemFor cache item) = cacheItemFor cache item := by
  have hk := (cacheItemFor_found cache item h).2
  show (cache.find? (fun i => i.key == (cacheItemFor cache item).key)).getD _ = _
  rw [hk]
  rfl

theorem adaptedItem_some (w : World) (p : BuildDirParameters) (cache : CMakeConfig)
    (projectItem item : CMakeConfigItem)
    (h : adaptedItem w p cache projectItem = some item) :
    (cacheItemFor cache item).isNull = false
    ∧ item.key = projectItem.key
    ∧ (item = cacheItemFor cache item
      ∨ (item = projectItem ∧ expandedValue w p item = (cacheItemFor cache item).value)) := by
  unfold adaptedItem at h
  by_cases hnull : (cacheItemFor cache projectItem).isNull = true
  · simp [hnull] at h
  · have hnull2 : (cacheItemFor cache projectItem).isNull = false := by simpa using hnull
    by_cases hval : (cacheItemFor cache projectItem).value = expandedValue w p projectItem
    · simp only [hnull2, Bool.false_eq_true, if_false, hval, ne_eq, not_true_eq_false,
        Option.some.injEq] at h
      subst h
      exact ⟨hnull2, rfl, Or.inr ⟨rfl, hval.symm⟩⟩
    · simp only [hnull2, Bool.false_eq_true, if_false, ne_eq, hval, not_false_eq_true, if_true,
        Option.some.injEq] at h
      subst h
      rw [cacheItemFor_idem cache projectItem hnull2]
      exact ⟨hnull2, (cacheItemFor_found cache projectItem hnull2).2, Or.inl rfl⟩

/-- C29, refuted as stated: in the example system the stored configuration
names the generator by the macro `%{Generator}`, which expands to the cache
value `Ninja`, asks for a debug build where the cache records a release build,
and holds a prefix path the cache does not know.  After the user adapts the
project, the new configuration keeps the stored generator item, whose value
`%{Generator}` is not the cache value `Ninja`. -/
theorem C29_counterexample_kept_item_holds_macro :
    asksForDecision macroWorld macroSystem = true
    ∧ plainAnswers.clickedButton = ClickedButton.applyButton
    ∧ (checkConfiguration macroWorld plainAnswers macroSystem).2.m_parameters.configuration
      = [{ key := "CMAKE_GENERATOR", value := "%{Generator}", inCMakeCache := false,
           values := [] },
         { key := "CMAKE_BUILD_TYPE", value := "Release", inCMakeCache := true,
           values := [] }]
    ∧ (cacheItemFor macroSystem.bc.configurationFromCMake
        { key := "CMAKE_GENERATOR", value := "%{Generator}", inCMakeCache := false,
          values := [] }).value = "Ninja" := by
  decide

/-- C29, as amended: when `checkConfiguration` asks and the user chooses to
adapt the project, the call returns false and replaces the stored configuration
(and the configuration for CMake of the build configuration) with the list that
holds, in the original order, for every stored item whose key is present in the
cache the cache's item when the cache value differs from the expanded stored
value and the stored item itself when they agree, and nothing for a stored item
whose key is missing from the cache.  Hence every key of the new configuration
is a key of the cache, the new configuration is at most as long as the old one,
and each of its items either is the cache's item for its key or is a stored item
whose expanded value is the cache value (its unexpanded value may differ). -/
theorem C29_adapted_configuration (w : World) (a : Answers) (s : CMakeBuildSystem)
    (hasks : asksForDecision w s = true)
    (hadapt : a.clickedButton = ClickedButton.applyButton) :
    (checkConfiguration w a s).1 = false
    ∧ (checkConfiguration w a s).2.m_parameters.configuration
        = s.m_parameters.configuration.filterMap
            (adaptedItem w s.m_parameters s.bc.configurationFromCMake)
    ∧ (checkConfiguration w a s).2.bc.configurationForCMake
        = s.m_parameters.configuration.filterMap
            (adaptedItem w s.m_parameters s.bc.configurationFromCMake)
    ∧ (∀ item ∈ (checkConfiguration w a s).2.m_parameters.configuration,
        item.key ∈ s.bc.configurationFromCMake.map (fun c => c.key))
    ∧ (checkConfiguration w a s).2.m_parameters.configuration.length
        ≤ s.m_parameters.configuration.length
    ∧ (∀ item ∈ (checkConfiguration w a s).2.m_parameters.configuration,
        item = cacheItemFor s.bc.configurationFromCMake item
        ∨ (item ∈ s.m_parameters.configuration
          ∧ expandedValue w s.m_parameters item
              = (cacheItemFor s.bc.configurationFromCMake item).value)) := by
  have hnew := (compareWithCache_spec w s.m_parameters s.bc.configurationFromCMake
    s.m_parameters.configuration [] []).1
  rw [List.nil_append] at hnew
  have hconf : (checkConfiguration w a s).2.m_parameters.configuration
      = s.m_parameters.configuration.filterMap
          (adaptedItem w s.m_parameters s.bc.configurationFromCMake) := by
    rw [checkConfiguration_asks w a s hasks, hadapt]
    exact hnew
  refine ⟨?_, hconf, ?_, ?_, ?_, ?_⟩
  · rw [checkConfiguration_asks w a s hasks, hadapt]
  · rw [checkConfiguration_asks w a s hasks, hadapt]
    exact hnew
  · intro item hmem
    rw [hconf, List.mem_filterMap] at hmem
    obtain ⟨projectItem, -, hsome⟩ := hmem
    obtain ⟨hnull, -, -⟩ := adaptedItem_some w _ _ projectItem item hsome
    obtain ⟨hin, hkey⟩ := cacheItemFor_found _ item hnull
    rw [List.mem_map]
    exact ⟨_, hin, hkey⟩
  · rw [hconf]
    exact List.length_filterMap_le _ _
  · intro item hmem
    rw [hconf, List.mem_filterMap] at hmem
    obtain ⟨projectItem, hp, hsome⟩ := hmem
    obtain ⟨-, -, h | ⟨h1, h2⟩⟩ := adaptedItem_some w _ _ projectItem item hsome
    · exact Or.inl h
    · exact Or.inr ⟨h1 ▸ hp, h2⟩

/-- Witness of C29 as amended: the example system with the macro; the new
configuration is the stored generator item followed by the cache's build type
item, and the prefix path is gone. -/
theorem C29_adapted_configuration_witness :
    (asksForDecision macroWorld macroSystem = true
      ∧ plainAnswers.clickedButton = ClickedButton.applyButton)
    ∧ (checkConfiguration macroWorld plainAnswers macroSystem).1 = false
    ∧ (checkConfiguration macroWorld plainAnswers macroSystem).2.m_parameters.configuration
        = macroSystem.m_parameters.configuration.filterMap
            (adaptedItem macroWorld macroSystem.m_parameters
              macroSystem.bc.configurationFromCMake)
    ∧ (checkConfiguration macroWorld plainAnswers macroSystem).2.m_parameters.configuration.length
        ≤ macroSystem.m_parameters.configuration.length :=
  have h := C29_adapted_configuration macroWorld plainAnswers macroSystem (by decide) rfl
  ⟨by decide, h.1, h.2.1, h.2.2.2.2.1⟩

/-! ### The comparison walk of `hasConfigChanged` -/

theorem hasCriticalDifference_iff (current target : CMakeConfig) :
    hasCriticalDifference current target = true
      ↔ ∃ c ∈ current, ∃ k ∈ target,
          c.key = k.key ∧ c.value ≠ k.value ∧ k.key ∈ criticalKeys := by
  simp [hasCriticalDifference, and_assoc]

theorem hasMissingOrChanged_iff (current target : CMakeConfig) :
    hasMissingOrChanged current target = true
      ↔ ∃ k ∈ target, (∀ c ∈ current, c.key ≠ k.key)
          ∨ ∃ c ∈ current, c.key = k.key ∧ c.value ≠ k.value := by
  simp [hasMissingOrChanged]

theorem compareConfigurations_nil_left (a : Answers) (s : CMakeBuildSystem)
    (kcit : CMakeConfig) (mustReparse : Bool) :
    compareConfigurations a s [] kcit mustReparse = (mustReparse || !kcit.isEmpty, s) := by
  rw [compareConfigurations]
  intro c cs k ks h
  exact absurd h (by simp)

theorem compareConfigurations_nil_right (a : Answers) (s : CMakeBuildSystem)
    (ccit : CMakeConfig) (mustReparse : Bool) :
    compareConfigurations a s ccit [] mustReparse = (mustReparse, s) := by
  rw [compareConfigurations]
  · simp
  · intro c cs k ks _ h
    exact absurd h (by simp)

theorem criticalDifference_same_key (c k : CMakeConfigItem) (cs ks : CMakeConfig)
    (hkey : c.key = k.key) (hc : ∀ c2 ∈ cs, c.key < c2.key) (hk : ∀ k2 ∈ ks, k.key < k2.key) :
    hasCriticalDifference (c :: cs) (k :: ks) = true
      ↔ (c.value ≠ k.value ∧ k.key ∈ criticalKeys) ∨ hasCriticalDifference cs ks = true := by
  rw [hasCriticalDifference_iff, hasCriticalDifference_iff]
  constructor
  · rintro ⟨c2, hc2, k2, hk2, h1, h2, h3⟩
    rcases List.mem_cons.mp hc2 with e1 | hc3
    · rcases List.mem_cons.mp hk2 with e2 | hk3
      · subst e1 e2
        exact Or.inl ⟨h2, h3⟩
      · subst e1
        exact absurd (hkey ▸ h1 : k.key = k2.key) (ne_of_lt (hk k2 hk3))
    · rcases List.mem_cons.mp hk2 with e2 | hk3
      · subst e2
        exact absurd (hkey.trans h1.symm) (ne_of_lt (hc c2 hc3))
      · exact Or.inr ⟨c2, hc3, k2, hk3, h1, h2, h3⟩
  · rintro (⟨h2, h3⟩ | ⟨c2, hc2, k2, hk2, h⟩)
    · exact ⟨c, List.mem_cons_self _ _, k, List.mem_cons_self _ _, hkey, h2, h3⟩
    · exact ⟨c2, List.mem_cons_of_mem _ hc2, k2, List.mem_cons_of_mem _ hk2, h⟩

theorem missingOrChanged_same_key (c k : CMakeConfigItem) (cs ks : CMakeConfig)
    (hkey : c.key = k.key) (hc : ∀ c2 ∈ cs, c.key < c2.key) (hk : ∀ k2 ∈ ks, k.key < k2.key) :
    hasMissingOrChanged (c :: cs) (k :: ks) = true
      ↔ c.value ≠ k.value ∨ hasMissingOrChanged cs ks = true := by
  rw [hasMissingOrChanged_iff, hasMissingOrChanged_iff]
  constructor
  · rintro ⟨k2, hk2, h⟩
    rcases List.mem_cons.mp hk2 with e2 | hk3
    · subst e2
      rcases h with h | ⟨c2, hc2, h1, h2⟩
      · exact absurd hkey (h c (List.mem_cons_self _ _))
      · rcases List.mem_cons.mp hc2 with e1 | hc3
        · subst e1
          exact Or.inl h2
        · exact absurd (hkey.trans h1.symm) (ne_of_lt (hc c2 hc3))
    · rcases h with h | ⟨c2, hc2, h1, h2⟩
      · exact Or.inr ⟨k2, hk3, Or.inl fun c2 hc2 => h c2 (List.mem_cons_of_mem _ hc2)⟩
      · rcases List.mem_cons.mp hc2 with e1 | hc3
        · subst e1
          exact absurd (hkey ▸ h1 : k.key = k2.key) (ne_of_lt (hk k2 hk3))
        · exact Or.inr ⟨k2, hk3, Or.inr ⟨c2, hc3, h1, h2⟩⟩
  · rintro (h | ⟨k2, hk2, h⟩)
    · exact ⟨k, List.mem_cons_self _ _, Or.inr ⟨c, List.mem_cons_self _ _, hkey, h⟩⟩
    · refine ⟨k2, List.mem_cons_of_mem _ hk2, ?_⟩
      rcases h with h | ⟨c2, hc2, h⟩
      · refine Or.inl fun c2 hc2 => ?_
        rcases List.mem_cons.mp hc2 with e1 | hc3
        · subst e1
          intro h1
          exact absurd (hkey ▸ h1 : k.key = k2.key) (ne_of_lt (hk k2 hk2))
        · exact h c2 hc3
      · exact Or.inr ⟨c2, List.mem_cons_of_mem _ hc2, h⟩

theorem criticalDifference_skip_current (c : CMakeConfigItem) (cs target : CMakeConfig)
    (hnone : ∀ k2 ∈ target, c.key ≠ k2.key) :
    hasCriticalDifference (c :: cs) target = hasCriticalDifference cs target := by
  rw [Bool.eq_iff_iff, hasCriticalDifference_iff, hasCriticalDifference_iff]
  constructor
  · rintro ⟨c2, hc2, k2, hk2, h⟩
    rcases List.mem_cons.mp hc2 with e1 | hc3
    · subst e1
      exact absurd h.1 (hnone k2 hk2)
    · exact ⟨c2, hc3, k2, hk2, h⟩
  · rintro ⟨c2, hc2, h⟩
    exact ⟨c2, List.mem_cons_of_mem _ hc2, h⟩

theorem missingOrChanged_skip_current (c : CMakeConfigItem) (cs target : CMakeConfig)
    (hnone : ∀ k2 ∈ target, c.key ≠ k2.key) :
    hasMissingOrChanged (c :: cs) target = hasMissingOrChanged cs target := by
  rw [Bool.eq_iff_iff, hasMissingOrChanged_iff, hasMissingOrChanged_iff]
  constructor
  · rintro ⟨k2, hk2, h | ⟨c2, hc2, h⟩⟩
    · exact ⟨k2, hk2, Or.inl fun c2 hc2 => h c2 (List.mem_cons_of_mem _ hc2)⟩
    · rcases List.mem_cons.mp hc2 with e1 | hc3
      · subst e1
        exact absurd h.1 (hnone k2 hk2)
      · exact ⟨k2, hk2, Or.inr ⟨c2, hc3, h⟩⟩
  · rintro ⟨k2, hk2, h | ⟨c2, hc2, h⟩⟩
    · refine ⟨k2, hk2, Or.inl fun c2 hc2 => ?_⟩
      rcases List.mem_cons.mp hc2 with e1 | hc3
      · subst e1
        exact hnone k2 hk2
      · exact h c2 hc3
    · exact ⟨k2, hk2, Or.inr ⟨c2, List.mem_cons_of_mem _ hc2, h⟩⟩

theorem criticalDifference_skip_target (k : CMakeConfigItem) (current ks : CMakeConfig)
    (hnone : ∀ c2 ∈ current, c2.key ≠ k.key) :
    hasCriticalDifference current (k :: ks) = hasCriticalDifference current ks := by
  rw [Bool.eq_iff_iff, hasCriticalDifference_iff, hasCriticalDifference_iff]
  constructor
  · rintro ⟨c2, hc2, k2, hk2, h⟩
    rcases List.mem_cons.mp hk2 with e2 | hk3
    · subst e2
      exact absurd h.1 (hnone c2 hc2)
    · exact ⟨c2, hc2, k2, hk3, h⟩
  · rintro ⟨c2, hc2, k2, hk2, h⟩
    exact ⟨c2, hc2, k2, List.mem_cons_of_mem _ hk2, h⟩

theorem missingOrChanged_of_missing (k : CMakeConfigItem) (current ks : CMakeConfig)
    (hnone : ∀ c2 ∈ current, c2.key ≠ k.key) :
    hasMissingOrChanged current (k :: ks) = true := by
  rw [hasMissingOrChanged_iff]
  exact ⟨k, List.mem_cons_self _ _, Or.inl hnone⟩

/-- The walk of `hasConfigChanged` over two configurations sorted by key, in
closed form, from any point of the walk. -/
theorem compareConfigurations_spec (a : Answers) (s : CMakeBuildSystem)
    (current target : CMakeConfig) (mustReparse : Bool)
    (hcurrent : SortedByKey current) (htarget : SortedByKey target) :
    compareConfigurations a s current target mustReparse
      = if hasCriticalDifference current target = true then (false, clearCMakeCache a s)
        else (mustReparse || hasMissingOrChanged current target, s) := by
  induction current generalizing target mustReparse with
  | nil =>
    rw [compareConfigurations_nil_left]
    have h1 : hasCriticalDifference [] target = false := by simp [hasCriticalDifference]
    have h2 : hasMissingOrChanged [] target = !target.isEmpty := by
      cases target <;> simp [hasMissingOrChanged]
    simp [h1, h2]
  | cons c cs ihc =>
    have hc : ∀ c2 ∈ cs, c.key < c2.key := (List.pairwise_cons.mp hcurrent).1
    have hcs : SortedByKey cs := (List.pairwise_cons.mp hcurrent).2
    induction target generalizing mustReparse with
    | nil =>
      rw [compareConfigurations_nil_right]
      have h1 : hasCriticalDifference (c :: cs) [] = false := by simp [hasCriticalDifference]
      have h2 : hasMissingOrChanged (c :: cs) [] = false := by simp [hasMissingOrChanged]
      simp [h1, h2]
    | cons k ks ihk =>
      have hk : ∀ k2 ∈ ks, k.key < k2.key := (List.pairwise_cons.mp htarget).1
      have hks : SortedByKey ks := (List.pairwise_cons.mp htarget).2
      have hcont : criticalKeys.contains k.key = true ↔ k.key ∈ criticalKeys := by simp
      rw [compareConfigurations]
      by_cases hkey : c.key = k.key
      · -- the two keys are the same
        have hcrit := criticalDifference_same_key c k cs ks hkey hc hk
        have hneed := missingOrChanged_same_key c k cs ks hkey hc hk
        rw [if_pos hkey]
        by_cases hval : c.value = k.value
        · have h1 : hasCriticalDifference (c :: cs) (k :: ks) = hasCriticalDifference cs ks := by
            rw [Bool.eq_iff_iff, hcrit]
            simp [hval]
          have h2 : hasMissingOrChanged (c :: cs) (k :: ks) = hasMissingOrChanged cs ks := by
            rw [Bool.eq_iff_iff, hneed]
            simp [hval]
          rw [if_neg (not_not.mpr hval), ihc ks mustReparse hcs hks, h1, h2]
        · have h2 : hasMissingOrChanged (c :: cs) (k :: ks) = true := hneed.2 (Or.inl hval)
          rw [if_pos hval]
          by_cases hcritical : criticalKeys.contains k.key = true
          · have h1 : hasCriticalDifference (c :: cs) (k :: ks) = true :=
              hcrit.2 (Or.inl ⟨hval, hcont.1 hcritical⟩)
            rw [if_pos hcritical, if_pos h1]
          · have h1 : hasCriticalDifference (c :: cs) (k :: ks) = hasCriticalDifference cs ks := by
              rw [Bool.eq_iff_iff, hcrit]
              constructor
              · rintro (⟨-, h⟩ | h)
                · exact absurd (hcont.2 h) hcritical
                · exact h
              · exact Or.inr
            rw [if_neg hcritical, ihc ks true hcs hks, h1, h2]
            simp
      · rw [if_neg hkey]
        by_cases hlt : c.key < k.key
        · -- the key of the current item comes first: it has no partner
          have hnone : ∀ k2 ∈ k :: ks, c.key ≠ k2.key := by
            intro k2 hk2
            rcases List.mem_cons.mp hk2 with h | h
            · rw [h]; exact hkey
            · exact ne_of_lt (lt_trans hlt (hk k2 h))
          rw [if_pos hlt, ihc (k :: ks) mustReparse hcs htarget,
            criticalDifference_skip_current c cs (k :: ks) hnone,
            missingOrChanged_skip_current c cs (k :: ks) hnone]
        · -- the key of the target item comes first: it is missing
          have hgt : k.key < c.key := by
            rcases lt_trichotomy c.key k.key with h | h | h
            · exact absurd h hlt
            · exact absurd h hkey
            · exact h
          have hnone : ∀ c2 ∈ c :: cs, c2.key ≠ k.key := by
            intro c2 hc2
            rcases List.mem_cons.mp hc2 with h | h
            · rw [h]; exact hkey
            · exact (ne_of_lt (lt_trans hgt (hc c2 h))).symm
          rw [if_neg hlt, ihk true hks, criticalDifference_skip_target k (c :: cs) ks hnone,
            missingOrChanged_of_missing k (c :: cs) ks hnone]
          simp

theorem removeRecursively_gone (fs : Disk) (p : FilePath) :
    (fs.removeRecursively p).pathExists p = false := by
  simp [Disk.removeRecursively, Disk.pathExists]

theorem removeRecursively_stays_gone (fs : Disk) (p q : FilePath)
    (h : fs.pathExists p = false) : (fs.removeRecursively q).pathExists p = false := by
  simp only [Disk.pathExists, Disk.removeRecursively] at h ⊢
  rw [← Bool.not_eq_true, List.contains_iff_exists_mem_beq] at h ⊢
  rintro ⟨x, hx, hxp⟩
  exact h ⟨x, (List.mem_filter.mp hx).1, hxp⟩

theorem clearCMakeCache_removes_cache (a : Answers) (s : CMakeBuildSystem)
    (hvalid : s.m_parameters.isValid = true) (herror : s.m_isHandlingError = false) :
    (clearCMakeCache a s).fs.pathExists
      (pathAppended s.m_parameters.workDirectory "CMakeCache.txt") = false := by
  unfold clearCMakeCache
  simp only [hvalid, herror, Bool.not_true, Bool.false_eq_true, if_false, stopParsingAndClearState,
    emit]
  split_ifs with h1 h2 h2
  · exact removeRecursively_stays_gone _ _ _ (removeRecursively_gone _ _)
  · exact removeRecursively_gone _ _
  · exact removeRecursively_stays_gone _ _ _ (by simpa using h1)
  · simpa using h1

/-- C26: in the comparison walk of `hasConfigChanged`, for a current and a
target configuration that are both sorted by key with no key twice: if some
critical key (`CMAKE_GENERATOR`, `CMAKE_COMMAND`, `CMAKE_C_COMPILER`,
`CMAKE_CXX_COMPILER`) occurs in both with different values, the walk calls
`clearCMakeCache` and returns false, whatever the flag `mustReparse` was at
that point of the walk (so also after an earlier difference that is not
critical); otherwise the result is true exactly when some key of the target
configuration is missing from the current configuration or has a different
value there, so a key that only the current configuration has never causes a
reparse.  `clearCMakeCache`, when its two assertions hold, leaves no
`CMakeCache.txt` in the work directory. -/
theorem C26_sorted_comparison_walk (a : Answers) (s : CMakeBuildSystem)
    (current target : CMakeConfig)
    (hcurrent : SortedByKey current) (htarget : SortedByKey target) :
    ((∃ c ∈ current, ∃ k ∈ target, c.key = k.key ∧ c.value ≠ k.value ∧ k.key ∈ criticalKeys) →
      ∀ mustReparse : Bool,
        compareConfigurations a s current target mustReparse = (false, clearCMakeCache a s))
    ∧ ((¬ ∃ c ∈ current, ∃ k ∈ target,
          c.key = k.key ∧ c.value ≠ k.value ∧ k.key ∈ criticalKeys) →
      (compareConfigurations a s current target false).2 = s
      ∧ ((compareConfigurations a s current target false).1 = true
        ↔ ∃ k ∈ target, (∀ c ∈ current, c.key ≠ k.key)
            ∨ ∃ c ∈ current, c.key = k.key ∧ c.value ≠ k.value))
    ∧ (s.m_parameters.isValid = true → s.m_isHandlingError = false →
      (clearCMakeCache a s).fs.pathExists
        (pathAppended s.m_parameters.workDirectory "CMakeCache.txt") = false) := by
  refine ⟨?_, ?_, clearCMakeCache_removes_cache a s⟩
  · intro hcrit mustReparse
    rw [compareConfigurations_spec a s current target mustReparse hcurrent htarget,
      if_pos ((hasCriticalDifference_iff current target).2 hcrit)]
  · intro hcrit
    have h : ¬ hasCriticalDifference current target = true :=
      fun h => hcrit ((hasCriticalDifference_iff current target).1 h)
    rw [compareConfigurations_spec a s current target false hcurrent htarget, if_neg h]
    exact ⟨rfl, by simpa using hasMissingOrChanged_iff current target⟩

theorem walkCurrent_sorted : SortedByKey walkCurrent := by
  simp only [SortedByKey, walkCurrent, List.pairwise_cons, List.mem_cons, List.mem_singleton,
    forall_eq_or_imp, forall_eq, List.not_mem_nil, false_implies, implies_true, and_true,
    List.Pairwise.nil, String.lt_iff_toList_lt]
  decide

theorem walkTargetCritical_sorted : SortedByKey walkTargetCritical := by
  simp only [SortedByKey, walkTargetCritical, List.pairwise_cons, List.mem_cons,
    List.mem_singleton, forall_eq_or_imp, forall_eq, List.not_mem_nil, false_implies,
    implies_true, and_true, List.Pairwise.nil, String.lt_iff_toList_lt]
  decide

theorem walkTargetSame_sorted : SortedByKey walkTargetSame := by
  simp only [SortedByKey, walkTargetSame, List.pairwise_cons, List.mem_cons,
    List.mem_singleton, forall_eq_or_imp, forall_eq, List.not_mem_nil, false_implies,
    implies_true, and_true, List.Pairwise.nil, String.lt_iff_toList_lt]
  decide

/-- Witness of C26: against the sorted current configuration, the target that
differs in the build type (not critical, met first) and in the generator
(critical) clears the cache and gives false; the target that agrees on both
gives false without clearing, although the current configuration has two keys
of its own. -/
theorem C26_sorted_comparison_walk_witness :
    (SortedByKey walkCurrent ∧ SortedByKey walkTargetCritical ∧ SortedByKey walkTargetSame)
    ∧ compareConfigurations plainAnswers idleSystem walkCurrent walkTargetCritical false
        = (false, clearCMakeCache plainAnswers idleSystem)
    ∧ (clearCMakeCache plainAnswers idleSystem).fs.pathExists "/build/CMakeCache.txt" = false
    ∧ (compareConfigurations plainAnswers idleSystem walkCurrent walkTargetSame false).2
        = idleSystem
    ∧ ((compareConfigurations plainAnswers idleSystem walkCurrent walkTargetSame false).1 = true
        ↔ ∃ k ∈ walkTargetSame, (∀ c ∈ walkCurrent, c.key ≠ k.key)
            ∨ ∃ c ∈ walkCurrent, c.key = k.key ∧ c.value ≠ k.value) :=
  have h := C26_sorted_comparison_walk plainAnswers idleSystem walkCurrent walkTargetCritical
    walkCurrent_sorted walkTargetCritical_sorted
  have h2 := C26_sorted_comparison_walk plainAnswers idleSystem walkCurrent walkTargetSame
    walkCurrent_sorted walkTargetSame_sorted
  ⟨⟨walkCurrent_sorted, walkTargetCritical_sorted, walkTargetSame_sorted⟩,
    h.1 ((hasCriticalDifference_iff _ _).1 (by decide)) false,
    h.2.2 (by decide) (by decide),
    h2.2.1 (fun hc => absurd ((hasCriticalDifference_iff _ _).2 hc) (by decide))⟩

end CMakeBuildSystem
end CMakeProjectManager
